import Mathlib

/-!
# SafeScale: shielded data, the job runtime and their clients

A shallow embedding of `lib/utils/concurrency/shielded.go`, `lib/server/job.go`,
`lib/server/cluster/flavors/boh/boh.go`, `lib/utils/timeouts.go`,
`lib/server/listeners/tenant.go`, the openstack and cloudferro providers of
`lib/server/iaas/providers` and `perform/cmd/cluster.go`, followed by the
properties proved about them.

Conventions of the embedding:
* a Go pointer or interface that may be `nil` is an `Option`;
* a `fail.Error` / `error` result is an `Option Error` (`none` is `nil`);
* the methods of `Shielded` are embedded on memory (`Shielded.InspectAt`,
  `Shielded.AlterAt`, `Shielded.DeserializeAt`): the witness is a reference, the
  closure is handed the reference `Clone()` returned and may write to any cell,
  so that a `Clone` returning an alias of the witness lets the closure change
  the witness; they are also embedded on values (`Shielded.Inspect`,
  `Shielded.Alter`, ...), where the closure is a function of the content of the
  clone and of the variables it captured: this is the view of the same methods
  under the contract of `Clone` (`Inspect_on_values`, `Alter_on_values`), used
  for what does not depend on where the clone lies;
* collaborators whose code is not part of the sources (the tasked lock, the
  `data.Clonable` implementation, the JSON codec, the uuid generator, the
  template machinery, the process environment, `time.ParseDuration` and the
  `IsNull` of the cloudferro provider) are parameters of the definitions;
* package variables (`jobMap`, `templateBox`, `globalSystemRequirementsContent`,
  `currentTenant`) are fields of a state passed in and returned;
* code that may panic returns a `Run`, whose second case is the panic.
-/

namespace SafeScale

/-- Error kinds produced by the `fail` / `scerr` constructors used in the sources. -/
inductive Error where
  | InvalidInstanceError
  | InvalidInstanceContentError (what why : String)
  | InvalidParameterError (what why : String)
  | NotFoundError (msg : String)
  | SyntaxError (msg : String)
  | AlteredNothingError
  | Wrap (cause : Error) (msg : String)
  | Other (msg : String)
  deriving DecidableEq, Repr

namespace concurrency

/-- Modelled from the spec: `concurrency.Task` is declared outside the sources.
A null task is an explicit sentinel, distinct from a live task whose id is empty. -/
inductive Task where
  | null
  | live (id : String)
  deriving DecidableEq, Repr

/-- Modelled from the spec: `Task.IsNull` holds of the null sentinel only. -/
def Task.IsNull : Task → Bool
  | .null => true
  | .live _ => false

/-- The four operations of `TaskedLock`, over an abstract lock state `L`.
Each returns the new lock state and the `fail.Error` of the call. -/
structure TaskedLock (L : Type) where
  RLock : L → Task → L × Option Error
  RUnlock : L → Task → L × Option Error
  Lock : L → Task → L × Option Error
  Unlock : L → Task → L × Option Error

/-- The operations of a tasked lock, as recorded by `TaskedLock.traced`. -/
inductive LockOp where
  | RLock
  | RUnlock
  | Lock
  | Unlock
  deriving DecidableEq, Repr

/-- A tasked lock that behaves like `K` and also appends each call to a trace. -/
def TaskedLock.traced {L : Type} (K : TaskedLock L) : TaskedLock (L × List LockOp) where
  RLock := fun l t => (((K.RLock l.1 t).1, l.2 ++ [LockOp.RLock]), (K.RLock l.1 t).2)
  RUnlock := fun l t => (((K.RUnlock l.1 t).1, l.2 ++ [LockOp.RUnlock]), (K.RUnlock l.1 t).2)
  Lock := fun l t => (((K.Lock l.1 t).1, l.2 ++ [LockOp.Lock]), (K.Lock l.1 t).2)
  Unlock := fun l t => (((K.Unlock l.1 t).1, l.2 ++ [LockOp.Unlock]), (K.Unlock l.1 t).2)

/-- A lock whose state is the trace of calls made on it and whose four
operations return the given errors. -/
def scriptedLock (rl ru wl wu : Option Error) : TaskedLock (List LockOp) where
  RLock := fun l _ => (l ++ [LockOp.RLock], rl)
  RUnlock := fun l _ => (l ++ [LockOp.RUnlock], ru)
  Lock := fun l _ => (l ++ [LockOp.Lock], wl)
  Unlock := fun l _ => (l ++ [LockOp.Unlock], wu)

/-- The two methods of `data.Clonable`, on values of the witness type `V`:
`Clone` yields the value of the fresh copy, `Replace w c` the value of the
receiver `w` after `w.Replace(c)`. -/
structure Clonable (V : Type) where
  Clone : V → V
  Replace : V → V → V

/-- The contract of `data.Clonable`: a clone is deeply equal to its original and
`Replace` makes the receiver deeply equal to its argument. -/
def Clonable.Lawful {V : Type} (C : Clonable V) : Prop :=
  (∀ v, C.Clone v = v) ∧ (∀ w c, C.Replace w c = c)

/-- The struct `Shielded`: the protected value and the state of its lock. -/
structure Shielded (V L : Type) where
  witness : Option V
  lock : L

/-- What a closure leaves behind: the clone it was handed (after its
mutations), its captured variables, and the error it returns. -/
structure Ran (V σ : Type) where
  clone : V
  env : σ
  err : Option Error

/-- A closure `func(data.Clonable) fail.Error` capturing variables of type `σ`. -/
abbrev Callback (V σ : Type) := V → σ → Ran V σ

/-- State after a method of `Shielded` returns: the receiver, the captured
variables of the closure, what was passed to `logrus.Warn`, and the returned
error. -/
structure Outcome (V L σ : Type) where
  self : Option (Shielded V L)
  env : σ
  warned : List Error
  xerr : Option Error

/-- The witness held by the receiver after the call (`none` for a nil receiver or
a nil witness). -/
def Outcome.witness {V L σ : Type} (o : Outcome V L σ) : Option V :=
  match o.self with
  | some s => s.witness
  | none => none

/-- The lock state of the receiver after the call. -/
def Outcome.lock {V L σ : Type} (o : Outcome V L σ) : Option L :=
  match o.self with
  | some s => some s.lock
  | none => none

/-- The deferred function of `Inspect` and `Alter`: the unlock error replaces
the result only when the result is `nil`. -/
def deferredErr (xerr unlockErr : Option Error) : Option Error :=
  match xerr, unlockErr with
  | none, some u => some u
  | x, _ => x

/-- The warning logged by the deferred function: `logrus.Warn(unlockErr)` when
the unlock failed. -/
def warnOf (unlockErr : Option Error) : List Error :=
  match unlockErr with
  | some u => [u]
  | none => []

/-- Embedding of `(*Shielded).Inspect` on values: the inspector receives the
content of the clone, which is what `Shielded.InspectAt` amounts to once `Clone`
returns an object sharing nothing with the witness (`Inspect_on_values`). -/
def Shielded.Inspect {V L σ : Type} (K : TaskedLock L) (C : Clonable V)
    (d : Option (Shielded V L)) (task : Task) (inspector : Option (Callback V σ))
    (env : σ) : Outcome V L σ :=
  match d with
  | none => ⟨none, env, [], some Error.InvalidInstanceError⟩
  | some s =>
    if task.IsNull then
      ⟨some s, env, [],
        some (Error.InvalidParameterError "task" "cannot be null value of 'concurrency.Task'")⟩
    else
      match inspector with
      | none => ⟨some s, env, [], some (Error.InvalidParameterError "inspector" "cannot be nil")⟩
      | some fn =>
        match s.witness with
        | none =>
          ⟨some s, env, [], some (Error.InvalidParameterError "d.witness"
            "cannot be nil; use concurrency.NewShielded() to instantiate")⟩
        | some w =>
          match (K.RLock s.lock task).2 with
          | some e => ⟨some ⟨some w, (K.RLock s.lock task).1⟩, env, [], some e⟩
          | none =>
            let r := fn (C.Clone w) env
            let u := K.RUnlock (K.RLock s.lock task).1 task
            ⟨some ⟨some w, u.1⟩, r.env, warnOf u.2, deferredErr r.err u.2⟩

/-- Embedding of `(*Shielded).Alter` on values: the alterer receives the content
of the clone, which is what `Shielded.AlterAt` amounts to once `Clone` returns
an object sharing nothing with the witness (`Alter_on_values`). -/
def Shielded.Alter {V L σ : Type} (K : TaskedLock L) (C : Clonable V)
    (d : Option (Shielded V L)) (task : Task) (alterer : Option (Callback V σ))
    (env : σ) : Outcome V L σ :=
  match d with
  | none => ⟨none, env, [], some Error.InvalidInstanceError⟩
  | some s =>
    if task.IsNull then
      ⟨some s, env, [],
        some (Error.InvalidParameterError "task" "cannot be null value of 'concurrency.Task'")⟩
    else
      match alterer with
      | none => ⟨some s, env, [], some (Error.InvalidParameterError "alterer" "cannot be nil")⟩
      | some fn =>
        match s.witness with
        | none =>
          ⟨some s, env, [], some (Error.InvalidParameterError "d.witness"
            "cannot be nil; use concurrency.NewData() to instantiate")⟩
        | some w =>
          match (K.Lock s.lock task).2 with
          | some e => ⟨some ⟨some w, (K.Lock s.lock task).1⟩, env, [], some e⟩
          | none =>
            let r := fn (C.Clone w) env
            let w1 := match r.err with
              | some _ => w
              | none => C.Replace w r.clone
            let u := K.Unlock (K.Lock s.lock task).1 task
            ⟨some ⟨some w1, u.1⟩, r.env, warnOf u.2, deferredErr r.err u.2⟩

/-- The closure `Serialize` hands to `Inspect`: it stores the result of
`json.Marshal(clonable)` in the captured `jsoned` and turns a marshalling
failure into a syntax error. -/
def serializeInspector {V : Type} (Marshal : V → Except String (List Nat)) :
    Callback V (List Nat) :=
  fun clonable _ =>
    match Marshal clonable with
    | .ok jsoned => ⟨clonable, jsoned, none⟩
    | .error innerErr => ⟨clonable, [], some (Error.SyntaxError ("failed to marshal: " ++ innerErr))⟩

/-- Embedding of `(*Shielded).Serialize`; `Marshal` stands for `json.Marshal`
on the witness type, a byte slice is a list of naturals below 256 and the `nil`
slice is the empty list. The field `env` of the outcome is the returned slice. -/
def Shielded.Serialize {V L : Type} (K : TaskedLock L) (C : Clonable V)
    (Marshal : V → Except String (List Nat)) (d : Option (Shielded V L)) (task : Task) :
    Outcome V L (List Nat) :=
  match d with
  | none => ⟨none, [], [], some Error.InvalidInstanceError⟩
  | some s =>
    if task.IsNull then
      ⟨some s, [], [],
        some (Error.InvalidParameterError "task" "cannot be null value of 'concurrency.Task'")⟩
    else
      let out := Shielded.Inspect K C (some s) task (some (serializeInspector Marshal)) []
      match out.xerr with
      | some xerr => ⟨out.self, [], out.warned, some xerr⟩
      | none => ⟨out.self, out.env, out.warned, none⟩

/-- The closure `Deserialize` hands to `Alter`: `Unmarshal buf clonable` gives
the clone as `json.Unmarshal` left it (the decoder may have written to it before
failing) and the decoder's error message, if any. -/
def deserializeAlterer {V : Type} (Unmarshal : List Nat → V → V × Option String)
    (buf : List Nat) : Callback V Unit :=
  fun clonable _ =>
    match (Unmarshal buf clonable).2 with
    | some innerErr =>
      ⟨(Unmarshal buf clonable).1, (), some (Error.SyntaxError ("failed to unmarshal: " ++ innerErr))⟩
    | none => ⟨(Unmarshal buf clonable).1, (), none⟩

/-- Embedding of `(*Shielded).Deserialize`; `Unmarshal` stands for
`json.Unmarshal` into a value of the witness type. -/
def Shielded.Deserialize {V L : Type} (K : TaskedLock L) (C : Clonable V)
    (Unmarshal : List Nat → V → V × Option String) (d : Option (Shielded V L)) (task : Task)
    (buf : List Nat) : Outcome V L Unit :=
  match d with
  | none => ⟨none, (), [], some Error.InvalidInstanceError⟩
  | some s =>
    if task.IsNull then
      ⟨some s, (), [],
        some (Error.InvalidParameterError "task" "cannot be null value of 'concurrency.Task'")⟩
    else if buf.length = 0 then
      ⟨some s, (), [], some (Error.InvalidParameterError "buf" "cannot be empty []byte")⟩
    else
      Shielded.Alter K C (some s) task (some (deserializeAlterer Unmarshal buf)) ()

/-- Embedding of `NewShielded`; `NewTaskedLock` is the state of a fresh lock. -/
def NewShielded {V L : Type} (NewTaskedLock : L) (witness : Option V) : Shielded V L :=
  ⟨witness, NewTaskedLock⟩

/-- Embedding of `(*Shielded).Clone`: a new `Shielded` around a clone of the
witness, with a lock of its own. `none` stands for the nil dereference of a nil
receiver or a nil witness. -/
def Shielded.Clone {V L : Type} (C : Clonable V) (NewTaskedLock : L)
    (d : Option (Shielded V L)) : Option (Shielded V L) :=
  match d with
  | none => none
  | some s =>
    match s.witness with
    | none => none
    | some w => some (NewShielded NewTaskedLock (some (C.Clone w)))

/-! ### The methods of `Shielded` on memory

`data.Clonable` is an interface held by reference: `d.witness.Clone()` returns a
reference and the closure of `Inspect` / `Alter` receives that reference. Here
objects lie in a memory of cells, a reference is the address of an object, and
a closure is handed an address together with the whole memory, any cell of
which it may overwrite. Whether a write through the reference it was handed
reaches the witness depends on what `Clone` returned. -/

/-- Memory holding the cells objects are made of; an address is an index. -/
abbrev Mem (Cell : Type) := List Cell

/-- How objects lie in memory: `reach m p` lists the addresses of the cells of
the object at `p` (its own and those of everything it refers to), `val m p` is
its content, the value deep equality compares. -/
structure Layout (Cell V : Type) where
  reach : Mem Cell → Nat → List Nat
  val : Mem Cell → Nat → V

/-- The cells and the content of an object depend on the cells of that object
only. -/
def Layout.Local {Cell V : Type} (Y : Layout Cell V) : Prop :=
  ∀ (h h1 : Mem Cell) (p : Nat), (∀ a ∈ Y.reach h p, h1[a]? = h[a]?) →
    Y.reach h1 p = Y.reach h p ∧ Y.val h1 p = Y.val h p

/-- The object at `p` lies in the allocated part of the memory `m`. -/
def Layout.Holds {Cell V : Type} (Y : Layout Cell V) (m : Mem Cell) (p : Nat) : Prop :=
  ∀ a ∈ Y.reach m p, a < m.length

/-- The layout of objects that hold no reference: an object is the one cell at
its address, and its content is what that cell holds. -/
def Layout.flat (Cell : Type) : Layout Cell (Option Cell) where
  reach := fun _ p => [p]
  val := fun h p => h[p]?

/-- The two methods of `data.Clonable`, on references: `Clone m p` is the memory
after `p.Clone()` with the reference it returns, `Replace m p q` the memory
after `p.Replace(q)`. -/
structure ClonableAt (Cell : Type) where
  Clone : Mem Cell → Nat → Mem Cell × Nat
  Replace : Mem Cell → Nat → Nat → Mem Cell

/-- The contract of a deep `Clone`, for the object at `w` in the memory `m`:
cloning leaves the cells of the original as they are, the clone shares no cell
with the original, and the content of the clone is that of the original. -/
def ClonableAt.IndependentAt {Cell V : Type} (Y : Layout Cell V) (C : ClonableAt Cell)
    (m : Mem Cell) (w : Nat) : Prop :=
  (∀ a ∈ Y.reach m w, (C.Clone m w).1[a]? = m[a]?) ∧
  (∀ a ∈ Y.reach m w, a ∉ Y.reach (C.Clone m w).1 (C.Clone m w).2) ∧
  Y.val (C.Clone m w).1 (C.Clone m w).2 = Y.val m w

/-- A `Clone` that breaks the contract: it returns its receiver. -/
def ClonableAt.aliasing (Cell : Type) : ClonableAt Cell where
  Clone := fun m p => (m, p)
  Replace := fun m _ _ => m

/-- What a closure leaves behind: the memory (after its writes), its captured
variables, and the error it returns. -/
structure RanAt (Cell σ : Type) where
  mem : Mem Cell
  env : σ
  err : Option Error

/-- A closure `func(data.Clonable) fail.Error` capturing variables of type `σ`:
it receives a reference and runs on the whole memory. -/
abbrev CallbackAt (Cell σ : Type) := Nat → Mem Cell → σ → RanAt Cell σ

/-- The closure writes through the reference it is handed only: every allocated
cell outside the object it received is as before when it returns. -/
def CallbackAt.Confined {Cell V σ : Type} (Y : Layout Cell V) (fn : CallbackAt Cell σ) : Prop :=
  ∀ (p : Nat) (m : Mem Cell) (env : σ) (a : Nat), a < m.length → a ∉ Y.reach m p →
    (fn p m env).mem[a]? = m[a]?

/-- State after a method of `Shielded` returns: the receiver (its witness is a
reference), the memory, the captured variables of the closure, what was passed
to `logrus.Warn`, and the returned error. -/
structure OutcomeAt (Cell L σ : Type) where
  self : Option (Shielded Nat L)
  mem : Mem Cell
  env : σ
  warned : List Error
  xerr : Option Error

/-- The reference held as witness by the receiver after the call. -/
def OutcomeAt.witness {Cell L σ : Type} (o : OutcomeAt Cell L σ) : Option Nat :=
  match o.self with
  | some s => s.witness
  | none => none

/-- The lock state of the receiver after the call. -/
def OutcomeAt.lock {Cell L σ : Type} (o : OutcomeAt Cell L σ) : Option L :=
  match o.self with
  | some s => some s.lock
  | none => none

/-- Embedding of `(*Shielded).Inspect` on memory: the inspector is handed the
reference `d.witness.Clone()` returns, in the memory `Clone` left. -/
def Shielded.InspectAt {Cell L σ : Type} (K : TaskedLock L) (C : ClonableAt Cell)
    (d : Option (Shielded Nat L)) (task : Task) (inspector : Option (CallbackAt Cell σ))
    (m : Mem Cell) (env : σ) : OutcomeAt Cell L σ :=
  match d with
  | none => ⟨none, m, env, [], some Error.InvalidInstanceError⟩
  | some s =>
    if task.IsNull then
      ⟨some s, m, env, [],
        some (Error.InvalidParameterError "task" "cannot be null value of 'concurrency.Task'")⟩
    else
      match inspector with
      | none => ⟨some s, m, env, [], some (Error.InvalidParameterError "inspector" "cannot be nil")⟩
      | some fn =>
        match s.witness with
        | none =>
          ⟨some s, m, env, [], some (Error.InvalidParameterError "d.witness"
            "cannot be nil; use concurrency.NewShielded() to instantiate")⟩
        | some w =>
          match (K.RLock s.lock task).2 with
          | some e => ⟨some ⟨some w, (K.RLock s.lock task).1⟩, m, env, [], some e⟩
          | none =>
            let cl := C.Clone m w
            let r := fn cl.2 cl.1 env
            let u := K.RUnlock (K.RLock s.lock task).1 task
            ⟨some ⟨some w, u.1⟩, r.mem, r.env, warnOf u.2, deferredErr r.err u.2⟩

/-- Embedding of `(*Shielded).Alter` on memory: the alterer is handed the
reference `d.witness.Clone()` returns; `d.witness.Replace(clone)` runs, on the
memory the alterer left, only when the alterer returned `nil`. -/
def Shielded.AlterAt {Cell L σ : Type} (K : TaskedLock L) (C : ClonableAt Cell)
    (d : Option (Shielded Nat L)) (task : Task) (alterer : Option (CallbackAt Cell σ))
    (m : Mem Cell) (env : σ) : OutcomeAt Cell L σ :=
  match d with
  | none => ⟨none, m, env, [], some Error.InvalidInstanceError⟩
  | some s =>
    if task.IsNull then
      ⟨some s, m, env, [],
        some (Error.InvalidParameterError "task" "cannot be null value of 'concurrency.Task'")⟩
    else
      match alterer with
      | none => ⟨some s, m, env, [], some (Error.InvalidParameterError "alterer" "cannot be nil")⟩
      | some fn =>
        match s.witness with
        | none =>
          ⟨some s, m, env, [], some (Error.InvalidParameterError "d.witness"
            "cannot be nil; use concurrency.NewData() to instantiate")⟩
        | some w =>
          match (K.Lock s.lock task).2 with
          | some e => ⟨some ⟨some w, (K.Lock s.lock task).1⟩, m, env, [], some e⟩
          | none =>
            let cl := C.Clone m w
            let r := fn cl.2 cl.1 env
            let m1 := match r.err with
              | some _ => r.mem
              | none => C.Replace r.mem w cl.2
            let u := K.Unlock (K.Lock s.lock task).1 task
            ⟨some ⟨some w, u.1⟩, m1, r.env, warnOf u.2, deferredErr r.err u.2⟩

/-- The closure `Deserialize` hands to `Alter`, on memory: `Unmarshal buf p m` is
the memory as `json.Unmarshal(buf, clonable)` left it, `clonable` being the
reference `p`, with the decoder's error message, if any. -/
def deserializeAltererAt {Cell : Type}
    (Unmarshal : List Nat → Nat → Mem Cell → Mem Cell × Option String)
    (buf : List Nat) : CallbackAt Cell Unit :=
  fun clonable m _ =>
    match (Unmarshal buf clonable m).2 with
    | some innerErr =>
      ⟨(Unmarshal buf clonable m).1, (), some (Error.SyntaxError ("failed to unmarshal: " ++ innerErr))⟩
    | none => ⟨(Unmarshal buf clonable m).1, (), none⟩

/-- Embedding of `(*Shielded).Deserialize` on memory. -/
def Shielded.DeserializeAt {Cell L : Type} (K : TaskedLock L) (C : ClonableAt Cell)
    (Unmarshal : List Nat → Nat → Mem Cell → Mem Cell × Option String)
    (d : Option (Shielded Nat L)) (task : Task) (buf : List Nat) (m : Mem Cell) :
    OutcomeAt Cell L Unit :=
  match d with
  | none => ⟨none, m, (), [], some Error.InvalidInstanceError⟩
  | some s =>
    if task.IsNull then
      ⟨some s, m, (), [],
        some (Error.InvalidParameterError "task" "cannot be null value of 'concurrency.Task'")⟩
    else if buf.length = 0 then
      ⟨some s, m, (), [], some (Error.InvalidParameterError "buf" "cannot be empty []byte")⟩
    else
      Shielded.AlterAt K C (some s) task (some (deserializeAltererAt Unmarshal buf)) m ()

/-- The decoder writes through the reference it is handed only. -/
def UnmarshalConfined {Cell V : Type} (Y : Layout Cell V)
    (Unmarshal : List Nat → Nat → Mem Cell → Mem Cell × Option String) : Prop :=
  ∀ (buf : List Nat) (p : Nat) (m : Mem Cell) (a : Nat), a < m.length → a ∉ Y.reach m p →
    (Unmarshal buf p m).1[a]? = m[a]?

end concurrency

namespace abstract

/-- Modelled from the spec: `abstract.HostEffectiveSizing` is declared outside the
sources; the fields are those of the host sizing record `(cores, ramSize,
diskSize, gpuCount, gpuType, cpuFreq)`, with the names the test uses and
integer-valued quantities. -/
structure HostEffectiveSizing where
  Cores : Int
  RAMSize : Int
  DiskSize : Int
  GPUNumber : Int
  GPUType : String
  CPUFreq : Int
  deriving DecidableEq, Repr

end abstract

namespace propertiesv1

/-- Modelled from the spec: `ClusterDefaults` is declared outside the sources (only
its test is); it holds the sizing defaults of gateways, masters and nodes and
the image used unless another is asked for. -/
structure ClusterDefaults where
  GatewaySizing : abstract.HostEffectiveSizing
  MasterSizing : abstract.HostEffectiveSizing
  NodeSizing : abstract.HostEffectiveSizing
  Image : String
  deriving DecidableEq, Repr

/-- Modelled from the spec: the zero value of `ClusterDefaults`, the content of
the object `newClusterDefaults()` allocates. -/
def ClusterDefaults.zero : ClusterDefaults :=
  ⟨⟨0, 0, 0, 0, "", 0⟩, ⟨0, 0, 0, 0, "", 0⟩, ⟨0, 0, 0, 0, "", 0⟩, ""⟩

/-- Modelled from the spec: `Replace`, the in-place replace every domain entity
implements; the content of the receiver `d` becomes a copy, field by field, of
the content of `p`. -/
def ClusterDefaults.Replace (_d p : ClusterDefaults) : ClusterDefaults :=
  { GatewaySizing := p.GatewaySizing
    MasterSizing := p.MasterSizing
    NodeSizing := p.NodeSizing
    Image := p.Image }

/-- Memory holding the `ClusterDefaults` objects allocated so far; a
`*ClusterDefaults` is the index of its object. -/
abbrev Heap := List ClusterDefaults

/-- Modelled from the spec: `newClusterDefaults()` allocates a zero-valued object
and returns the pointer to it. -/
def newClusterDefaults (h : Heap) : Heap × Nat :=
  (h ++ [ClusterDefaults.zero], h.length)

/-- Modelled from the spec: `d.Replace(p)` on pointers, writing the content of
`p` into the object `d` points to. A dangling pointer leaves memory as it is. -/
def Replace (h : Heap) (d p : Nat) : Heap :=
  match h[d]?, h[p]? with
  | some dv, some pv => h.set d (ClusterDefaults.Replace dv pv)
  | _, _ => h

/-- Modelled from the spec: `ct.Clone()`, the deep clone every domain entity
implements: a new object is allocated and filled by `Replace` from `ct`. -/
def Clone (h : Heap) (ct : Nat) : Heap × Nat :=
  (Replace (newClusterDefaults h).1 (newClusterDefaults h).2 ct, (newClusterDefaults h).2)

/-- The two assignments of `TestDefaults_Clone` through a pointer:
`p.GatewaySizing.GPUNumber = n; p.GatewaySizing.GPUType = t`. -/
def setGatewayGPU (h : Heap) (p : Nat) (n : Int) (t : String) : Heap :=
  match h[p]? with
  | some v => h.set p { v with GatewaySizing := { v.GatewaySizing with GPUNumber := n, GPUType := t } }
  | none => h

/-- `ClusterDefaults` as a `data.Clonable`, on values: the clone is the content
of the object `Clone` allocates. -/
def ClusterDefaults.clonable : concurrency.Clonable ClusterDefaults where
  Clone := fun ct => ClusterDefaults.Replace ClusterDefaults.zero ct
  Replace := ClusterDefaults.Replace

/-- The value built by `TestDefaults_Clone`. -/
def testDefaults : ClusterDefaults :=
  { ClusterDefaults.zero with
    Image := "something"
    GatewaySizing := { ClusterDefaults.zero.GatewaySizing with RAMSize := 3, GPUType := "NVidia" } }

/-- A closure that writes `GPUNumber = 7` and `GPUType = "Culture"` into the
value it is handed and returns the error `r`. -/
def cultureCallback (r : Option Error) : concurrency.Callback ClusterDefaults Unit :=
  fun c _ =>
    ⟨{ c with GatewaySizing := { c.GatewaySizing with GPUNumber := 7, GPUType := "Culture" } }, (), r⟩

/-- A `Shielded` around `testDefaults`, its lock being a trace with no call yet. -/
def testShielded : concurrency.Shielded ClusterDefaults (List concurrency.LockOp) :=
  ⟨some testDefaults, []⟩

/-- A stand-in for `json.Unmarshal` on `ClusterDefaults`, used to exercise
`Deserialize`: the two bytes of an empty JSON object decode to no change; any other
buffer is rejected, after the decoder has already overwritten `Image`. -/
def sampleUnmarshal (buf : List Nat) (c : ClusterDefaults) : ClusterDefaults × Option String :=
  if buf = [123, 125] then (c, none)
  else ({ c with Image := "" }, some "invalid character")

/-- `ClusterDefaults` as a `data.Clonable`, on references into the memory of
`ClusterDefaults` objects. -/
def ClusterDefaults.clonableAt : concurrency.ClonableAt ClusterDefaults where
  Clone := fun h ct => propertiesv1.Clone h ct
  Replace := fun h d p => propertiesv1.Replace h d p

/-- A closure that writes `GPUNumber = 7` and `GPUType = "Culture"` through the
reference it is handed and returns the error `r`. -/
def cultureCallbackAt (r : Option Error) : concurrency.CallbackAt ClusterDefaults Unit :=
  fun p m _ => ⟨setGatewayGPU m p 7 "Culture", (), r⟩

/-- A `Shielded` whose witness is the object at address 0, its lock being a
trace with no call yet. -/
def testShieldedAt : concurrency.Shielded Nat (List concurrency.LockOp) :=
  ⟨some 0, []⟩

/-- The stand-in decoder `sampleUnmarshal`, writing through a reference. -/
def sampleUnmarshalAt (buf : List Nat) (p : Nat) (m : Heap) : Heap × Option String :=
  match m[p]? with
  | some c => (m.set p (sampleUnmarshal buf c).1, (sampleUnmarshal buf c).2)
  | none => (m, (sampleUnmarshal buf ClusterDefaults.zero).2)

end propertiesv1

namespace server

/-- Incoming gRPC metadata (`metadata.MD`): header names with their values. -/
abbrev MD := List (String × List String)

/-- The values stored under header `k` (`md.Get(k)`), none when `k` is absent. -/
def MD.Get (md : MD) (k : String) : List String :=
  match md.lookup k with
  | some vs => vs
  | none => []

/-- A `context.Context`, as far as `NewJob` looks at it: the incoming gRPC
metadata it carries, if any (`metadata.FromIncomingContext`). -/
structure Context where
  incoming : Option MD
  deriving DecidableEq, Repr

/-- A `context.CancelFunc`, identified by a number; its calls are recorded in
`World.cancelled`. -/
abbrev CancelFunc := Nat

/-- An `iaas.Service`, as far as `NewJob` looks at it: `GetName()`. -/
structure Service where
  GetName : String
  deriving DecidableEq, Repr

/-- The struct `job`. -/
structure job where
  description : String
  uuid : String
  tenant : String
  task : concurrency.Task
  cancel : Option CancelFunc
  service : Service
  startTime : Nat
  deriving DecidableEq, Repr

/-- Process state of the job runtime: the `job` objects allocated so far (a
`*job` is the index of its object), the package variable `jobMap` (a map, kept
as an association list with one pair per key), the calls made to cancel
functions and the warnings logged. -/
structure World where
  heap : List job
  jobMap : List (String × Nat)
  cancelled : List CancelFunc
  warnings : List String
  deriving DecidableEq, Repr

/-- The map assignment `m[k] = v`. -/
def mapSet (m : List (String × Nat)) (k : String) (v : Nat) : List (String × Nat) :=
  (k, v) :: m.filter (fun e => e.1 != k)

/-- The map deletion `delete(m, k)`. -/
def mapDelete (m : List (String × Nat)) (k : String) : List (String × Nat) :=
  m.filter (fun e => e.1 != k)

/-- Embedding of `(*job).SafeGetID`; the pointers `NewJob` hands out always
denote an allocated object, the empty string covers the others. -/
def SafeGetID (g : World) (j : Nat) : String :=
  match g.heap[j]? with
  | some o => o.uuid
  | none => ""

/-- Embedding of `register`. -/
def register (g : World) (job : Nat) : World × Option Error :=
  ({ g with jobMap := mapSet g.jobMap (SafeGetID g job) job }, none)

/-- The collaborators of `NewJob` whose code is outside the sources: the result
of `uuidpkg.NewV4()` rendered as a string, `concurrency.NewTaskWithContext`,
`Task.SetID` and `time.Now()`. -/
structure Runtime where
  NewV4 : Except Error String
  NewTaskWithContext : Context → Except Error concurrency.Task
  SetID : concurrency.Task → String → Except Error concurrency.Task
  Now : Nat

/-- The first part of `NewJob` after the nil checks: the choice of the job id
from the incoming metadata of the context. -/
def selectID (R : Runtime) (g : World) (ctx : Context) : World × Except Error String :=
  match ctx.incoming with
  | none =>
    let g1 := { g with warnings := g.warnings ++ ["context does not contain a grpc uuid, generating one"] }
    match R.NewV4 with
    | .error err => (g1, .error (Error.Wrap err "failed to generate uuid for job"))
    | .ok uuid => (g1, .ok uuid)
  | some md =>
    match md.Get "uuid" with
    | [] => (g, .error (Error.InvalidParameterError "ctx" "does not contain a grpc uuid"))
    | id :: _ =>
      if id = "" then
        (g, .error (Error.InvalidParameterError "ctx" "does not contain a valid grpc uuid"))
      else (g, .ok id)

/-- Embedding of `NewJob`: the new process state and either the error or the
pointer to the registered job. -/
def NewJob (R : Runtime) (g : World) (ctx : Option Context) (cancel : Option CancelFunc)
    (svc : Option Service) (description : String) : World × Except Error Nat :=
  match ctx with
  | none => (g, .error (Error.InvalidParameterError "ctx" "cannot be nil"))
  | some c =>
    match cancel with
    | none => (g, .error (Error.InvalidParameterError "cancel" "cannot be nil"))
    | some cf =>
      match svc with
      | none => (g, .error (Error.InvalidParameterError "svc" "cannot be nil"))
      | some sv =>
        match selectID R g c with
        | (g1, .error err) => (g1, .error err)
        | (g1, .ok id) =>
          match R.NewTaskWithContext c with
          | .error err => (g1, .error err)
          | .ok task =>
            match R.SetID task ("job-task:" ++ id) with
            | .error err => (g1, .error err)
            | .ok task1 =>
              let nj : job :=
                { description := description
                  uuid := id
                  task := task1
                  cancel := some cf
                  service := sv
                  tenant := sv.GetName
                  startTime := R.Now }
              let g2 := { g1 with heap := g1.heap ++ [nj] }
              match (register g2 g1.heap.length).2 with
              | some err => ((register g2 g1.heap.length).1, .error err)
              | none => ((register g2 g1.heap.length).1, .ok g1.heap.length)

/-- A runtime in which every collaborator succeeds: the uuid generator yields
`fresh`, the task is created live and takes the id it is given. -/
def okRuntime (fresh : String) : Runtime where
  NewV4 := .ok fresh
  NewTaskWithContext := fun _ => .ok (concurrency.Task.live "")
  SetID := fun _ id => .ok (concurrency.Task.live id)
  Now := 0

/-- The process state at start-up: nothing allocated, `jobMap` empty. -/
def World.init : World := ⟨[], [], [], []⟩

/-- Embedding of `(*job).SafeGetName`: the name of a job is its id. -/
def SafeGetName (g : World) (j : Nat) : String :=
  match g.heap[j]? with
  | some o => o.uuid
  | none => ""

/-- Embedding of `(*job).Abort`; the receiver `j` is `none` when nil. A pointer
that denotes no object is handled like the nil receiver. -/
def Abort (g : World) (j : Option Nat) : World × Option Error :=
  match j with
  | none => (g, some Error.InvalidInstanceError)
  | some p =>
    match g.heap[p]? with
    | none => (g, some Error.InvalidInstanceError)
    | some o =>
      match o.cancel with
      | none => (g, some (Error.InvalidInstanceContentError "j.cancel" "cannot be nil"))
      | some cf =>
        ({ g with
            cancelled := g.cancelled ++ [cf]
            heap := g.heap.set p { o with cancel := none } }, none)

/-- Embedding of `deregisterUUID`. -/
def deregisterUUID (g : World) (uuid : String) : World × Option Error :=
  if uuid = "" then
    (g, some (Error.InvalidParameterError "uuid" "cannot be empty string"))
  else
    match g.jobMap.lookup uuid with
    | none => (g, some (Error.NotFoundError ("no job identified by '" ++ uuid ++ "' found")))
    | some _ => ({ g with jobMap := mapDelete g.jobMap uuid }, none)

/-- Embedding of `deregister`; the argument is `none` when nil. -/
def deregister (g : World) (job : Option Nat) : World × Option Error :=
  match job with
  | none => (g, some (Error.InvalidParameterError "job" "cannot be nil"))
  | some j => deregisterUUID g (SafeGetID g j)

/-- Embedding of `(*job).Close`: the job is deregistered (the error of
`deregister` is dropped), then its cancel function is called if the field is not
nil. The field itself is left as it is. -/
def Close (g : World) (j : Nat) : World :=
  match (deregister g (some j)).1.heap[j]? with
  | some o =>
    match o.cancel with
    | some cf =>
      { (deregister g (some j)).1 with cancelled := (deregister g (some j)).1.cancelled ++ [cf] }
    | none => (deregister g (some j)).1
  | none => (deregister g (some j)).1

/-- Embedding of `AbortJobByID`. -/
def AbortJobByID (g : World) (id : String) : World × Option Error :=
  if id = "" then
    (g, some (Error.InvalidParameterError "id" "cannot be empty string"))
  else
    match g.jobMap.lookup id with
    | some job =>
      match (Abort g (some job)).2 with
      | some err =>
        ((Abort g (some job)).1, some (Error.Wrap err ("failed to stop job '" ++ id ++ "'")))
      | none => ((Abort g (some job)).1, none)
    | none => (g, some (Error.NotFoundError ("no job identified by '" ++ id ++ "' found")))

/-- Embedding of `ListJobs`: one pair per entry of `jobMap`, the uuid with the
name of the job registered under it. -/
def ListJobs (g : World) : List (String × String) :=
  g.jobMap.map (fun e => (e.1, SafeGetName g e.2))

/-- A call made on the job runtime: `NewJob` with its arguments and
collaborators, or `Close` on the job a pointer denotes. -/
inductive JobOp where
  | newJob (R : Runtime) (ctx : Option Context) (cancel : Option CancelFunc)
      (svc : Option Service) (description : String)
  | close (j : Nat)

/-- One call on the job runtime. Next to the process state runs the list of the
jobs closed so far, which the program does not keep. `Close` can only be called
on a job that exists, so on a pointer `NewJob` has handed out. -/
def exec (st : World × List Nat) (op : JobOp) : World × List Nat :=
  match op with
  | .newJob R ctx cancel svc description => ((NewJob R st.1 ctx cancel svc description).1, st.2)
  | .close j => if j < st.1.heap.length then (Close st.1 j, j :: st.2) else st

/-- The state reached from start-up by a sequence of calls. -/
def run (ops : List JobOp) : World × List Nat :=
  ops.foldl exec (World.init, [])

/-- The jobs created and not yet closed, given the list `closed` of closed jobs. -/
def liveJobs (g : World) (closed : List Nat) : List Nat :=
  (List.range g.heap.length).filter (fun p => decide (p ∉ closed))

/-- What holds of the registry in every state the runtime reaches, `closed` being
the jobs closed so far: the keys of `jobMap` are pairwise distinct; every entry
points to a job that exists and carries the key as its uuid; only jobs that
exist have been closed; when no job has an empty uuid, no entry points to a
closed job; when the uuids of the jobs are pairwise distinct, every job not
closed has its entry. -/
structure RegInv (g : World) (closed : List Nat) : Prop where
  keys : (g.jobMap.map Prod.fst).Nodup
  entry : ∀ e ∈ g.jobMap, ∃ o, g.heap[e.2]? = some o ∧ o.uuid = e.1
  closedAlloc : ∀ p ∈ closed, p < g.heap.length
  entryLive : (∀ o ∈ g.heap, o.uuid ≠ "") → ∀ e ∈ g.jobMap, e.2 ∉ closed
  liveEntry : (g.heap.map job.uuid).Nodup →
    ∀ p o, g.heap[p]? = some o → p ∉ closed → (o.uuid, p) ∈ g.jobMap

/-- The request context of a gRPC call carrying the header `uuid: u`. -/
def ctxWithUUID (u : String) : Context :=
  ⟨some [("uuid", [u])]⟩

/-- Two requests arriving with the same header `uuid: u-1`: `NewJob` is called
for each, and no job is closed. -/
def sameUUIDTwice : List JobOp :=
  [ JobOp.newJob (okRuntime "f") (some (ctxWithUUID "u-1")) (some 1) (some ⟨"local"⟩) "first",
    JobOp.newJob (okRuntime "f") (some (ctxWithUUID "u-1")) (some 2) (some ⟨"local"⟩) "second" ]

end server

namespace Complexity

/-- Modelled from the spec: `Complexity.Enum` is declared outside the sources; the
three size tiers, and `Other` for any further value of the integer type behind
the enumeration. -/
inductive Enum where
  | Small
  | Normal
  | Large
  | Other (raw : Int)
  deriving DecidableEq, Repr

end Complexity

namespace NodeType

/-- Modelled from the spec: `NodeType.Enum` is declared outside the sources; the
three kinds of node a script is asked for, and `Other` for any further value of
the integer type behind the enumeration. -/
inductive Enum where
  | Master
  | PrivateNode
  | PublicNode
  | Other (raw : Int)
  deriving DecidableEq, Repr

end NodeType

namespace control

/-- The key pair of a cluster, as far as the BOH flavor reads it. -/
structure KeyPair where
  PublicKey : String
  PrivateKey : String
  deriving DecidableEq, Repr

/-- The identity of a cluster (`GetIdentity`), as far as the BOH flavor reads it. -/
structure Identity where
  Complexity : Complexity.Enum
  AdminPassword : String
  Keypair : KeyPair
  deriving DecidableEq, Repr

/-- The network configuration of a cluster, as far as the BOH flavor reads it. -/
structure NetworkConfig where
  CIDR : String
  deriving DecidableEq, Repr

/-- The cluster behind a foreman: the two getters the BOH flavor calls. -/
structure Cluster where
  GetIdentity : concurrency.Task → Identity
  GetNetworkConfig : concurrency.Task → NetworkConfig

/-- A `control.Foreman`, as far as the BOH flavor looks at it: `Cluster()`. -/
structure Foreman where
  Cluster : Cluster

end control

namespace boh

/-- Embedding of `minimumRequiredServers`: masters, private nodes, public nodes. -/
def minimumRequiredServers (task : concurrency.Task) (foreman : control.Foreman) :
    Int × Int × Int :=
  let privateNodeCount : Int :=
    match (foreman.Cluster.GetIdentity task).Complexity with
    | .Small => 1
    | .Normal => 3
    | .Large => 7
    | .Other _ => 0
  (1, privateNodeCount, 0)

/-- Embedding of the template function `errcode` of `funcMap`; `StringMap` is the
table `ErrorCode.StringMap`, which is declared outside the sources. -/
def errcode (StringMap : String → Option Int) (msg : String) : Int :=
  match StringMap msg with
  | some code => code
  | none => 1023

/-- Embedding of `getNodeInstallationScript`: the script name and the data map,
kept as a list of pairs. -/
def getNodeInstallationScript (_task : concurrency.Task) (_foreman : control.Foreman)
    (nodeType : NodeType.Enum) : String × List (String × String) :=
  let data : List (String × String) := []
  let script : String :=
    match nodeType with
    | .Master => "boh_install_master.sh"
    | .PrivateNode => "boh_install_node.sh"
    | .PublicNode => "boh_install_node.sh"
    | .Other _ => ""
  (script, data)

/-- A `rice.Box`: `Content name` is the result of `b.String(name)`. -/
structure Box where
  Content : String → Except String String

/-- The collaborators of the BOH flavor whose code is outside the sources:
`rice.FindBox`, and parsing and executing a `text/template` (with the functions
of `funcMap` installed) whose prepared form has type `T`. -/
structure Templating (T : Type) where
  FindBox : String → Except Error Box
  Parse : String → Except String T
  Execute : T → List (String × String) → Except String String

/-- The package variables `templateBox` and `globalSystemRequirementsContent`;
`none` is the value an `atomic.Value` loads before any store. -/
structure Globals where
  templateBox : Option Box
  globalSystemRequirementsContent : Option String

/-- Embedding of `getTemplateBox`. -/
def getTemplateBox {T : Type} (E : Templating T) (s : Globals) : Globals × Except Error Box :=
  match s.templateBox with
  | some b => (s, .ok b)
  | none =>
    match E.FindBox "../boh/scripts" with
    | .error err => (s, .error err)
    | .ok b => ({ s with templateBox := some b }, .ok b)

/-- Embedding of `getGlobalSystemRequirements`. -/
def getGlobalSystemRequirements {T : Type} (E : Templating T) (s : Globals)
    (task : concurrency.Task) (foreman : control.Foreman) : Globals × Except Error String :=
  match s.globalSystemRequirementsContent with
  | some content => (s, .ok content)
  | none =>
    match getTemplateBox E s with
    | (s1, .error err) => (s1, .error err)
    | (s1, .ok b) =>
      match b.Content "boh_install_requirements.sh" with
      | .error err => (s1, .error (Error.Other ("error loading script template: " ++ err)))
      | .ok tmplString =>
        match E.Parse tmplString with
        | .error err => (s1, .error (Error.Other ("error parsing script template: " ++ err)))
        | .ok tmplPrepared =>
          let cluster := foreman.Cluster
          let identity := cluster.GetIdentity task
          let data : List (String × String) :=
            [ ("CIDR", (cluster.GetNetworkConfig task).CIDR),
              ("CladmPassword", identity.AdminPassword),
              ("SSHPublicKey", identity.Keypair.PublicKey),
              ("SSHPrivateKey", identity.Keypair.PrivateKey) ]
          match E.Execute tmplPrepared data with
          | .error err => (s1, .error (Error.Other ("error realizing script template: " ++ err)))
          | .ok result => ({ s1 with globalSystemRequirementsContent := some result }, .ok result)

/-- The data `getGlobalSystemRequirements` hands to the template for a foreman. -/
def requirementsData (task : concurrency.Task) (foreman : control.Foreman) :
    List (String × String) :=
  [ ("CIDR", (foreman.Cluster.GetNetworkConfig task).CIDR),
    ("CladmPassword", (foreman.Cluster.GetIdentity task).AdminPassword),
    ("SSHPublicKey", (foreman.Cluster.GetIdentity task).Keypair.PublicKey),
    ("SSHPrivateKey", (foreman.Cluster.GetIdentity task).Keypair.PrivateKey) ]

/-- A stand-in for the template machinery, used to exercise
`getGlobalSystemRequirements`: the box holds one script, parsing keeps the text,
and executing appends the values of the data to it, one after the other. -/
def sampleTemplating : Templating String where
  FindBox := fun _ => .ok ⟨fun _ => .ok "requirements"⟩
  Parse := fun t => .ok t
  Execute := fun t data => .ok (data.foldl (fun acc kv => acc ++ " " ++ kv.2) t)

/-- A foreman over a cluster with the given complexity, CIDR, password and keys. -/
def sampleForeman (c : Complexity.Enum) (cidr password pub priv : String) : control.Foreman :=
  ⟨⟨fun _ => ⟨c, password, ⟨pub, priv⟩⟩, fun _ => ⟨cidr⟩⟩⟩

end boh

namespace utils

/-- A `time.Duration`: a number of nanoseconds. -/
abbrev Duration := Int

/-- The constant `time.Second`. -/
def Second : Duration := 1000000000

/-- The constant `time.Minute`. -/
def Minute : Duration := 60 * Second

/-- The constant `DefaultContextTimeout`. -/
def DefaultContextTimeout : Duration := 1 * Minute

/-- The constant `HostTimeout`. -/
def HostTimeout : Duration := 5 * Minute

/-- The constant `LongHostOperationTimeout`. -/
def LongHostOperationTimeout : Duration := 10 * Minute

/-- The constant `DefaultSSHConnectionTimeout`. -/
def DefaultSSHConnectionTimeout : Duration := 2 * Minute

/-- The constant `HostCleanupTimeout`. -/
def HostCleanupTimeout : Duration := 3 * Minute

/-- The constant `DefaultConnectionTimeout`. -/
def DefaultConnectionTimeout : Duration := 30 * Second

/-- The constant `DefaultExecutionTimeout`. -/
def DefaultExecutionTimeout : Duration := 5 * Minute

/-- The constant `SmallDelay`. -/
def SmallDelay : Duration := 1 * Second

/-- The constant `DefaultDelay`. -/
def DefaultDelay : Duration := 5 * Second

/-- The constant `BigDelay`. -/
def BigDelay : Duration := 30 * Second

/-- What the timeout getters read from outside: the environment of the process
(`none` for a variable that is not set) and `time.ParseDuration`. -/
structure Sys where
  env : String → Option String
  ParseDuration : String → Except String Duration

/-- The call `os.Getenv(key)`: the value of the variable, empty when it is not set. -/
def Sys.Getenv (S : Sys) (key : String) : String :=
  match S.env key with
  | some v => v
  | none => ""

/-- Embedding of `GetVariableTimeout`. -/
def GetVariableTimeout (S : Sys) (key : String) (duration : Duration) : Duration :=
  let defaultTimeout := duration
  if S.Getenv key ≠ "" then
    match S.ParseDuration (S.Getenv key) with
    | .error _ => defaultTimeout
    | .ok newTimeout => newTimeout
  else defaultTimeout

/-- Embedding of `GetMinDelay`. -/
def GetMinDelay (S : Sys) : Duration :=
  GetVariableTimeout S "SAFESCALE_MIN_DELAY" SmallDelay

/-- Embedding of `GetDefaultDelay`. -/
def GetDefaultDelay (S : Sys) : Duration :=
  GetVariableTimeout S "SAFESCALE_DEFAULT_DELAY" DefaultDelay

/-- Embedding of `GetBigDelay`. -/
def GetBigDelay (S : Sys) : Duration :=
  GetVariableTimeout S "SAFESCALE_BIG_DELAY" BigDelay

/-- Embedding of `GetContextTimeout`. -/
def GetContextTimeout (S : Sys) : Duration :=
  GetVariableTimeout S "SAFESCALE_CONTEXT_TIMEOUT" DefaultContextTimeout

/-- Embedding of `GetHostTimeout`. -/
def GetHostTimeout (S : Sys) : Duration :=
  GetVariableTimeout S "SAFESCALE_HOST_TIMEOUT" HostTimeout

/-- Embedding of `GetHostCleanupTimeout`. -/
def GetHostCleanupTimeout (S : Sys) : Duration :=
  GetVariableTimeout S "SAFESCALE_HOST_CLEANUP_TIMEOUT" HostCleanupTimeout

/-- Embedding of `GetConnectSSHTimeout`. -/
def GetConnectSSHTimeout (S : Sys) : Duration :=
  GetVariableTimeout S "SAFESCALE_SSH_CONNECT_TIMEOUT" DefaultSSHConnectionTimeout

/-- Embedding of `GetLongOperationTimeout`. -/
def GetLongOperationTimeout (S : Sys) : Duration :=
  GetVariableTimeout S "SAFESCALE_HOST_LONG_OPERATION_TIMEOUT" LongHostOperationTimeout

/-- The override contract of a timeout getter `G` reading the variable `key` with
compiled value `d0`: a non-empty value that parses as a duration is returned, and
`d0` is returned when the variable is not set, is empty, or does not parse. -/
def OverriddenBy (G : Sys → Duration) (key : String) (d0 : Duration) : Prop :=
  ∀ S : Sys,
    (∀ v d, S.env key = some v → v ≠ "" → S.ParseDuration v = .ok d → G S = d) ∧
    (S.env key = none → G S = d0) ∧
    (S.env key = some "" → G S = d0) ∧
    (∀ v e, S.env key = some v → S.ParseDuration v = .error e → G S = d0)

/-- The value of a run of decimal digits, most significant first, after `acc`. -/
def digitsValue (acc : Nat) : List Char → Option Nat
  | [] => some acc
  | c :: cs => if c.isDigit then digitsValue (acc * 10 + (c.toNat - 48)) cs else none

/-- A stand-in for `time.ParseDuration`, used to exercise the getters: it accepts
a non-empty run of decimal digits followed by `s` (seconds) or `m` (minutes) and
rejects everything else. -/
def sampleParseDuration (s : String) : Except String Duration :=
  match s.data.reverse with
  | 's' :: d :: ds =>
    match digitsValue 0 (d :: ds).reverse with
    | some n => .ok (n * Second)
    | none => .error ("time: invalid duration " ++ s)
  | 'm' :: d :: ds =>
    match digitsValue 0 (d :: ds).reverse with
    | some n => .ok (n * Minute)
    | none => .error ("time: invalid duration " ++ s)
  | _ => .error ("time: invalid duration " ++ s)

/-- A process whose environment sets the single variable `key` to `value`. -/
def sampleSys (key value : String) : Sys where
  env := fun k => if k = key then some value else none
  ParseDuration := sampleParseDuration

end utils

namespace utils

/-- A process with no environment variable set. -/
def emptySys : Sys where
  env := fun _ => none
  ParseDuration := sampleParseDuration

end utils

namespace listeners

/-- An `iaas.Service`, as far as the tenant listener looks at it: its name and
the result `TenantCleanup(force)` returns. -/
structure Service where
  GetName : String
  TenantCleanup : Bool → Option Error

/-- The struct `Tenant`. -/
structure Tenant where
  name : String
  Service : Service

/-- The calls the tenant listener makes to the outside, in the order they are
made: to the tenant registry of `iaas`, to a service, to the job helper and to
the logger. -/
inductive Event where
  | GetTenantNames
  | UseService (name : String)
  | TenantCleanup (service : String) (force : Bool)
  | PrepareJob (description : String)
  | JobClose
  | Println (msg : String)
  | Warnf (format : String)
  | LogError (err : Error)
  deriving DecidableEq, Repr

/-- The message `protocol.TenantName`. -/
structure TenantName where
  Name : String
  deriving DecidableEq, Repr

/-- The message `protocol.TenantCleanupRequest`. -/
structure TenantCleanupRequest where
  Name : String
  Force : Bool
  deriving DecidableEq, Repr

/-- The collaborators of the tenant listener whose code is outside the sources:
`iaas.GetTenantNames` (tenant name with provider name), `iaas.UseService`,
`PrepareJob`, `govalidator.ValidateStruct` on the two request messages, and the
conversion of an error to a gRPC status. -/
structure Iaas where
  GetTenantNames : Except Error (List (String × String))
  UseService : String → Except Error Service
  PrepareJob : String → Except Error Unit
  ValidateName : TenantName → Bool × Option Error
  ValidateCleanup : TenantCleanupRequest → Bool × Option Error
  toGRPC : Error → Error

/-- The package variable `currentTenant`, with the calls made so far. -/
structure State where
  currentTenant : Option Tenant
  events : List Event

/-- The call `st.emit e` records one call to the outside. -/
def State.emit (st : State) (e : Event) : State :=
  { st with events := st.events ++ [e] }

/-- The loop `for name := range tenants` of `getCurrentTenant`, followed by its
`return currentTenant`. -/
def rangeTenants (I : Iaas) (st : State) : List (String × String) → State × Option Tenant
  | [] => (st, st.currentTenant)
  | (name, _) :: rest =>
    match I.UseService name with
    | .error _ => (st.emit (Event.UseService name), none)
    | .ok service =>
      rangeTenants I
        { (st.emit (Event.UseService name)) with currentTenant := some ⟨name, service⟩ } rest

/-- Embedding of `getCurrentTenant`. -/
def getCurrentTenant (I : Iaas) (st : State) : State × Option Tenant :=
  match st.currentTenant with
  | some t => (st, some t)
  | none =>
    match I.GetTenantNames with
    | .error _ => (st.emit Event.GetTenantNames, none)
    | .ok tenants =>
      if tenants.length ≠ 1 then (st.emit Event.GetTenantNames, none)
      else
        rangeTenants I ((st.emit Event.GetTenantNames).emit (Event.Println "Unique tenant set"))
          tenants

/-- Modelled from the spec: the deferred `fail.OnExitWrapError(&err, msg)` and
`fail.OnExitConvertToGRPCStatus(&err)`, which are outside the sources: an error
leaving a listener is wrapped with the one-line description and then converted
to a gRPC status; success stays success. -/
def onExit (toGRPC : Error → Error) (msg : String) (err : Option Error) : Option Error :=
  match err with
  | none => none
  | some e => some (toGRPC (Error.Wrap e msg))

/-- What a listener method returns: whether the `*Empty` result is non-nil, and
the error. -/
structure Reply where
  empty : Bool
  err : Option Error
  deriving DecidableEq, Repr

/-- The test `currentTenant != nil && currentTenant.name == name`. -/
def isCurrent (st : State) (name : String) : Bool :=
  match st.currentTenant with
  | some t => t.name == name
  | none => false

/-- Embedding of `(*TenantListener).Set`; `s`, `ctx` and `req` are `none` when
nil. -/
def Set (I : Iaas) (st : State) (s ctx : Option Unit) (req : Option TenantName) :
    State × Reply :=
  match s with
  | none => (st, ⟨true, onExit I.toGRPC "cannot set tenant" (some Error.InvalidInstanceError)⟩)
  | some _ =>
    match ctx with
    | none =>
      (st, ⟨true, onExit I.toGRPC "cannot set tenant"
        (some (Error.InvalidParameterError "ctx" "cannot be nil"))⟩)
    | some _ =>
      match req with
      | none =>
        (st, ⟨true, onExit I.toGRPC "cannot set tenant"
          (some (Error.InvalidParameterError "in" "cannot be nil"))⟩)
      | some r =>
        let st1 :=
          if (I.ValidateName r).2.isSome || !(I.ValidateName r).1 then
            st.emit (Event.Warnf "Structure validation failure: %v")
          else st
        if isCurrent st1 r.Name then (st1, ⟨true, none⟩)
        else
          match I.UseService r.Name with
          | .error xerr =>
            (((st1.emit (Event.UseService r.Name)).emit (Event.LogError xerr)),
              ⟨true, onExit I.toGRPC "cannot set tenant" (some xerr)⟩)
          | .ok service =>
            ({ (st1.emit (Event.UseService r.Name)) with
                currentTenant := some ⟨r.Name, service⟩ }, ⟨true, none⟩)

/-- Embedding of `(*TenantListener).Cleanup`; `s`, `ctx` and `req` are `none`
when nil. The tracer is left out. -/
def Cleanup (I : Iaas) (st : State) (s ctx : Option Unit) (req : Option TenantCleanupRequest) :
    State × Reply :=
  match s with
  | none =>
    (st, ⟨true, onExit I.toGRPC "cannot cleanup tenant" (some Error.InvalidInstanceError)⟩)
  | some _ =>
    match ctx with
    | none =>
      (st, ⟨true, onExit I.toGRPC "cannot cleanup tenant"
        (some (Error.InvalidParameterError "ctx" "cannot be nil"))⟩)
    | some _ =>
      match req with
      | none =>
        (st, ⟨true, onExit I.toGRPC "cannot cleanup tenant"
          (some (Error.InvalidParameterError "in" "cannot be nil"))⟩)
      | some r =>
        let st1 :=
          if (I.ValidateCleanup r).2.isNone && !(I.ValidateCleanup r).1 then
            st.emit (Event.Warnf "Structure validation failure: %v")
          else st
        match I.PrepareJob "tenant cleanup" with
        | .error xerr =>
          (st1.emit (Event.PrepareJob "tenant cleanup"),
            ⟨false, onExit I.toGRPC "cannot cleanup tenant" (some xerr)⟩)
        | .ok _ =>
          let st2 := st1.emit (Event.PrepareJob "tenant cleanup")
          if isCurrent st2 r.Name then (st2.emit Event.JobClose, ⟨true, none⟩)
          else
            match I.UseService r.Name with
            | .error xerr =>
              ((((st2.emit (Event.UseService r.Name)).emit (Event.LogError xerr)).emit
                  Event.JobClose),
                ⟨true, onExit I.toGRPC "cannot cleanup tenant" (some xerr)⟩)
            | .ok service =>
              match service.TenantCleanup r.Force with
              | some xerr =>
                (((((st2.emit (Event.UseService r.Name)).emit
                    (Event.TenantCleanup service.GetName r.Force)).emit
                    (Event.LogError xerr)).emit Event.JobClose),
                  ⟨true, onExit I.toGRPC "cannot cleanup tenant" (some xerr)⟩)
              | none =>
                ((((st2.emit (Event.UseService r.Name)).emit
                    (Event.TenantCleanup service.GetName r.Force)).emit Event.JobClose),
                  ⟨true, none⟩)

/-- A service named `name` whose `TenantCleanup` succeeds. -/
def sampleService (name : String) : Service :=
  ⟨name, fun _ => none⟩

/-- A registry with the single tenant `local` on the provider `local`, every
collaborator succeeding. -/
def sampleIaas : Iaas where
  GetTenantNames := .ok [("local", "local")]
  UseService := fun name => .ok (sampleService name)
  PrepareJob := fun _ => .ok ()
  ValidateName := fun _ => (true, none)
  ValidateCleanup := fun _ => (true, none)
  toGRPC := fun e => e

end listeners

namespace providers

/-- A value of type `interface{}` found in a tenant parameter map: a string, a
`[]string`, a nested `map[string]interface{}`, the nil interface, or a value of
any other dynamic type (named by `kind`). -/
inductive Value where
  | str (s : String)
  | strs (l : List String)
  | table (m : List (String × Value))
  | null
  | other (kind : String)

/-- A `map[string]interface{}`, kept as an association list with one pair per key. -/
abbrev Params := List (String × Value)

/-- The two-valued assertion `v.(map[string]interface{})` on the result of a map
index: the nil map when the key is absent or the value is not a map. -/
def asTable : Option Value → Params
  | some (Value.table m) => m
  | _ => []

/-- The two-valued assertion `v.(string)` on the result of a map index: the empty
string when the key is absent or the value is not a string. -/
def asString : Option Value → String
  | some (Value.str s) => s
  | _ => ""

/-- The two-valued assertion `v.([]string)` on the result of a map index: the nil
slice when the key is absent or the value is not a `[]string`. -/
def asStrings : Option Value → List String
  | some (Value.strs l) => l
  | _ => []

/-- The result of running code that may panic. -/
inductive Run (α : Type) where
  | ret (a : α)
  | panic (why : String)

/-- The struct `stacks.AuthenticationOptions`, with the fields the two providers
fill or read. -/
structure AuthenticationOptions where
  IdentityEndpoint : String
  Username : String
  Password : String
  DomainName : String
  TenantID : String
  TenantName : String
  Region : String
  AvailabilityZone : String
  FloatingIPPool : String
  AllowReauth : Bool
  deriving DecidableEq, Repr

/-- The struct `stacks.ConfigurationOptions`, with the fields the two providers
fill or read; `VolumeSpeeds` pairs a name with the name of a speed. -/
structure ConfigurationOptions where
  ProviderNetwork : String
  UseFloatingIP : Bool
  UseLayer3Networking : Bool
  UseNATService : Bool
  AutoHostNetworkInterfaces : Bool
  DNSList : List String
  DefaultImage : String
  MetadataBucket : String
  OperatorUsername : String
  ProviderName : String
  DefaultSecurityGroupName : String
  VolumeSpeeds : List (String × String)
  deriving DecidableEq, Repr

/-- An `abstract.HostTemplate`, reduced to its name. -/
structure HostTemplate where
  Name : String
  deriving DecidableEq, Repr

/-- An `abstract.Image`, reduced to its name. -/
structure Image where
  Name : String
  deriving DecidableEq, Repr

/-- An `api.Stack` implementing `api.ReservedForProviderUse`, as far as the
providers call it. A slice is a list, the nil slice being the empty list. -/
structure Stack where
  GetAuthenticationOptions : AuthenticationOptions
  GetConfigurationOptions : ConfigurationOptions
  ListTemplates : List HostTemplate × Option Error
  ListImages : List Image × Option Error

/-- A value stored in a `providers.ConfigMap`. -/
inductive CfgValue where
  | str (s : String)
  | bool (b : Bool)
  | strs (l : List String)
  deriving DecidableEq, Repr

/-- A `providers.ConfigMap`, in the order of the calls to `Set`. -/
abbrev Config := List (String × CfgValue)

/-- The struct `providers.Capabilities`. -/
structure Capabilities where
  PrivateVirtualIP : Bool
  deriving DecidableEq, Repr

/-- The collaborators of `Build` whose code is outside the sources: the constant
`abstract.DefaultUser`, `objectstorage.BuildMetadataBucketName`, `openstack.New`
of the stacks package, and `govalidator.ValidateStruct` on the authentication
options (its error after `fail.ToError`). -/
structure Deps where
  DefaultUser : String
  BuildMetadataBucketName : String → String → String → String → Except Error String
  New : AuthenticationOptions → ConfigurationOptions → Except Error Stack
  ValidateStruct : AuthenticationOptions → Option Error

/-- What `Build` leaves when it returns: the warnings logged and the provider or
the error. -/
structure Built (P : Type) where
  warnings : List String
  result : Except Error P

/-- The block of both `Build` functions that chooses the operator username from
the `compute` table: the name and the warnings logged. A value that is present
but is not a string makes the assertion `operatorUsernameIf.(string)` panic. -/
def operatorUsernameOf (DefaultUser : String) (compute : Params) : Run (String × List String) :=
  match compute.lookup "OperatorUsername" with
  | none => Run.ret (DefaultUser, [])
  | some (Value.str operatorUsername) =>
    if operatorUsername = "" then
      Run.ret (DefaultUser,
        ["OperatorUsername is empty ! Check your tenants.toml file ! Using 'safescale' user instead."])
    else Run.ret (operatorUsername, [])
  | some _ => Run.panic "interface conversion: interface \x7b\x7d is not string"

end providers

namespace openstack

open providers

/-- The struct `provider` of the openstack provider; `Stack` is `none` when the
embedded interface is nil. -/
structure provider where
  Stack : Option Stack
  SecurityGroup : Option String
  ExternalNetworkID : String
  tenantParameters : Params

/-- Embedding of `(*provider).IsNull`; the receiver is `none` when nil. -/
def IsNull (p : Option provider) : Bool :=
  match p with
  | none => true
  | some q => q.Stack.isNone

/-- The local variables of `Build` once the parameters have been read. -/
structure Locals where
  identityEndpoint : String
  username : String
  password : String
  tenantName : String
  tenantID : String
  region : String
  zone : String
  providerNetwork : String
  floatingIPPool : String
  defaultImage : String
  dnsServers : List String
  operatorUsername : String
  warnings : List String

/-- The first part of `Build`: reading the parameters and applying the defaults. -/
def locals (DefaultUser : String) (params : Params) : Run Locals :=
  let identity := asTable (params.lookup "identity")
  let compute := asTable (params.lookup "compute")
  let network := asTable (params.lookup "network")
  let zone := asString (compute.lookup "AvailabilityZone")
  let providerNetwork := asString (network.lookup "ExternalNetwork")
  let providerNetwork1 := if providerNetwork = "" then "public" else providerNetwork
  let floatingIPPool := asString (network.lookup "FloatingIPPool")
  let dnsServers := asStrings (network.lookup "DNSServers")
  match operatorUsernameOf DefaultUser compute with
  | Run.panic why => Run.panic why
  | Run.ret (operatorUsername, warnings) =>
    Run.ret
      { identityEndpoint := asString (identity.lookup "IdentityEndpoint")
        username := asString (identity.lookup "Username")
        password := asString (identity.lookup "Password")
        tenantName := asString (compute.lookup "TenantName")
        tenantID := asString (compute.lookup "TenantID")
        region := asString (compute.lookup "Region")
        zone := if zone = "" then "nova" else zone
        providerNetwork := providerNetwork1
        floatingIPPool := if floatingIPPool = "" then providerNetwork1 else floatingIPPool
        defaultImage := asString (compute.lookup "DefaultImage")
        dnsServers := if dnsServers.length = 0 then ["8.8.8.8", "1.1.1.1"] else dnsServers
        operatorUsername := operatorUsername
        warnings := warnings }

/-- The value `authOptions` of `Build`. -/
def authOptions (v : Locals) : AuthenticationOptions :=
  { IdentityEndpoint := v.identityEndpoint
    Username := v.username
    Password := v.password
    DomainName := ""
    TenantID := v.tenantID
    TenantName := v.tenantName
    Region := v.region
    AvailabilityZone := v.zone
    FloatingIPPool := v.floatingIPPool
    AllowReauth := false }

/-- The value `cfgOptions` of `Build`. -/
def cfgOptions (v : Locals) (metadataBucketName : String) : ConfigurationOptions :=
  { ProviderNetwork := v.providerNetwork
    UseFloatingIP := true
    UseLayer3Networking := true
    UseNATService := false
    AutoHostNetworkInterfaces := true
    DNSList := v.dnsServers
    DefaultImage := v.defaultImage
    MetadataBucket := metadataBucketName
    OperatorUsername := v.operatorUsername
    ProviderName := "openstack"
    DefaultSecurityGroupName := "default"
    VolumeSpeeds := [("standard", "COLD"), ("performant", "HDD")] }

/-- Embedding of `(*provider).Build`; the receiver is not read. -/
def Build (D : Deps) (params : Params) : Run (Built provider) :=
  match locals D.DefaultUser params with
  | Run.panic why => Run.panic why
  | Run.ret v =>
    match D.BuildMetadataBucketName "openstack" v.region v.tenantID "0" with
    | .error xerr => Run.ret ⟨v.warnings, .error xerr⟩
    | .ok metadataBucketName =>
      match D.New (authOptions v) (cfgOptions v metadataBucketName) with
      | .error xerr => Run.ret ⟨v.warnings, .error xerr⟩
      | .ok stack =>
        Run.ret ⟨v.warnings,
          .ok { Stack := some stack, SecurityGroup := none, ExternalNetworkID := "",
                tenantParameters := params }⟩

/-- Embedding of `(*provider).GetName`. -/
def GetName (_p : Option provider) : String := "openstack"

/-- Embedding of `(*provider).GetAuthenticationOptions`. The method reads
`p.Stack` and asserts its type with no check before: a nil receiver and a nil
`Stack` both panic. -/
def GetAuthenticationOptions (p : Option provider) : Run (Config × Option Error) :=
  match p with
  | none => Run.panic "invalid memory address or nil pointer dereference"
  | some q =>
    match q.Stack with
    | none => Run.panic "interface conversion: interface is nil, not api.ReservedForProviderUse"
    | some stack =>
      let opts := stack.GetAuthenticationOptions
      Run.ret
        ([ ("TenantName", CfgValue.str opts.TenantName),
           ("Login", CfgValue.str opts.Username),
           ("Password", CfgValue.str opts.Password),
           ("AuthUrl", CfgValue.str opts.IdentityEndpoint),
           ("Region", CfgValue.str opts.Region),
           ("DomainName", CfgValue.str opts.DomainName) ], none)

/-- Embedding of `(*provider).GetConfigurationOptions`; as for the
authentication options there is no check before `p.Stack` is used. -/
def GetConfigurationOptions (p : Option provider) : Run (Config × Option Error) :=
  match p with
  | none => Run.panic "invalid memory address or nil pointer dereference"
  | some q =>
    match q.Stack with
    | none => Run.panic "interface conversion: interface is nil, not api.ReservedForProviderUse"
    | some stack =>
      let opts := stack.GetConfigurationOptions
      Run.ret
        ([ ("DNSList", CfgValue.strs opts.DNSList),
           ("AutoHostNetworkInterfaces", CfgValue.bool opts.AutoHostNetworkInterfaces),
           ("UseLayer3Networking", CfgValue.bool opts.UseLayer3Networking),
           ("DefaultImage", CfgValue.str opts.DefaultImage),
           ("ProviderNetwork", CfgValue.str opts.ProviderNetwork),
           ("MetadataBucketName", CfgValue.str opts.MetadataBucket),
           ("OperatorUsername", CfgValue.str opts.OperatorUsername),
           ("ProviderName", CfgValue.str (GetName p)),
           ("UseNATService", CfgValue.bool opts.UseNATService) ], none)

/-- Embedding of `(*provider).ListTemplates`. -/
def ListTemplates (p : Option provider) (_all : Bool) : Run (List HostTemplate × Option Error) :=
  if IsNull p then Run.ret ([], some Error.InvalidInstanceError)
  else
    match p with
    | none => Run.panic "invalid memory address or nil pointer dereference"
    | some q =>
      match q.Stack with
      | none => Run.panic "interface conversion: interface is nil, not api.ReservedForProviderUse"
      | some stack => Run.ret stack.ListTemplates

/-- Embedding of `(*provider).ListImages`. -/
def ListImages (p : Option provider) (_all : Bool) : Run (List Image × Option Error) :=
  if IsNull p then Run.ret ([], some Error.InvalidInstanceError)
  else
    match p with
    | none => Run.panic "invalid memory address or nil pointer dereference"
    | some q =>
      match q.Stack with
      | none => Run.panic "interface conversion: interface is nil, not api.ReservedForProviderUse"
      | some stack => Run.ret stack.ListImages

/-- Embedding of `(*provider).GetTenantParameters`: the field, read without a
check; only a nil receiver panics. -/
def GetTenantParameters (p : Option provider) : Run Params :=
  match p with
  | none => Run.panic "invalid memory address or nil pointer dereference"
  | some q => Run.ret q.tenantParameters

/-- Embedding of `(*provider).GetCapabilities`: the receiver is not read. -/
def GetCapabilities (_p : Option provider) : Run Capabilities :=
  Run.ret ⟨true⟩

end openstack

namespace cloudferro

open providers

/-- The package variable `cloudferroIdentityEndpoint`. -/
def cloudferroIdentityEndpoint : String := "https://cf2.cloudferro.com:5000/v3"

/-- The package variable `cloudferroDefaultImage`. -/
def cloudferroDefaultImage : String := "Ubuntu 18.04"

/-- The package variable `cloudferroDNSServers`. -/
def cloudferroDNSServers : List String := ["185.48.234.234", "185.48.234.238"]

/-- The struct `provider` of the cloudferro provider. -/
structure provider where
  Stack : Option Stack
  tenantParameters : Params

/-- What a call `p.IsNull()` on a cloudferro provider gives: the methods of the
provider call it, but the sources of the package declare no `IsNull` (the only
candidate in sight is a method promoted from the embedded `api.Stack`, which is
outside the sources). The methods below take it as the parameter `IsNull`: for
each receiver, the boolean the call returns or the panic it ends in. -/
abbrev IsNullCall := Option provider → Run Bool

/-- The local variables of `Build` once the parameters have been read. -/
structure Locals where
  username : String
  password : String
  domainName : String
  region : String
  zone : String
  projectName : String
  defaultImage : String
  operatorUsername : String
  providerNetwork : String
  floatingIPPool : String
  warnings : List String

/-- The first part of `Build`: reading the parameters and applying the defaults. -/
def locals (DefaultUser : String) (params : Params) : Run Locals :=
  let identity := asTable (params.lookup "identity")
  let compute := asTable (params.lookup "compute")
  let network := asTable (params.lookup "network")
  let defaultImage := asString (compute.lookup "DefaultImage")
  let providerNetwork := asString (network.lookup "ProviderNetwork")
  let providerNetwork1 := if providerNetwork = "" then "external" else providerNetwork
  let floatingIPPool := asString (network.lookup "FloatingIPPool")
  match operatorUsernameOf DefaultUser compute with
  | Run.panic why => Run.panic why
  | Run.ret (operatorUsername, warnings) =>
    Run.ret
      { username := asString (identity.lookup "Username")
        password := asString (identity.lookup "Password")
        domainName := asString (identity.lookup "DomainName")
        region := "RegionOne"
        zone := "nova"
        projectName := asString (compute.lookup "ProjectName")
        defaultImage := if defaultImage = "" then cloudferroDefaultImage else defaultImage
        operatorUsername := operatorUsername
        providerNetwork := providerNetwork1
        floatingIPPool := if floatingIPPool = "" then providerNetwork1 else floatingIPPool
        warnings := warnings }

/-- The value `authOptions` of `Build`. -/
def authOptions (v : Locals) : AuthenticationOptions :=
  { IdentityEndpoint := cloudferroIdentityEndpoint
    Username := v.username
    Password := v.password
    DomainName := v.domainName
    TenantID := ""
    TenantName := v.projectName
    Region := v.region
    AvailabilityZone := v.zone
    FloatingIPPool := v.floatingIPPool
    AllowReauth := true }

/-- The value `cfgOptions` of `Build`. -/
def cfgOptions (v : Locals) (metadataBucketName : String) : ConfigurationOptions :=
  { ProviderNetwork := v.providerNetwork
    UseFloatingIP := true
    UseLayer3Networking := true
    UseNATService := false
    AutoHostNetworkInterfaces := true
    DNSList := cloudferroDNSServers
    DefaultImage := v.defaultImage
    MetadataBucket := metadataBucketName
    OperatorUsername := v.operatorUsername
    ProviderName := "openstack"
    DefaultSecurityGroupName := ""
    VolumeSpeeds := [("HDD", "HDD"), ("SSD", "SSD")] }

/-- Embedding of `(*provider).Build`; the receiver is not read. -/
def Build (D : Deps) (params : Params) : Run (Built provider) :=
  match locals D.DefaultUser params with
  | Run.panic why => Run.panic why
  | Run.ret v =>
    match D.ValidateStruct (authOptions v) with
    | some err => Run.ret ⟨v.warnings, .error err⟩
    | none =>
      match D.BuildMetadataBucketName "openstack" v.region v.domainName v.projectName with
      | .error xerr => Run.ret ⟨v.warnings, .error xerr⟩
      | .ok metadataBucketName =>
        match D.New (authOptions v) (cfgOptions v metadataBucketName) with
        | .error xerr => Run.ret ⟨v.warnings, .error xerr⟩
        | .ok stack => Run.ret ⟨v.warnings, .ok { Stack := some stack, tenantParameters := params }⟩

/-- Embedding of `provider.GetName`. -/
def GetName : String := "cloudferro"

/-- The panic of a method with a value receiver called through a nil pointer. -/
def nilReceiver {α : Type} : Run α :=
  Run.panic "value method called using nil *provider pointer"

/-- Embedding of `provider.GetAuthenticationOptions` (value receiver). -/
def GetAuthenticationOptions (IsNull : IsNullCall) (p : Option provider) : Run (Config × Option Error) :=
  match p with
  | none => nilReceiver
  | some q =>
    match IsNull (some q) with
    | Run.panic why => Run.panic why
    | Run.ret true => Run.ret ([], some Error.InvalidInstanceError)
    | Run.ret false =>
      match q.Stack with
      | none => Run.panic "interface conversion: interface is nil, not api.ReservedForProviderUse"
      | some stack =>
        let opts := stack.GetAuthenticationOptions
        Run.ret
          ([ ("TenantName", CfgValue.str opts.TenantName),
             ("Login", CfgValue.str opts.Username),
             ("Password", CfgValue.str opts.Password),
             ("AuthUrl", CfgValue.str opts.IdentityEndpoint),
             ("Region", CfgValue.str opts.Region) ], none)

/-- Embedding of `provider.GetConfigurationOptions` (value receiver). -/
def GetConfigurationOptions (IsNull : IsNullCall) (p : Option provider) : Run (Config × Option Error) :=
  match p with
  | none => nilReceiver
  | some q =>
    match IsNull (some q) with
    | Run.panic why => Run.panic why
    | Run.ret true => Run.ret ([], some Error.InvalidInstanceError)
    | Run.ret false =>
      match q.Stack with
      | none => Run.panic "interface conversion: interface is nil, not api.ReservedForProviderUse"
      | some stack =>
        let opts := stack.GetConfigurationOptions
        Run.ret
          ([ ("DNSList", CfgValue.strs opts.DNSList),
             ("AutoHostNetworkInterfaces", CfgValue.bool opts.AutoHostNetworkInterfaces),
             ("UseLayer3Networking", CfgValue.bool opts.UseLayer3Networking),
             ("DefaultImage", CfgValue.str opts.DefaultImage),
             ("MetadataBucketName", CfgValue.str opts.MetadataBucket),
             ("OperatorUsername", CfgValue.str opts.OperatorUsername),
             ("ProviderName", CfgValue.str GetName),
             ("UseNATService", CfgValue.bool opts.UseNATService) ], none)

/-- Embedding of `provider.ListTemplates` (value receiver). -/
def ListTemplates (IsNull : IsNullCall) (p : Option provider) (_all : Bool) :
    Run (List HostTemplate × Option Error) :=
  match p with
  | none => nilReceiver
  | some q =>
    match IsNull (some q) with
    | Run.panic why => Run.panic why
    | Run.ret true => Run.ret ([], some Error.InvalidInstanceError)
    | Run.ret false =>
      match q.Stack with
      | none => Run.panic "interface conversion: interface is nil, not api.ReservedForProviderUse"
      | some stack =>
        match stack.ListTemplates.2 with
        | some xerr => Run.ret ([], some xerr)
        | none => Run.ret (stack.ListTemplates.1, none)

/-- Embedding of `provider.ListImages` (value receiver). -/
def ListImages (IsNull : IsNullCall) (p : Option provider) (_all : Bool) :
    Run (List Image × Option Error) :=
  match p with
  | none => nilReceiver
  | some q =>
    match IsNull (some q) with
    | Run.panic why => Run.panic why
    | Run.ret true => Run.ret ([], some Error.InvalidInstanceError)
    | Run.ret false =>
      match q.Stack with
      | none => Run.panic "interface conversion: interface is nil, not api.ReservedForProviderUse"
      | some stack =>
        match stack.ListImages.2 with
        | some xerr => Run.ret ([], some xerr)
        | none => Run.ret (stack.ListImages.1, none)

/-- Embedding of `provider.GetTenantParameters` (value receiver). -/
def GetTenantParameters (IsNull : IsNullCall) (p : Option provider) : Run Params :=
  match p with
  | none => nilReceiver
  | some q =>
    match IsNull (some q) with
    | Run.panic why => Run.panic why
    | Run.ret true => Run.ret []
    | Run.ret false => Run.ret q.tenantParameters

/-- Embedding of `(*provider).GetCapabilities` (pointer receiver: the call
`p.IsNull()` is made on the receiver as it is, nil or not). -/
def GetCapabilities (IsNull : IsNullCall) (p : Option provider) : Run Capabilities :=
  match IsNull p with
  | Run.panic why => Run.panic why
  | Run.ret true => Run.ret ⟨false⟩
  | Run.ret false => Run.ret ⟨true⟩

/-- An `IsNull` used to exercise the methods: the test the openstack provider
makes, a provider being null when it is nil or has no `Stack`. -/
def sampleIsNull : IsNullCall
  | none => Run.ret true
  | some q => Run.ret q.Stack.isNone

end cloudferro

namespace providers

/-- Collaborators of `Build` that all succeed: the bucket name is made of the
four parts, the stack answers with the options it was created with. -/
def sampleDeps : Deps where
  DefaultUser := "safescale"
  BuildMetadataBucketName := fun a b c d => .ok (a ++ "." ++ b ++ "." ++ c ++ "." ++ d)
  New := fun auth cfg => .ok ⟨auth, cfg, ([], none), ([], none)⟩
  ValidateStruct := fun _ => none

/-- A stack with two templates, one image and empty options. -/
def sampleStack : Stack where
  GetAuthenticationOptions := ⟨"", "", "", "", "", "", "", "", "", false⟩
  GetConfigurationOptions := ⟨"", false, false, false, false, [], "", "", "", "", "", []⟩
  ListTemplates := ([⟨"s1-2"⟩, ⟨"s1-4"⟩], none)
  ListImages := ([⟨"Ubuntu 18.04"⟩], none)

end providers

namespace providers

/-- Tenant parameters that give a region and an external network and nothing
else. -/
def sampleParams : Params :=
  [ ("compute", Value.table [("Region", Value.str "GRA")]),
    ("network", Value.table [("ExternalNetwork", Value.str "Ext-Net")]) ]

/-- The values the openstack `Build` derives from `sampleParams`. -/
def sampleLocals : openstack.Locals :=
  { identityEndpoint := ""
    username := ""
    password := ""
    tenantName := ""
    tenantID := ""
    region := "GRA"
    zone := "nova"
    providerNetwork := "Ext-Net"
    floatingIPPool := "Ext-Net"
    defaultImage := ""
    dnsServers := ["8.8.8.8", "1.1.1.1"]
    operatorUsername := "safescale"
    warnings := [] }

/-- Tenant parameters in which `compute.OperatorUsername` is a number. -/
def numericOperatorParams : Params :=
  [ ("compute", Value.table [("OperatorUsername", Value.other "int64")]) ]

end providers

namespace cmd

open providers (Run)

/-- An argument of a `Printf` call. -/
inductive Arg where
  | num (n : Int)
  | str (s : String)
  deriving DecidableEq, Repr

/-- What a command writes: `fmt.Println`, `fmt.Printf` and `log.Printf` with
their format and arguments, and the help shown by `cli.ShowSubcommandHelp`. -/
inductive Out where
  | Println (s : String)
  | Printf (format : String) (args : List Arg)
  | LogPrintf (format : String) (args : List Arg)
  | ShowSubcommandHelp
  deriving DecidableEq, Repr

/-- A `cli.Context`, as far as the cluster commands read it: the positional
arguments, the flags `count`, `public`, `id`, `complexity` and `cidr`, and the
`pb.VMDefinition` that `node add` builds from the flags `cpu`, `disk` and `ram`
(kept as a value of a type `V`). The flag `count` is a Go `int`. -/
structure Context (V : Type) where
  args : List String
  count : Int
  publicFlag : Bool
  id : String
  complexity : String
  cidr : String
  vm : V

/-- The call `c.NArg()`. -/
def Context.NArg {V : Type} (c : Context V) : Nat := c.args.length

/-- The call `c.Args().First()`. -/
def Context.First {V : Type} (c : Context V) : String :=
  match c.args with
  | a :: _ => a
  | [] => ""

/-- The struct `clusterapi.Request`. -/
structure Request where
  Name : String
  Complexity : String
  CIDR : String
  Flavor : String
  deriving DecidableEq, Repr

/-- The methods of `clusterapi.ClusterAPI` the commands call, on a cluster whose
state has type `I`; an error is its message. -/
structure ClusterAPI (I V : Type) where
  Start : I → I × Option String
  Stop : I → I × Option String
  GetState : I → Except String String
  AddNode : I → Bool → V → I × Option String
  DeleteLastNode : I → Bool → I × Option String
  DeleteSpecificNode : I → String → I × Option String
  ListNodes : I → Bool → String
  SearchNode : I → String → Bool → Bool
  CountNodes : I → Bool → Nat
  GetDefinition : I → String

/-- The functions of the packages `cluster`, `Complexity` and `utils` the
commands call, which are outside the sources. `Get` returns the error, or the
cluster found, or nil with no error when no cluster has the name; `GetVM`
returns the name of the VM; `GetDefinition` and `ListNodes` of a cluster are
taken with their JSON rendering. -/
structure Pkg (I V : Type) where
  api : ClusterAPI I V
  Get : String → Except String (Option I)
  Create : Request → Except String I
  FromString : String → Except String String
  GetVM : String → Except String String

/-- How a command ends: the cluster instance it worked on, in its last state
(`none` when it obtained none), what it wrote, and the error it returned or the
panic. -/
structure Done (I : Type) where
  inst : Option I
  out : List Out
  ret : Run (Option String)

/-- The panic of a method call on a nil `ClusterAPI`. -/
def nilInstance : Run (Option String) :=
  Run.panic "invalid memory address or nil pointer dereference"

/-- The start of every command: one positional argument is required. -/
def missingName {I : Type} : Done I :=
  ⟨none, [Out.Println "Missing mandatory argument <cluster name>", Out.ShowSubcommandHelp],
    Run.ret (some "Cluster name required")⟩

/-- The conversion `uint16(x)` of a Go `int`. -/
def toUint16 (x : Int) : Nat := (x % 65536).toNat

/-- The conversion `uint(x)` of a Go `int` (64 bits). -/
def toUint (x : Int) : Nat := (x % 18446744073709551616).toNat

/-- The conversion `int(n)` of a Go `uint` (64 bits, two's complement). -/
def toInt (n : Nat) : Int :=
  if n % 18446744073709551616 < 9223372036854775808 then (n % 18446744073709551616 : Nat)
  else (n % 18446744073709551616 : Nat) - 18446744073709551616

/-- The plural mark `countS` of the messages. -/
def countS (count : Nat) : String := if count > 1 then "s" else ""

/-- The word for the kind of node in the messages. -/
def nodeTypeString (publicFlag : Bool) : String := if publicFlag then "public" else "private"

/-- Embedding of the action of `clusterInspect`. -/
def clusterInspect {I V : Type} (P : Pkg I V) (c : Context V) : Done I :=
  if c.NArg ≠ 1 then missingName
  else
    match P.Get c.First with
    | .error err =>
      ⟨none, [], Run.ret (some ("Could not inspect cluster '" ++ c.First ++ "': " ++ err))⟩
    | .ok none => ⟨none, [], Run.ret (some ("cluster '" ++ c.First ++ "' not found"))⟩
    | .ok (some inst) => ⟨some inst, [Out.Println (P.api.GetDefinition inst)], Run.ret none⟩

/-- Embedding of the action of `clusterCreate`. -/
def clusterCreate {I V : Type} (P : Pkg I V) (c : Context V) : Done I :=
  if c.NArg ≠ 1 then missingName
  else
    match P.Get c.First with
    | .error err => ⟨none, [], Run.ret (some err)⟩
    | .ok (some inst) =>
      ⟨some inst, [], Run.ret (some ("cluster '" ++ c.First ++ "' already exists."))⟩
    | .ok none =>
      let logged :=
        Out.LogPrintf "Cluster '%s' not found, creating it (this will take a while)\n"
          [Arg.str c.First]
      match P.FromString c.complexity with
      | .error err => ⟨none, [logged], Run.ret (some err)⟩
      | .ok complexity =>
        match P.Create ⟨c.First, complexity, c.cidr, "DCOS"⟩ with
        | .error err => ⟨none, [logged], Run.ret (some ("Failed to create cluster: " ++ err))⟩
        | .ok inst =>
          ⟨some inst, [logged, Out.Println (P.api.GetDefinition inst)], Run.ret none⟩

/-- The loop of `clusterNodeAdd`: `n` iterations are left, `i` have been done.
The result is the instance and, when a call failed, its number and error. -/
def addLoop {I V : Type} (api : ClusterAPI I V) (publicFlag : Bool) (vm : V) :
    Nat → Nat → I → I × Option (Nat × String)
  | 0, _, inst => (inst, none)
  | n + 1, i, inst =>
    match (api.AddNode inst publicFlag vm).2 with
    | some err => ((api.AddNode inst publicFlag vm).1, some (i + 1, err))
    | none => addLoop api publicFlag vm n (i + 1) (api.AddNode inst publicFlag vm).1

/-- Embedding of the action of `clusterNodeAdd`. -/
def clusterNodeAdd {I V : Type} (P : Pkg I V) (c : Context V) : Done I :=
  if c.NArg ≠ 1 then missingName
  else
    match P.Get c.First with
    | .error err => ⟨none, [], Run.ret (some err)⟩
    | .ok none => ⟨none, [], Run.ret (some ("Cluster '" ++ c.First ++ "' not found."))⟩
    | .ok (some inst) =>
      let count := toUint16 c.count
      let adding :=
        Out.Printf "Adding %d %s node%s to Cluster '%s' (this may take a while)...\n"
          [Arg.num count, Arg.str (nodeTypeString c.publicFlag), Arg.str (countS count),
            Arg.str c.First]
      match addLoop P.api c.publicFlag c.vm c.count.toNat 0 inst with
      | (inst1, some (i, err)) =>
        ⟨some inst1, [adding],
          Run.ret (some ("Failed to add node #" ++ toString i ++ ": " ++ err))⟩
      | (inst1, none) =>
        ⟨some inst1,
          [adding,
            Out.Printf "Added %d %s node%s to cluster '%s'.\n"
              [Arg.num count, Arg.str (nodeTypeString c.publicFlag), Arg.str (countS count),
                Arg.str c.First]],
          Run.ret none⟩

/-- The loop of `clusterNodeDelete`, like `addLoop`. -/
def deleteLoop {I V : Type} (api : ClusterAPI I V) (publicFlag : Bool) :
    Nat → Nat → I → I × Option (Nat × String)
  | 0, _, inst => (inst, none)
  | n + 1, i, inst =>
    match (api.DeleteLastNode inst publicFlag).2 with
    | some err => ((api.DeleteLastNode inst publicFlag).1, some (i + 1, err))
    | none => deleteLoop api publicFlag n (i + 1) (api.DeleteLastNode inst publicFlag).1

/-- Embedding of the action of `clusterNodeDelete`. -/
def clusterNodeDelete {I V : Type} (P : Pkg I V) (c : Context V) : Done I :=
  if c.NArg ≠ 1 then missingName
  else
    match P.Get c.First with
    | .error err => ⟨none, [], Run.ret (some err)⟩
    | .ok none => ⟨none, [], Run.ret (some ("Cluster '" ++ c.First ++ "' not found."))⟩
    | .ok (some inst) =>
      if c.id ≠ "" then
        if !(P.api.SearchNode inst c.id true || P.api.SearchNode inst c.id false) then
          ⟨some inst, [],
            Run.ret (some ("Node id '" ++ c.id ++ "' isn't a node of the cluster '"
              ++ c.First ++ "'."))⟩
        else
          match P.GetVM c.id with
          | .error err => ⟨some inst, [], Run.ret (some err)⟩
          | .ok vmName =>
            match (P.api.DeleteSpecificNode inst c.id).2 with
            | some err => ⟨some (P.api.DeleteSpecificNode inst c.id).1, [], Run.ret (some err)⟩
            | none =>
              ⟨some (P.api.DeleteSpecificNode inst c.id).1,
                [Out.Printf "Node '%s' of cluster '%s' deleted." [Arg.str vmName, Arg.str c.First]],
                Run.ret none⟩
      else
        let count := toUint c.count
        let present := P.api.CountNodes inst c.publicFlag
        if count > present then
          ⟨some inst, [],
            Run.ret (some ("can't delete " ++ toString count ++ " "
              ++ nodeTypeString c.publicFlag ++ " node" ++ countS count
              ++ ", the cluster contains only " ++ toString present ++ " of them"))⟩
        else
          let deleting :=
            Out.Printf "Deleting %d %s node%s from Cluster '%s' (this may take a while)...\n"
              [Arg.num count, Arg.str (nodeTypeString c.publicFlag), Arg.str (countS count),
                Arg.str c.First]
          match deleteLoop P.api c.publicFlag (toInt count).toNat 0 inst with
          | (inst1, some (i, err)) =>
            ⟨some inst1, [deleting],
              Run.ret (some ("Failed to delete node #" ++ toString i ++ ": " ++ err))⟩
          | (inst1, none) =>
            ⟨some inst1,
              [deleting,
                Out.Printf "%d %s node%s successfully deleted from cluster '%s'.\n"
                  [Arg.num count, Arg.str (nodeTypeString c.publicFlag), Arg.str (countS count),
                    Arg.str c.First]],
              Run.ret none⟩

/-- Embedding of the action of `clusterNodeList`. -/
def clusterNodeList {I V : Type} (P : Pkg I V) (c : Context V) : Done I :=
  if c.NArg ≠ 1 then missingName
  else
    match P.Get c.First with
    | .error err => ⟨none, [], Run.ret (some err)⟩
    | .ok none => ⟨none, [], Run.ret (some ("Cluster '" ++ c.First ++ "' not found."))⟩
    | .ok (some inst) =>
      ⟨some inst, [Out.Println (P.api.ListNodes inst c.publicFlag)], Run.ret none⟩

/-- Embedding of the action of `clusterStop`. -/
def clusterStop {I V : Type} (P : Pkg I V) (c : Context V) : Done I :=
  if c.NArg ≠ 1 then missingName
  else
    match P.Get c.First with
    | .error err => ⟨none, [], Run.ret (some err)⟩
    | .ok none => ⟨none, [], nilInstance⟩
    | .ok (some inst) =>
      match (P.api.Stop inst).2 with
      | some err => ⟨some (P.api.Stop inst).1, [], Run.ret (some err)⟩
      | none =>
        ⟨some (P.api.Stop inst).1, [Out.Printf "Cluster '%s' stopped.\n" [Arg.str c.First]],
          Run.ret none⟩

/-- Embedding of the action of `clusterStart`. -/
def clusterStart {I V : Type} (P : Pkg I V) (c : Context V) : Done I :=
  if c.NArg ≠ 1 then missingName
  else
    match P.Get c.First with
    | .error _ => ⟨none, [], Run.ret none⟩
    | .ok none => ⟨none, [], nilInstance⟩
    | .ok (some inst) =>
      match (P.api.Start inst).2 with
      | some err => ⟨some (P.api.Start inst).1, [], Run.ret (some err)⟩
      | none =>
        ⟨some (P.api.Start inst).1, [Out.Printf "Cluster '%s' started.\n" [Arg.str c.First]],
          Run.ret none⟩

/-- Embedding of the action of `clusterState`. -/
def clusterState {I V : Type} (P : Pkg I V) (c : Context V) : Done I :=
  if c.NArg ≠ 1 then missingName
  else
    match P.Get c.First with
    | .error err => ⟨none, [], Run.ret (some err)⟩
    | .ok none => ⟨none, [], nilInstance⟩
    | .ok (some inst) =>
      match P.api.GetState inst with
      | .error err => ⟨some inst, [], Run.ret (some err)⟩
      | .ok state =>
        ⟨some inst,
          [Out.Printf "Cluster '%s' state : %s\n" [Arg.str c.First, Arg.str state]],
          Run.ret none⟩

/-- A cluster instance that is the list of the calls made on it; every call
succeeds, and the instance counts `present` nodes of each kind. -/
def tracingAPI (present : Nat) : ClusterAPI (List String) Unit where
  Start := fun l => (l ++ ["Start"], none)
  Stop := fun l => (l ++ ["Stop"], none)
  GetState := fun _ => .ok "Nominal"
  AddNode := fun l _ _ => (l ++ ["AddNode"], none)
  DeleteLastNode := fun l _ => (l ++ ["DeleteLastNode"], none)
  DeleteSpecificNode := fun l _ => (l ++ ["DeleteSpecificNode"], none)
  ListNodes := fun _ _ => "[]"
  SearchNode := fun _ _ _ => false
  CountNodes := fun _ _ => present
  GetDefinition := fun _ => "\x7b\x7d"

/-- The packages around `tracingAPI`, `Get` answering `found` for every name. -/
def tracingPkg (present : Nat) (found : Except String (Option (List String))) :
    Pkg (List String) Unit where
  api := tracingAPI present
  Get := fun _ => found
  Create := fun _ => .ok []
  FromString := fun s => .ok s
  GetVM := fun id => .ok id

/-- The command line `<cluster name> --count n` for the private nodes of the
cluster `c1`. -/
def countContext (n : Int) : Context Unit :=
  ⟨["c1"], n, false, "", "Normal", "192.168.0.0/24", ()⟩

end cmd

namespace utils

/-- The eight variables of the timeout getters. -/
def timeoutVariables : List String :=
  [ "SAFESCALE_CONTEXT_TIMEOUT", "SAFESCALE_HOST_TIMEOUT", "SAFESCALE_HOST_CLEANUP_TIMEOUT",
    "SAFESCALE_SSH_CONNECT_TIMEOUT", "SAFESCALE_HOST_LONG_OPERATION_TIMEOUT",
    "SAFESCALE_MIN_DELAY", "SAFESCALE_DEFAULT_DELAY", "SAFESCALE_BIG_DELAY" ]

/-- The variable `key` is not set, or it is set to a value that
`time.ParseDuration` rejects. -/
def Sys.UnsetOrUnparseable (S : Sys) (key : String) : Prop :=
  S.env key = none ∨ ∃ v e, S.env key = some v ∧ S.ParseDuration v = .error e

/-- The getter `G` reads exactly the variable `key`, with the compiled value
`d0`: it returns `d0` when `key` is not set or does not parse; it returns the
duration a non-empty value of `key` parses to; and its result is the same in two
processes that parse durations alike and agree on `key`, whatever their other
variables hold. -/
def ReadsExactly (G : Sys → Duration) (key : String) (d0 : Duration) : Prop :=
  (∀ S : Sys, S.UnsetOrUnparseable key → G S = d0) ∧
  (∀ (S : Sys) (v : String) (d : Duration),
    S.env key = some v → v ≠ "" → S.ParseDuration v = .ok d → G S = d) ∧
  (∀ S S1 : Sys, S.ParseDuration = S1.ParseDuration → S.env key = S1.env key → G S = G S1)

end utils


namespace providers

/-- A stack whose two listings fail with `boom` while returning the part of the
list they had built. -/
def failingStack : Stack where
  GetAuthenticationOptions := ⟨"", "", "", "", "", "", "", "", "", false⟩
  GetConfigurationOptions := ⟨"", false, false, false, false, [], "", "", "", "", "", []⟩
  ListTemplates := ([⟨"s1-2"⟩], some (Error.Other "boom"))
  ListImages := ([⟨"Ubuntu 18.04"⟩], some (Error.Other "boom"))

end providers


/-! ## Properties of `Shielded` -/

namespace concurrency

open propertiesv1

theorem deferredErr_some (e : Error) (u : Option Error) : deferredErr (some e) u = some e := by
  cases u <;> rfl

theorem deferredErr_none (u : Option Error) : deferredErr none u = u := by
  cases u <;> rfl

/-- Under the contract of `Clone`, a closure that writes through the reference
it is handed only leaves the original object as it was. -/
theorem original_kept {Cell V σ : Type} (Y : Layout Cell V) (C : ClonableAt Cell)
    (fn : CallbackAt Cell σ) (m : Mem Cell) (w : Nat) (env : σ)
    (hY : Y.Local) (hconf : CallbackAt.Confined Y fn) (hin : Y.Holds m w)
    (hC : C.IndependentAt Y m w) :
    Y.reach (fn (C.Clone m w).2 (C.Clone m w).1 env).mem w = Y.reach m w ∧
    Y.val (fn (C.Clone m w).2 (C.Clone m w).1 env).mem w = Y.val m w := by
  apply hY
  intro a ha
  obtain ⟨h1, h2, _⟩ := hC
  have hm : a < m.length := hin a ha
  have hlt : a < (C.Clone m w).1.length := by
    by_contra hge
    have h3 := h1 a ha
    rw [List.getElem?_eq_none (Nat.le_of_not_lt hge), List.getElem?_eq_getElem hm] at h3
    exact absurd h3 (by simp)
  rw [hconf _ _ _ a hlt (h2 a ha), h1 a ha]

theorem flat_Local (Cell : Type) : (Layout.flat Cell).Local := by
  intro h h1 p hcells
  exact ⟨rfl, hcells p (by simp [Layout.flat])⟩

theorem deserializeAltererAt_Confined {Cell V : Type} (Y : Layout Cell V)
    (Unmarshal : List Nat → Nat → Mem Cell → Mem Cell × Option String) (buf : List Nat)
    (hU : UnmarshalConfined Y Unmarshal) :
    CallbackAt.Confined Y (deserializeAltererAt Unmarshal buf) := by
  intro p m env a ha hna
  have := hU buf p m a ha hna
  unfold deserializeAltererAt
  cases h : (Unmarshal buf p m).2 <;> simpa [h] using this

end concurrency

namespace propertiesv1

theorem Clone_fst (h : Heap) (p : Nat) (ct : ClusterDefaults) (hp : h[p]? = some ct) :
    (Clone h p).1 = h ++ [ct] := by
  have hlt : p < h.length := by
    rcases Nat.lt_or_ge p h.length with hlt | hge
    · exact hlt
    · rw [List.getElem?_eq_none hge] at hp
      exact absurd hp (by simp)
  have h1 : (h ++ [ClusterDefaults.zero])[h.length]? = some ClusterDefaults.zero := by simp
  have h2 : (h ++ [ClusterDefaults.zero])[p]? = some ct := by
    rw [List.getElem?_append_left hlt]
    exact hp
  simp only [Clone, Replace, newClusterDefaults, h1, h2]
  simp [ClusterDefaults.Replace]

/-- The clone of a `ClusterDefaults` object held in memory meets the contract of
a deep `Clone`. -/
theorem clonableAt_IndependentAt (h : Heap) (p : Nat) (ct : ClusterDefaults)
    (hp : h[p]? = some ct) :
    (concurrency.Layout.flat ClusterDefaults).Holds h p ∧
    ClusterDefaults.clonableAt.IndependentAt (concurrency.Layout.flat ClusterDefaults) h p := by
  have hlt : p < h.length := by
    rcases Nat.lt_or_ge p h.length with hlt | hge
    · exact hlt
    · rw [List.getElem?_eq_none hge] at hp
      exact absurd hp (by simp)
  have hq : (Clone h p).2 = h.length := rfl
  have hold : (h ++ [ct])[p]? = some ct := by
    rw [List.getElem?_append_left hlt]
    exact hp
  refine ⟨?_, ?_, ?_, ?_⟩
  · intro a ha
    simp [concurrency.Layout.flat] at ha
    subst ha
    exact hlt
  · intro a ha
    simp [concurrency.Layout.flat] at ha
    subst ha
    show (Clone h a).1[a]? = h[a]?
    rw [Clone_fst h a ct hp, hold, hp]
  · intro a ha
    simp [concurrency.Layout.flat] at ha
    subst ha
    show a ∉ [(Clone h a).2]
    rw [hq]
    simp
    exact Nat.ne_of_lt hlt
  · show (Clone h p).1[(Clone h p).2]? = h[p]?
    rw [Clone_fst h p ct hp, hq, hp]
    simp

theorem cultureCallbackAt_Confined (r : Option Error) :
    concurrency.CallbackAt.Confined (concurrency.Layout.flat ClusterDefaults)
      (cultureCallbackAt r) := by
  intro p m env a _ hna
  have hne : p ≠ a := by
    intro h
    apply hna
    simp [concurrency.Layout.flat, h]
  show (setGatewayGPU m p 7 "Culture")[a]? = m[a]?
  unfold setGatewayGPU
  cases hp : m[p]? with
  | none => rfl
  | some v => simp [List.getElem?_set_ne hne]

theorem sampleUnmarshalAt_Confined :
    concurrency.UnmarshalConfined (concurrency.Layout.flat ClusterDefaults) sampleUnmarshalAt := by
  intro buf p m a _ hna
  have hne : p ≠ a := by
    intro h
    apply hna
    simp [concurrency.Layout.flat, h]
  unfold sampleUnmarshalAt
  cases hp : m[p]? with
  | none => rfl
  | some v => simp [List.getElem?_set_ne hne]

end propertiesv1

namespace concurrency

open propertiesv1

/-- C1. Alter is atomic on failure. The alterer is handed the reference
`witness.Clone()` returns and may write to memory. Assume the contract of
`data.Clonable` for the witness `w` (the clone shares no cell with `w` and
cloning leaves `w` as it is) and an alterer that writes through the reference
it is handed only, whatever it writes there. With a non-null task, if the
alterer returns an error then after `Alter` the receiver holds the same
reference `w`, the object at `w` has the cells and the content it had before
the call, and `Alter` returns an error; once the write lock is acquired that
error is the alterer's and the memory is the one the alterer left, `Replace`
not having run. -/
theorem Alter_atomic_on_failure {Cell V L σ : Type} (Y : Layout Cell V) (K : TaskedLock L)
    (C : ClonableAt Cell) (s : Shielded Nat L) (w : Nat) (task : Task)
    (fn : CallbackAt Cell σ) (m : Mem Cell) (env : σ) (e : Error)
    (hY : Y.Local) (hconf : CallbackAt.Confined Y fn) (hin : Y.Holds m w)
    (hC : C.IndependentAt Y m w)
    (hw : s.witness = some w) (ht : task.IsNull = false)
    (hfn : (fn (C.Clone m w).2 (C.Clone m w).1 env).err = some e) :
    (Shielded.AlterAt K C (some s) task (some fn) m env).witness = some w ∧
    Y.val (Shielded.AlterAt K C (some s) task (some fn) m env).mem w = Y.val m w ∧
    Y.reach (Shielded.AlterAt K C (some s) task (some fn) m env).mem w = Y.reach m w ∧
    (Shielded.AlterAt K C (some s) task (some fn) m env).xerr ≠ none ∧
    ((K.Lock s.lock task).2 = none →
      (Shielded.AlterAt K C (some s) task (some fn) m env).xerr = some e ∧
      (Shielded.AlterAt K C (some s) task (some fn) m env).mem
        = (fn (C.Clone m w).2 (C.Clone m w).1 env).mem) := by
  obtain ⟨wit, l⟩ := s
  simp only at hw
  subst hw
  have hk := original_kept Y C fn m w env hY hconf hin hC
  cases hl : (K.Lock l task).2 with
  | some le => simp [Shielded.AlterAt, ht, hl, OutcomeAt.witness]
  | none =>
    simp [Shielded.AlterAt, ht, hl, hfn, OutcomeAt.witness, deferredErr_some, hk.1, hk.2]

/-- Instance of C1: the test value is the object at address 0; the alterer
rewrites the GPU fields through the reference it is handed and fails; the
object at address 0 is still the test value and the failure is returned. -/
theorem Alter_atomic_on_failure_witness :
    (Shielded.AlterAt (scriptedLock none none none none) ClusterDefaults.clonableAt
        (some testShieldedAt) (Task.live "t") (some (cultureCallbackAt (some (Error.Other "boom"))))
        [testDefaults] ()).witness = some 0 ∧
    (Shielded.AlterAt (scriptedLock none none none none) ClusterDefaults.clonableAt
        (some testShieldedAt) (Task.live "t") (some (cultureCallbackAt (some (Error.Other "boom"))))
        [testDefaults] ()).mem[0]? = some testDefaults ∧
    (Shielded.AlterAt (scriptedLock none none none none) ClusterDefaults.clonableAt
        (some testShieldedAt) (Task.live "t") (some (cultureCallbackAt (some (Error.Other "boom"))))
        [testDefaults] ()).xerr = some (Error.Other "boom") :=
  ⟨(Alter_atomic_on_failure (Layout.flat ClusterDefaults) (scriptedLock none none none none)
      ClusterDefaults.clonableAt testShieldedAt 0 (Task.live "t")
      (cultureCallbackAt (some (Error.Other "boom"))) [testDefaults] () (Error.Other "boom")
      (flat_Local ClusterDefaults) (cultureCallbackAt_Confined _)
      (clonableAt_IndependentAt [testDefaults] 0 testDefaults rfl).1
      (clonableAt_IndependentAt [testDefaults] 0 testDefaults rfl).2 rfl rfl rfl).1,
   (Alter_atomic_on_failure (Layout.flat ClusterDefaults) (scriptedLock none none none none)
      ClusterDefaults.clonableAt testShieldedAt 0 (Task.live "t")
      (cultureCallbackAt (some (Error.Other "boom"))) [testDefaults] () (Error.Other "boom")
      (flat_Local ClusterDefaults) (cultureCallbackAt_Confined _)
      (clonableAt_IndependentAt [testDefaults] 0 testDefaults rfl).1
      (clonableAt_IndependentAt [testDefaults] 0 testDefaults rfl).2 rfl rfl rfl).2.1,
   ((Alter_atomic_on_failure (Layout.flat ClusterDefaults) (scriptedLock none none none none)
      ClusterDefaults.clonableAt testShieldedAt 0 (Task.live "t")
      (cultureCallbackAt (some (Error.Other "boom"))) [testDefaults] () (Error.Other "boom")
      (flat_Local ClusterDefaults) (cultureCallbackAt_Confined _)
      (clonableAt_IndependentAt [testDefaults] 0 testDefaults rfl).1
      (clonableAt_IndependentAt [testDefaults] 0 testDefaults rfl).2 rfl rfl rfl).2.2.2.2 rfl).1⟩

/-- The contract of `Clone` is needed: with a `Clone` that returns its receiver,
an inspector, a failing alterer and a rejected buffer each leave their writes in
the witness, whose `GPUType` was `"NVidia"` and whose `Image` was
`"something"`. -/
theorem aliasing_Clone_exposes_witness :
    (Shielded.InspectAt (scriptedLock none none none none) (ClonableAt.aliasing ClusterDefaults)
        (some testShieldedAt) (Task.live "t") (some (cultureCallbackAt none))
        [testDefaults] ()).mem[0]?
      = some { testDefaults with
          GatewaySizing := { testDefaults.GatewaySizing with GPUNumber := 7, GPUType := "Culture" } } ∧
    (Shielded.AlterAt (scriptedLock none none none none) (ClonableAt.aliasing ClusterDefaults)
        (some testShieldedAt) (Task.live "t") (some (cultureCallbackAt (some (Error.Other "boom"))))
        [testDefaults] ()).mem[0]?
      = some { testDefaults with
          GatewaySizing := { testDefaults.GatewaySizing with GPUNumber := 7, GPUType := "Culture" } } ∧
    (Shielded.DeserializeAt (scriptedLock none none none none) (ClonableAt.aliasing ClusterDefaults)
        sampleUnmarshalAt (some testShieldedAt) (Task.live "t") [123] [testDefaults]).mem[0]?
      = some { testDefaults with Image := "" } ∧
    [testDefaults][0]? ≠ some { testDefaults with
          GatewaySizing := { testDefaults.GatewaySizing with GPUNumber := 7, GPUType := "Culture" } } ∧
    [testDefaults][0]? ≠ some { testDefaults with Image := "" } := by
  refine ⟨rfl, rfl, rfl, by decide, by decide⟩

/-- C2, as stated, fails: with a lock that never fails and an alterer returning
the altered-nothing sentinel, `Alter` returns that sentinel instead of success. -/
theorem altered_nothing_sentinel_is_surfaced :
    (cultureCallback (some Error.AlteredNothingError)
        (ClusterDefaults.clonable.Clone testDefaults) ()).err = some Error.AlteredNothingError ∧
    ((scriptedLock none none none none).Lock testShielded.lock (Task.live "t")).2 = none ∧
    (∀ l, ((scriptedLock none none none none).Unlock l (Task.live "t")).2 = none) ∧
    (Shielded.Alter (scriptedLock none none none none) ClusterDefaults.clonable
        (some testShielded) (Task.live "t") (some (cultureCallback (some Error.AlteredNothingError))) ()).xerr
      ≠ none := by
  refine ⟨rfl, rfl, fun _ => rfl, ?_⟩
  decide

/-- C2, amended. With a non-nil witness `w` and a non-null task, if the alterer
returns the altered-nothing sentinel then the witness is unchanged, and when the
write lock is acquired `Alter` returns that sentinel to its caller (whether or
not the unlock succeeds). -/
theorem Alter_altered_nothing {V L σ : Type} (K : TaskedLock L) (C : Clonable V)
    (s : Shielded V L) (w : V) (task : Task) (fn : Callback V σ) (env : σ)
    (hw : s.witness = some w) (ht : task.IsNull = false)
    (hfn : (fn (C.Clone w) env).err = some Error.AlteredNothingError)
    (hlock : (K.Lock s.lock task).2 = none) :
    (Shielded.Alter K C (some s) task (some fn) env).witness = some w ∧
    (Shielded.Alter K C (some s) task (some fn) env).xerr = some Error.AlteredNothingError := by
  obtain ⟨wit, l⟩ := s
  simp only at hw hlock
  subst hw
  simp [Shielded.Alter, ht, hlock, hfn, Outcome.witness, deferredErr_some]

/-- Instance of the amended C2 on the test value. -/
theorem Alter_altered_nothing_witness :
    (Shielded.Alter (scriptedLock none none none none) ClusterDefaults.clonable
        (some testShielded) (Task.live "t") (some (cultureCallback (some Error.AlteredNothingError))) ()).witness
      = some testDefaults ∧
    (Shielded.Alter (scriptedLock none none none none) ClusterDefaults.clonable
        (some testShielded) (Task.live "t") (some (cultureCallback (some Error.AlteredNothingError))) ()).xerr
      = some Error.AlteredNothingError :=
  Alter_altered_nothing (scriptedLock none none none none) ClusterDefaults.clonable
    testShielded testDefaults (Task.live "t") (cultureCallback (some Error.AlteredNothingError)) ()
    rfl rfl rfl rfl

/-- C3. Alter commits on success: with a non-nil witness `w`, a non-null task and
the write lock acquired, if the alterer succeeds on the clone it is handed then
the witness after `Alter` is `w.Replace(clone)` for the clone as the alterer left
it, which is that clone itself since `Replace` makes its receiver equal to its
argument; `Alter` returns what the unlock returns, so success when the unlock
succeeds. -/
theorem Alter_commits_on_success {V L σ : Type} (K : TaskedLock L) (C : Clonable V)
    (s : Shielded V L) (w : V) (task : Task) (fn : Callback V σ) (env : σ)
    (hrep : ∀ a c, C.Replace a c = c)
    (hw : s.witness = some w) (ht : task.IsNull = false)
    (hlock : (K.Lock s.lock task).2 = none)
    (hfn : (fn (C.Clone w) env).err = none) :
    (Shielded.Alter K C (some s) task (some fn) env).witness
      = some (C.Replace w (fn (C.Clone w) env).clone) ∧
    (Shielded.Alter K C (some s) task (some fn) env).witness
      = some (fn (C.Clone w) env).clone ∧
    (Shielded.Alter K C (some s) task (some fn) env).xerr
      = (K.Unlock (K.Lock s.lock task).1 task).2 ∧
    ((K.Unlock (K.Lock s.lock task).1 task).2 = none →
      (Shielded.Alter K C (some s) task (some fn) env).xerr = none) := by
  obtain ⟨wit, l⟩ := s
  simp only at hw hlock
  subst hw
  simp [Shielded.Alter, ht, hlock, hfn, Outcome.witness, deferredErr_none, hrep]

/-- Instance of C3: the GPU fields written by the alterer are in the witness
after `Alter`. -/
theorem Alter_commits_on_success_witness :
    (Shielded.Alter (scriptedLock none none none none) ClusterDefaults.clonable
        (some testShielded) (Task.live "t") (some (cultureCallback none)) ()).witness
      = some (ClusterDefaults.clonable.Replace testDefaults
          (cultureCallback none (ClusterDefaults.clonable.Clone testDefaults) ()).clone) ∧
    (Shielded.Alter (scriptedLock none none none none) ClusterDefaults.clonable
        (some testShielded) (Task.live "t") (some (cultureCallback none)) ()).witness
      = some (cultureCallback none (ClusterDefaults.clonable.Clone testDefaults) ()).clone ∧
    (Shielded.Alter (scriptedLock none none none none) ClusterDefaults.clonable
        (some testShielded) (Task.live "t") (some (cultureCallback none)) ()).xerr
      = ((scriptedLock none none none none).Unlock
          ((scriptedLock none none none none).Lock testShielded.lock (Task.live "t")).1
          (Task.live "t")).2 ∧
    (((scriptedLock none none none none).Unlock
          ((scriptedLock none none none none).Lock testShielded.lock (Task.live "t")).1
          (Task.live "t")).2 = none →
      (Shielded.Alter (scriptedLock none none none none) ClusterDefaults.clonable
        (some testShielded) (Task.live "t") (some (cultureCallback none)) ()).xerr = none) :=
  Alter_commits_on_success (scriptedLock none none none none) ClusterDefaults.clonable
    testShielded testDefaults (Task.live "t") (cultureCallback none) ()
    (fun _ _ => rfl) rfl rfl rfl rfl

/-- C4. Inspect never changes the witness. The inspector is handed the reference
`witness.Clone()` returns and may write to memory. Assume the contract of
`data.Clonable` for the witness and an inspector that writes through the
reference it is handed only, whatever it writes there. Then for every receiver
(nil or not), task and inspector (nil or not, failing or not) the receiver holds
the same reference after `Inspect`, and the object it refers to has the cells
and the content it had before. When the inspector runs, what `Inspect` leaves is
the run of the inspector on the reference `Clone` returned, whose object has the
content of the witness and shares no cell with it: in particular that reference
is not the witness. Without the inspector running, memory is as before. -/
theorem Inspect_never_changes_witness {Cell V L σ : Type} (Y : Layout Cell V)
    (K : TaskedLock L) (C : ClonableAt Cell) (d : Option (Shielded Nat L)) (task : Task)
    (inspector : Option (CallbackAt Cell σ)) (m : Mem Cell) (env : σ)
    (hY : Y.Local)
    (hconf : ∀ fn, inspector = some fn → CallbackAt.Confined Y fn)
    (hC : ∀ s w, d = some s → s.witness = some w → Y.Holds m w ∧ C.IndependentAt Y m w) :
    (Shielded.InspectAt K C d task inspector m env).witness = d.bind Shielded.witness ∧
    (∀ s w, d = some s → s.witness = some w →
      Y.val (Shielded.InspectAt K C d task inspector m env).mem w = Y.val m w ∧
      Y.reach (Shielded.InspectAt K C d task inspector m env).mem w = Y.reach m w) ∧
    (∀ s w fn, d = some s → s.witness = some w → inspector = some fn →
      task.IsNull = false → (K.RLock s.lock task).2 = none →
      (Shielded.InspectAt K C d task inspector m env).mem
        = (fn (C.Clone m w).2 (C.Clone m w).1 env).mem ∧
      (Shielded.InspectAt K C d task inspector m env).env
        = (fn (C.Clone m w).2 (C.Clone m w).1 env).env ∧
      (Shielded.InspectAt K C d task inspector m env).xerr
        = deferredErr (fn (C.Clone m w).2 (C.Clone m w).1 env).err
            (K.RUnlock (K.RLock s.lock task).1 task).2 ∧
      Y.val (C.Clone m w).1 (C.Clone m w).2 = Y.val m w ∧
      (∀ a ∈ Y.reach m w, a ∉ Y.reach (C.Clone m w).1 (C.Clone m w).2) ∧
      (w ∈ Y.reach m w →
        (C.Clone m w).2 ∈ Y.reach (C.Clone m w).1 (C.Clone m w).2 → (C.Clone m w).2 ≠ w)) ∧
    ((d.bind Shielded.witness = none ∨ task.IsNull = true ∨ inspector = none) →
      (Shielded.InspectAt K C d task inspector m env).mem = m) := by
  refine ⟨?_, ?_, ?_, ?_⟩
  · cases d with
    | none => rfl
    | some s =>
      obtain ⟨wit, l⟩ := s
      cases ht : task.IsNull
      · cases inspector with
        | none => simp [Shielded.InspectAt, ht, OutcomeAt.witness]
        | some fn =>
          cases wit with
          | none => simp [Shielded.InspectAt, ht, OutcomeAt.witness]
          | some w =>
            cases hl : (K.RLock l task).2 <;> simp [Shielded.InspectAt, ht, hl, OutcomeAt.witness]
      · simp [Shielded.InspectAt, ht, OutcomeAt.witness]
  · intro s w hd hw
    subst hd
    obtain ⟨wit, l⟩ := s
    simp only at hw
    subst hw
    cases ht : task.IsNull
    · cases inspector with
      | none => simp [Shielded.InspectAt, ht]
      | some fn =>
        cases hl : (K.RLock l task).2 with
        | some e => simp [Shielded.InspectAt, ht, hl]
        | none =>
          have hk := original_kept Y C fn m w env hY (hconf fn rfl)
            (hC ⟨some w, l⟩ w rfl rfl).1 (hC ⟨some w, l⟩ w rfl rfl).2
          simp [Shielded.InspectAt, ht, hl, hk.1, hk.2]
    · simp [Shielded.InspectAt, ht]
  · intro s w fn hd hw hi ht hl
    subst hd hi
    obtain ⟨wit, l⟩ := s
    simp only at hw hl
    subst hw
    have hind := (hC ⟨some w, l⟩ w rfl rfl).2
    refine ⟨?_, ?_, ?_, hind.2.2, hind.2.1, ?_⟩
    · simp [Shielded.InspectAt, ht, hl]
    · simp [Shielded.InspectAt, ht, hl]
    · simp [Shielded.InspectAt, ht, hl]
    · have aux : ∀ (c : Nat) (R R1 : List Nat), (∀ a ∈ R, a ∉ R1) → w ∈ R → c ∈ R1 → c ≠ w := by
        intro c R R1 h hwR hc heq
        subst heq
        exact h _ hwR hc
      exact aux _ _ _ hind.2.1
  · intro h
    cases d with
    | none => rfl
    | some s =>
      obtain ⟨wit, l⟩ := s
      cases ht : task.IsNull
      · cases inspector with
        | none => simp [Shielded.InspectAt, ht]
        | some fn =>
          cases wit with
          | none => simp [Shielded.InspectAt, ht]
          | some w => simp [ht] at h
      · simp [Shielded.InspectAt, ht]

/-- Instance of C4 (scenario S4 of the spec): the test value is the object at
address 0; an inspector that writes `GPUType = "Culture"` and `GPUNumber = 7`
through the reference it is handed leaves that object, whose `GPUType` is
`"NVidia"`, as it was; the reference it was handed is address 1, which holds
what it wrote. -/
theorem Inspect_never_changes_witness_witness :
    (Shielded.InspectAt (scriptedLock none none none none) ClusterDefaults.clonableAt
        (some testShieldedAt) (Task.live "t") (some (cultureCallbackAt none))
        [testDefaults] ()).mem[0]? = some testDefaults ∧
    (Shielded.InspectAt (scriptedLock none none none none) ClusterDefaults.clonableAt
        (some testShieldedAt) (Task.live "t") (some (cultureCallbackAt none))
        [testDefaults] ()).mem
      = (cultureCallbackAt none (ClusterDefaults.clonableAt.Clone [testDefaults] 0).2
          (ClusterDefaults.clonableAt.Clone [testDefaults] 0).1 ()).mem ∧
    (ClusterDefaults.clonableAt.Clone [testDefaults] 0).2 ≠ 0 :=
  ⟨((Inspect_never_changes_witness (Layout.flat ClusterDefaults)
      (scriptedLock none none none none) ClusterDefaults.clonableAt (some testShieldedAt)
      (Task.live "t") (some (cultureCallbackAt none)) [testDefaults] ()
      (flat_Local ClusterDefaults)
      (fun fn h => by
        cases h
        exact cultureCallbackAt_Confined none)
      (fun s w hs hw => by
        cases hs
        cases hw
        exact clonableAt_IndependentAt [testDefaults] 0 testDefaults rfl)).2.1
      testShieldedAt 0 rfl rfl).1,
   ((Inspect_never_changes_witness (Layout.flat ClusterDefaults)
      (scriptedLock none none none none) ClusterDefaults.clonableAt (some testShieldedAt)
      (Task.live "t") (some (cultureCallbackAt none)) [testDefaults] ()
      (flat_Local ClusterDefaults)
      (fun fn h => by
        cases h
        exact cultureCallbackAt_Confined none)
      (fun s w hs hw => by
        cases hs
        cases hw
        exact clonableAt_IndependentAt [testDefaults] 0 testDefaults rfl)).2.2.1
      testShieldedAt 0 (cultureCallbackAt none) rfl rfl rfl rfl rfl).1,
   ((Inspect_never_changes_witness (Layout.flat ClusterDefaults)
      (scriptedLock none none none none) ClusterDefaults.clonableAt (some testShieldedAt)
      (Task.live "t") (some (cultureCallbackAt none)) [testDefaults] ()
      (flat_Local ClusterDefaults)
      (fun fn h => by
        cases h
        exact cultureCallbackAt_Confined none)
      (fun s w hs hw => by
        cases hs
        cases hw
        exact clonableAt_IndependentAt [testDefaults] 0 testDefaults rfl)).2.2.1
      testShieldedAt 0 (cultureCallbackAt none) rfl rfl rfl rfl rfl).2.2.2.2.2
      (by simp [Layout.flat]) (by simp [Layout.flat])⟩

/-- C6. Bad arguments are rejected before the lock or the witness is touched.
On a nil receiver `Inspect`, `Alter`, `Serialize` and `Deserialize` return
invalid-instance; on a receiver `s` and the null task they return
invalid-parameter; `Inspect` and `Alter` return invalid-parameter for a nil
callback and for a nil witness. Each time the receiver (witness and lock state)
and the variables captured by the callback are as before the call and nothing is
logged: no lock operation ran and the callback was not called. -/
theorem Shielded_rejects_bad_arguments {V L σ : Type} (K : TaskedLock L) (C : Clonable V)
    (Marshal : V → Except String (List Nat)) (Unmarshal : List Nat → V → V × Option String)
    (s : Shielded V L) (l : L) (task : Task) (id : String) (cb : Option (Callback V σ))
    (fn : Callback V σ) (buf : List Nat) (env : σ) :
    (Shielded.Inspect K C none task cb env = ⟨none, env, [], some Error.InvalidInstanceError⟩ ∧
     Shielded.Alter K C none task cb env = ⟨none, env, [], some Error.InvalidInstanceError⟩ ∧
     Shielded.Serialize K C Marshal none task = ⟨none, [], [], some Error.InvalidInstanceError⟩ ∧
     Shielded.Deserialize K C Unmarshal none task buf
       = ⟨none, (), [], some Error.InvalidInstanceError⟩) ∧
    (Shielded.Inspect K C (some s) Task.null cb env
       = ⟨some s, env, [],
          some (Error.InvalidParameterError "task" "cannot be null value of 'concurrency.Task'")⟩ ∧
     Shielded.Alter K C (some s) Task.null cb env
       = ⟨some s, env, [],
          some (Error.InvalidParameterError "task" "cannot be null value of 'concurrency.Task'")⟩ ∧
     Shielded.Serialize K C Marshal (some s) Task.null
       = ⟨some s, [], [],
          some (Error.InvalidParameterError "task" "cannot be null value of 'concurrency.Task'")⟩ ∧
     Shielded.Deserialize K C Unmarshal (some s) Task.null buf
       = ⟨some s, (), [],
          some (Error.InvalidParameterError "task" "cannot be null value of 'concurrency.Task'")⟩) ∧
    (Shielded.Inspect K C (some s) (Task.live id) (none : Option (Callback V σ)) env
       = ⟨some s, env, [], some (Error.InvalidParameterError "inspector" "cannot be nil")⟩ ∧
     Shielded.Alter K C (some s) (Task.live id) (none : Option (Callback V σ)) env
       = ⟨some s, env, [], some (Error.InvalidParameterError "alterer" "cannot be nil")⟩) ∧
    (Shielded.Inspect K C (some ⟨none, l⟩) (Task.live id) (some fn) env
       = ⟨some ⟨none, l⟩, env, [], some (Error.InvalidParameterError "d.witness"
            "cannot be nil; use concurrency.NewShielded() to instantiate")⟩ ∧
     Shielded.Alter K C (some ⟨none, l⟩) (Task.live id) (some fn) env
       = ⟨some ⟨none, l⟩, env, [], some (Error.InvalidParameterError "d.witness"
            "cannot be nil; use concurrency.NewData() to instantiate")⟩) := by
  refine ⟨⟨rfl, rfl, rfl, rfl⟩, ⟨rfl, rfl, rfl, rfl⟩, ⟨rfl, rfl⟩, ⟨rfl, rfl⟩⟩

/-- C7. Error precedence in Inspect, for a non-nil witness `w` and a non-null
task. If acquiring the read lock fails, the lock error is returned, the
inspector is not called (its captured variables are untouched) and the only lock
operation is the failed `RLock`. If it succeeds, exactly one `RUnlock` follows
the `RLock`, whatever the inspector returns; an error of the inspector is
returned as it is, even when the unlock fails too; when the inspector succeeds
`Inspect` returns what the unlock returns, hence the unlock error if there is
one and success otherwise. The trace of lock calls is read off the traced
version of the lock, started with the trace `tr`. -/
theorem Inspect_error_precedence {V L σ : Type} (K : TaskedLock L) (C : Clonable V)
    (s : Shielded V L) (w : V) (task : Task) (fn : Callback V σ) (env : σ) (tr : List LockOp)
    (hw : s.witness = some w) (ht : task.IsNull = false) :
    (∀ e, (K.RLock s.lock task).2 = some e →
      (Shielded.Inspect K C (some s) task (some fn) env).xerr = some e ∧
      (Shielded.Inspect K C (some s) task (some fn) env).env = env ∧
      (Shielded.Inspect K C (some s) task (some fn) env).lock = some (K.RLock s.lock task).1 ∧
      (Shielded.Inspect K.traced C (some ⟨s.witness, (s.lock, tr)⟩) task (some fn) env).lock
        = some ((K.RLock s.lock task).1, tr ++ [LockOp.RLock])) ∧
    ((K.RLock s.lock task).2 = none →
      (Shielded.Inspect K C (some s) task (some fn) env).lock
        = some (K.RUnlock (K.RLock s.lock task).1 task).1 ∧
      (Shielded.Inspect K.traced C (some ⟨s.witness, (s.lock, tr)⟩) task (some fn) env).lock
        = some ((K.RUnlock (K.RLock s.lock task).1 task).1,
            tr ++ [LockOp.RLock, LockOp.RUnlock]) ∧
      (Shielded.Inspect K C (some s) task (some fn) env).env = (fn (C.Clone w) env).env ∧
      (∀ e, (fn (C.Clone w) env).err = some e →
        (Shielded.Inspect K C (some s) task (some fn) env).xerr = some e) ∧
      ((fn (C.Clone w) env).err = none →
        (Shielded.Inspect K C (some s) task (some fn) env).xerr
          = (K.RUnlock (K.RLock s.lock task).1 task).2)) := by
  obtain ⟨wit, l⟩ := s
  simp only at hw
  subst hw
  constructor
  · intro e he
    simp only at he
    simp [Shielded.Inspect, ht, he, Outcome.lock, TaskedLock.traced]
  · intro hl
    simp only at hl
    refine ⟨?_, ?_, ?_, ?_, ?_⟩
    · simp [Shielded.Inspect, ht, hl, Outcome.lock]
    · simp [Shielded.Inspect, ht, hl, Outcome.lock, TaskedLock.traced]
    · simp [Shielded.Inspect, ht, hl]
    · intro e he
      simp [Shielded.Inspect, ht, hl, he, deferredErr_some]
    · intro he
      simp [Shielded.Inspect, ht, hl, he, deferredErr_none]

/-- Instance of C7: the inspector fails with `boom` and the read unlock fails
with `stuck`; `Inspect` returns `boom`, and the lock saw one `RLock` followed by
one `RUnlock`. -/
theorem Inspect_error_precedence_witness :
    (Shielded.Inspect (scriptedLock none (some (Error.Other "stuck")) none none)
        ClusterDefaults.clonable (some testShielded) (Task.live "t")
        (some (cultureCallback (some (Error.Other "boom")))) ()).xerr = some (Error.Other "boom") ∧
    (Shielded.Inspect (scriptedLock none (some (Error.Other "stuck")) none none)
        ClusterDefaults.clonable (some testShielded) (Task.live "t")
        (some (cultureCallback (some (Error.Other "boom")))) ()).lock
      = some [LockOp.RLock, LockOp.RUnlock] :=
  ⟨((Inspect_error_precedence (scriptedLock none (some (Error.Other "stuck")) none none)
      ClusterDefaults.clonable testShielded testDefaults (Task.live "t")
      (cultureCallback (some (Error.Other "boom"))) () [] rfl rfl).2 rfl).2.2.2.1
      (Error.Other "boom") rfl,
   ((Inspect_error_precedence (scriptedLock none (some (Error.Other "stuck")) none none)
      ClusterDefaults.clonable testShielded testDefaults (Task.live "t")
      (cultureCallback (some (Error.Other "boom"))) () [] rfl rfl).2 rfl).1⟩

/-- C8. Deserialize goes through Alter and is atomic on decode failure. The
decoder writes into the object whose reference it is handed, the one
`witness.Clone()` returned. For an empty buffer `Deserialize` returns
invalid-parameter and leaves the receiver and the memory as they are (whatever
the task). For a non-empty buffer and a non-null task it is `Alter` run with the
decoding closure. Assume the contract of `data.Clonable` for the witness `w` and
a decoder that writes through the reference it is handed only. If the decoder
rejects the buffer, the object at `w` has the cells and the content it had
before, whatever the decoder wrote before failing, and an error is returned,
which is the syntax error carrying the decoder's message once the write lock is
acquired. If the decoder accepts the buffer and the lock is acquired, the memory
is the one `w.Replace(clone)` leaves after the decoder filled the clone, so that
(by the contract of `Replace`) the content of the witness is the result of
decoding the buffer into a clone of the previous witness; `Deserialize` then
returns what the unlock returns. -/
theorem Deserialize_atomic_on_decode_failure {Cell V L : Type} (Y : Layout Cell V)
    (K : TaskedLock L) (C : ClonableAt Cell)
    (Unmarshal : List Nat → Nat → Mem Cell → Mem Cell × Option String)
    (s : Shielded Nat L) (w : Nat) (task : Task) (buf : List Nat) (m : Mem Cell)
    (hY : Y.Local) (hU : UnmarshalConfined Y Unmarshal) (hin : Y.Holds m w)
    (hC : C.IndependentAt Y m w)
    (hw : s.witness = some w) (ht : task.IsNull = false) :
    (∀ t, ∃ what why, Shielded.DeserializeAt K C Unmarshal (some s) t [] m
        = ⟨some s, m, (), [], some (Error.InvalidParameterError what why)⟩) ∧
    (buf ≠ [] → Shielded.DeserializeAt K C Unmarshal (some s) task buf m
        = Shielded.AlterAt K C (some s) task (some (deserializeAltererAt Unmarshal buf)) m ()) ∧
    (buf ≠ [] → ∀ msg, (Unmarshal buf (C.Clone m w).2 (C.Clone m w).1).2 = some msg →
      (Shielded.DeserializeAt K C Unmarshal (some s) task buf m).witness = some w ∧
      Y.val (Shielded.DeserializeAt K C Unmarshal (some s) task buf m).mem w = Y.val m w ∧
      Y.reach (Shielded.DeserializeAt K C Unmarshal (some s) task buf m).mem w = Y.reach m w ∧
      (Shielded.DeserializeAt K C Unmarshal (some s) task buf m).xerr ≠ none ∧
      ((K.Lock s.lock task).2 = none →
        (Shielded.DeserializeAt K C Unmarshal (some s) task buf m).xerr
          = some (Error.SyntaxError ("failed to unmarshal: " ++ msg)) ∧
        (Shielded.DeserializeAt K C Unmarshal (some s) task buf m).mem
          = (Unmarshal buf (C.Clone m w).2 (C.Clone m w).1).1)) ∧
    (buf ≠ [] → (Unmarshal buf (C.Clone m w).2 (C.Clone m w).1).2 = none →
      (K.Lock s.lock task).2 = none →
      (Shielded.DeserializeAt K C Unmarshal (some s) task buf m).witness = some w ∧
      (Shielded.DeserializeAt K C Unmarshal (some s) task buf m).mem
        = C.Replace (Unmarshal buf (C.Clone m w).2 (C.Clone m w).1).1 w (C.Clone m w).2 ∧
      (Y.val (C.Replace (Unmarshal buf (C.Clone m w).2 (C.Clone m w).1).1 w (C.Clone m w).2) w
          = Y.val (Unmarshal buf (C.Clone m w).2 (C.Clone m w).1).1 (C.Clone m w).2 →
        Y.val (Shielded.DeserializeAt K C Unmarshal (some s) task buf m).mem w
          = Y.val (Unmarshal buf (C.Clone m w).2 (C.Clone m w).1).1 (C.Clone m w).2) ∧
      Y.val (C.Clone m w).1 (C.Clone m w).2 = Y.val m w ∧
      (Shielded.DeserializeAt K C Unmarshal (some s) task buf m).xerr
        = (K.Unlock (K.Lock s.lock task).1 task).2) := by
  obtain ⟨wit, l⟩ := s
  simp only at hw
  subst hw
  have hlen : ∀ b : List Nat, b ≠ [] → ¬ (b.length = 0) := fun b hb h =>
    hb (List.length_eq_zero.mp h)
  have hk := original_kept Y C (deserializeAltererAt Unmarshal buf) m w () hY
    (deserializeAltererAt_Confined Y Unmarshal buf hU) hin hC
  refine ⟨?_, ?_, ?_, ?_⟩
  · intro t
    cases t with
    | null => exact ⟨_, _, rfl⟩
    | live id => exact ⟨_, _, rfl⟩
  · intro hb
    simp [Shielded.DeserializeAt, ht, hlen buf hb]
  · intro hb msg hm
    have hmem : (deserializeAltererAt Unmarshal buf (C.Clone m w).2 (C.Clone m w).1 ()).mem
        = (Unmarshal buf (C.Clone m w).2 (C.Clone m w).1).1 := by
      simp [deserializeAltererAt, hm]
    rw [hmem] at hk
    cases hl : (K.Lock l task).2 with
    | some le =>
      simp [Shielded.DeserializeAt, Shielded.AlterAt, ht, hlen buf hb, hl, OutcomeAt.witness]
    | none =>
      simp [Shielded.DeserializeAt, Shielded.AlterAt, ht, hlen buf hb, hl, OutcomeAt.witness,
        deserializeAltererAt, hm, deferredErr_some, hk.1, hk.2]
  · intro hb hm hl
    simp only at hl
    refine ⟨?_, ?_, ?_, hC.2.2, ?_⟩
    · simp [Shielded.DeserializeAt, Shielded.AlterAt, ht, hlen buf hb, hl, OutcomeAt.witness]
    · simp [Shielded.DeserializeAt, Shielded.AlterAt, ht, hlen buf hb, hl,
        deserializeAltererAt, hm]
    · intro hrep
      simp [Shielded.DeserializeAt, Shielded.AlterAt, ht, hlen buf hb, hl,
        deserializeAltererAt, hm, hrep]
    · simp [Shielded.DeserializeAt, Shielded.AlterAt, ht, hlen buf hb, hl,
        deserializeAltererAt, hm, deferredErr_none]

/-- Instance of C8: the test value is the object at address 0; a buffer the
sample decoder rejects, after it has already erased `Image` through the
reference it was handed, leaves that object as it was and yields the syntax
error. -/
theorem Deserialize_atomic_on_decode_failure_witness :
    (Shielded.DeserializeAt (scriptedLock none none none none) ClusterDefaults.clonableAt
        sampleUnmarshalAt (some testShieldedAt) (Task.live "t") [123] [testDefaults]).mem[0]?
      = some testDefaults ∧
    (Shielded.DeserializeAt (scriptedLock none none none none) ClusterDefaults.clonableAt
        sampleUnmarshalAt (some testShieldedAt) (Task.live "t") [123] [testDefaults]).xerr
      = some (Error.SyntaxError ("failed to unmarshal: " ++ "invalid character")) :=
  ⟨((Deserialize_atomic_on_decode_failure (Layout.flat ClusterDefaults)
      (scriptedLock none none none none) ClusterDefaults.clonableAt sampleUnmarshalAt
      testShieldedAt 0 (Task.live "t") [123] [testDefaults] (flat_Local ClusterDefaults)
      sampleUnmarshalAt_Confined (clonableAt_IndependentAt [testDefaults] 0 testDefaults rfl).1
      (clonableAt_IndependentAt [testDefaults] 0 testDefaults rfl).2 rfl rfl).2.2.1
      (by decide) "invalid character" rfl).2.1,
   (((Deserialize_atomic_on_decode_failure (Layout.flat ClusterDefaults)
      (scriptedLock none none none none) ClusterDefaults.clonableAt sampleUnmarshalAt
      testShieldedAt 0 (Task.live "t") [123] [testDefaults] (flat_Local ClusterDefaults)
      sampleUnmarshalAt_Confined (clonableAt_IndependentAt [testDefaults] 0 testDefaults rfl).1
      (clonableAt_IndependentAt [testDefaults] 0 testDefaults rfl).2 rfl rfl).2.2.1
      (by decide) "invalid character" rfl).2.2.2.2 rfl).1⟩

/-- The embedding of `Alter` on values is what `Alter` does on memory when the
contract of `Clone` holds and the alterer writes through its reference only:
run on the content of the witness, with a value-level alterer that maps the
content of the clone to what the alterer leaves in the clone, it gives the
content of the witness, the captured variables, the log, the lock state and the
error that the run on memory gives. -/
theorem Alter_on_values {Cell V L σ : Type} (Y : Layout Cell V) (K : TaskedLock L)
    (C : ClonableAt Cell) (Cv : Clonable V) (l : L) (w : Nat) (task : Task)
    (fn : CallbackAt Cell σ) (fv : Callback V σ) (m : Mem Cell) (env : σ)
    (hY : Y.Local) (hconf : CallbackAt.Confined Y fn) (hin : Y.Holds m w)
    (hC : C.IndependentAt Y m w)
    (hCv : Cv.Clone (Y.val m w) = Y.val (C.Clone m w).1 (C.Clone m w).2)
    (hfv : fv (Y.val (C.Clone m w).1 (C.Clone m w).2) env
      = ⟨Y.val (fn (C.Clone m w).2 (C.Clone m w).1 env).mem (C.Clone m w).2,
         (fn (C.Clone m w).2 (C.Clone m w).1 env).env,
         (fn (C.Clone m w).2 (C.Clone m w).1 env).err⟩)
    (hrep : Y.val (C.Replace (fn (C.Clone m w).2 (C.Clone m w).1 env).mem w (C.Clone m w).2) w
      = Cv.Replace (Y.val m w)
          (Y.val (fn (C.Clone m w).2 (C.Clone m w).1 env).mem (C.Clone m w).2)) :
    (Shielded.Alter K Cv (some ⟨some (Y.val m w), l⟩) task (some fv) env).witness
      = some (Y.val (Shielded.AlterAt K C (some ⟨some w, l⟩) task (some fn) m env).mem w) ∧
    (Shielded.Alter K Cv (some ⟨some (Y.val m w), l⟩) task (some fv) env).lock
      = (Shielded.AlterAt K C (some ⟨some w, l⟩) task (some fn) m env).lock ∧
    (Shielded.Alter K Cv (some ⟨some (Y.val m w), l⟩) task (some fv) env).env
      = (Shielded.AlterAt K C (some ⟨some w, l⟩) task (some fn) m env).env ∧
    (Shielded.Alter K Cv (some ⟨some (Y.val m w), l⟩) task (some fv) env).warned
      = (Shielded.AlterAt K C (some ⟨some w, l⟩) task (some fn) m env).warned ∧
    (Shielded.Alter K Cv (some ⟨some (Y.val m w), l⟩) task (some fv) env).xerr
      = (Shielded.AlterAt K C (some ⟨some w, l⟩) task (some fn) m env).xerr := by
  have hk := original_kept Y C fn m w env hY hconf hin hC
  cases ht : task.IsNull
  · cases hl : (K.Lock l task).2 with
    | some e =>
      simp [Shielded.Alter, Shielded.AlterAt, ht, hl, Outcome.witness, Outcome.lock,
        OutcomeAt.lock]
    | none =>
      cases he : (fn (C.Clone m w).2 (C.Clone m w).1 env).err with
      | some e =>
        simp [Shielded.Alter, Shielded.AlterAt, ht, hl, Outcome.witness, Outcome.lock,
          OutcomeAt.lock, hCv, hfv, he, hk.2]
      | none =>
        simp [Shielded.Alter, Shielded.AlterAt, ht, hl, Outcome.witness, Outcome.lock,
          OutcomeAt.lock, hCv, hfv, he, hrep]
  · simp [Shielded.Alter, Shielded.AlterAt, ht, Outcome.witness, Outcome.lock, OutcomeAt.lock]

/-- The embedding of `Inspect` on values is what `Inspect` does on memory when
the contract of `Clone` holds and the inspector writes through its reference
only. -/
theorem Inspect_on_values {Cell V L σ : Type} (Y : Layout Cell V) (K : TaskedLock L)
    (C : ClonableAt Cell) (Cv : Clonable V) (l : L) (w : Nat) (task : Task)
    (fn : CallbackAt Cell σ) (fv : Callback V σ) (m : Mem Cell) (env : σ)
    (hY : Y.Local) (hconf : CallbackAt.Confined Y fn) (hin : Y.Holds m w)
    (hC : C.IndependentAt Y m w)
    (hCv : Cv.Clone (Y.val m w) = Y.val (C.Clone m w).1 (C.Clone m w).2)
    (hfv : fv (Y.val (C.Clone m w).1 (C.Clone m w).2) env
      = ⟨Y.val (fn (C.Clone m w).2 (C.Clone m w).1 env).mem (C.Clone m w).2,
         (fn (C.Clone m w).2 (C.Clone m w).1 env).env,
         (fn (C.Clone m w).2 (C.Clone m w).1 env).err⟩) :
    (Shielded.Inspect K Cv (some ⟨some (Y.val m w), l⟩) task (some fv) env).witness
      = some (Y.val (Shielded.InspectAt K C (some ⟨some w, l⟩) task (some fn) m env).mem w) ∧
    (Shielded.Inspect K Cv (some ⟨some (Y.val m w), l⟩) task (some fv) env).lock
      = (Shielded.InspectAt K C (some ⟨some w, l⟩) task (some fn) m env).lock ∧
    (Shielded.Inspect K Cv (some ⟨some (Y.val m w), l⟩) task (some fv) env).env
      = (Shielded.InspectAt K C (some ⟨some w, l⟩) task (some fn) m env).env ∧
    (Shielded.Inspect K Cv (some ⟨some (Y.val m w), l⟩) task (some fv) env).warned
      = (Shielded.InspectAt K C (some ⟨some w, l⟩) task (some fn) m env).warned ∧
    (Shielded.Inspect K Cv (some ⟨some (Y.val m w), l⟩) task (some fv) env).xerr
      = (Shielded.InspectAt K C (some ⟨some w, l⟩) task (some fn) m env).xerr := by
  have hk := original_kept Y C fn m w env hY hconf hin hC
  cases ht : task.IsNull
  · cases hl : (K.RLock l task).2 with
    | some e =>
      simp [Shielded.Inspect, Shielded.InspectAt, ht, hl, Outcome.witness, Outcome.lock,
        OutcomeAt.lock]
    | none =>
      simp [Shielded.Inspect, Shielded.InspectAt, ht, hl, Outcome.witness, Outcome.lock,
        OutcomeAt.lock, hCv, hfv, hk.2]
  · simp [Shielded.Inspect, Shielded.InspectAt, ht, Outcome.witness, Outcome.lock,
      OutcomeAt.lock]

end concurrency

/-! ## Properties of `ClusterDefaults.Clone` -/

namespace propertiesv1

/-- C5. `ClusterDefaults.Clone` is a deep clone. For every object `ct` in memory
at pointer `p`, `Clone` returns a pointer to another object whose content equals
`ct` (and `ct` is as before); writing `GPUNumber` and `GPUType` of the clone's
`GatewaySizing` leaves `ct` unchanged, so the two objects differ as soon as one
of the written values differs from the one `ct` holds. On values, the clone and
`Replace` satisfy the contract of `data.Clonable`, and `Shielded.Clone` of a
`Shielded` around `ct` is a `Shielded` around a value equal to `ct`, with a lock
of its own. -/
theorem ClusterDefaults_Clone_is_deep {L : Type} (l l0 : L) (h : Heap) (p : Nat)
    (ct : ClusterDefaults) (n : Int) (t : String) (hp : h[p]? = some ct) :
    (Clone h p).2 ≠ p ∧
    (Clone h p).1[(Clone h p).2]? = some ct ∧
    (Clone h p).1[p]? = some ct ∧
    (setGatewayGPU (Clone h p).1 (Clone h p).2 n t)[p]? = some ct ∧
    (setGatewayGPU (Clone h p).1 (Clone h p).2 n t)[(Clone h p).2]?
      = some { ct with GatewaySizing := { ct.GatewaySizing with GPUNumber := n, GPUType := t } } ∧
    ((n ≠ ct.GatewaySizing.GPUNumber ∨ t ≠ ct.GatewaySizing.GPUType) →
      (setGatewayGPU (Clone h p).1 (Clone h p).2 n t)[(Clone h p).2]?
        ≠ (setGatewayGPU (Clone h p).1 (Clone h p).2 n t)[p]?) ∧
    ClusterDefaults.clonable.Lawful ∧
    concurrency.Shielded.Clone ClusterDefaults.clonable l0 (some ⟨some ct, l⟩)
      = some ⟨some ct, l0⟩ := by
  have hlt : p < h.length := by
    rcases Nat.lt_or_ge p h.length with hlt | hge
    · exact hlt
    · rw [List.getElem?_eq_none hge] at hp
      exact absurd hp (by simp)
  have hq : (Clone h p).2 = h.length := rfl
  have hne : h.length ≠ p := Nat.ne_of_gt hlt
  have hcl : (h ++ [ct])[h.length]? = some ct := by simp
  have hold : (h ++ [ct])[p]? = some ct := by
    rw [List.getElem?_append_left hlt]
    exact hp
  have hset : setGatewayGPU (h ++ [ct]) h.length n t
      = (h ++ [ct]).set h.length
          { ct with GatewaySizing := { ct.GatewaySizing with GPUNumber := n, GPUType := t } } := by
    simp only [setGatewayGPU, hcl]
  have hnew : ((h ++ [ct]).set h.length
      { ct with GatewaySizing := { ct.GatewaySizing with GPUNumber := n, GPUType := t } })[h.length]?
      = some { ct with GatewaySizing := { ct.GatewaySizing with GPUNumber := n, GPUType := t } } := by
    rw [List.getElem?_set_self (by simp)]
  have hkeep : ((h ++ [ct]).set h.length
      { ct with GatewaySizing := { ct.GatewaySizing with GPUNumber := n, GPUType := t } })[p]?
      = some ct := by
    rw [List.getElem?_set_ne hne]
    exact hold
  rw [hq, Clone_fst h p ct hp, hset, hnew, hkeep]
  refine ⟨hne, hcl, hold, rfl, rfl, ?_, ?_, rfl⟩
  · intro hdiff heq
    have h1 := Option.some.inj heq
    have h2 : n = ct.GatewaySizing.GPUNumber := by
      have := congrArg (fun c => c.GatewaySizing.GPUNumber) h1
      simpa using this
    have h3 : t = ct.GatewaySizing.GPUType := by
      have := congrArg (fun c => c.GatewaySizing.GPUType) h1
      simpa using this
    rcases hdiff with hd | hd
    · exact hd h2
    · exact hd h3
  · exact ⟨fun _ => rfl, fun _ _ => rfl⟩

/-- Instance of C5, the run of `TestDefaults_Clone`: the test value sits alone in
memory at pointer 0, its clone is at pointer 1, and after the two writes the
original still has `GPUType = "NVidia"` while the two objects differ. -/
theorem ClusterDefaults_Clone_is_deep_witness :
    (Clone [testDefaults] 0).2 ≠ 0 ∧
    (Clone [testDefaults] 0).1[(Clone [testDefaults] 0).2]? = some testDefaults ∧
    (setGatewayGPU (Clone [testDefaults] 0).1 (Clone [testDefaults] 0).2 7 "Culture")[0]?
      = some testDefaults ∧
    (setGatewayGPU (Clone [testDefaults] 0).1 (Clone [testDefaults] 0).2 7 "Culture")[(Clone [testDefaults] 0).2]?
      ≠ (setGatewayGPU (Clone [testDefaults] 0).1 (Clone [testDefaults] 0).2 7 "Culture")[0]? :=
  ⟨(ClusterDefaults_Clone_is_deep () () [testDefaults] 0 testDefaults 7 "Culture" rfl).1,
   (ClusterDefaults_Clone_is_deep () () [testDefaults] 0 testDefaults 7 "Culture" rfl).2.1,
   (ClusterDefaults_Clone_is_deep () () [testDefaults] 0 testDefaults 7 "Culture" rfl).2.2.2.1,
   (ClusterDefaults_Clone_is_deep () () [testDefaults] 0 testDefaults 7 "Culture" rfl).2.2.2.2.2.1
     (Or.inl (by decide))⟩

end propertiesv1

/-! ## Properties of `NewJob` -/

namespace server

theorem mapSet_lookup (m : List (String × Nat)) (k : String) (v : Nat) :
    (mapSet m k v).lookup k = some v := by
  simp [mapSet, List.lookup]

/-- What `NewJob` does once an id has been selected and the task collaborators
succeed: it allocates the job with that id and registers it under that id. -/
theorem NewJob_of_selectID (R : Runtime) (g g1 : World) (c : Context) (cf : CancelFunc)
    (sv : Service) (description id : String) (task task1 : concurrency.Task)
    (hsel : selectID R g c = (g1, .ok id))
    (htask : R.NewTaskWithContext c = .ok task)
    (hset : R.SetID task ("job-task:" ++ id) = .ok task1) :
    (NewJob R g (some c) (some cf) (some sv) description).2 = .ok g1.heap.length ∧
    SafeGetID (NewJob R g (some c) (some cf) (some sv) description).1 g1.heap.length = id ∧
    (NewJob R g (some c) (some cf) (some sv) description).1.jobMap.lookup id
      = some g1.heap.length := by
  simp [NewJob, hsel, htask, hset, register, SafeGetID, mapSet_lookup]

/-- C9. NewJob parameter validation: when `ctx`, `cancel` or `svc` is nil, `NewJob`
fails with invalid-parameter and the process state (in particular `jobMap`) is
the one before the call. -/
theorem NewJob_rejects_nil_parameters (R : Runtime) (g : World) (ctx : Option Context)
    (cancel : Option CancelFunc) (svc : Option Service) (description : String)
    (hnil : ctx = none ∨ cancel = none ∨ svc = none) :
    (∃ what why, (NewJob R g ctx cancel svc description).2
        = .error (Error.InvalidParameterError what why)) ∧
    (NewJob R g ctx cancel svc description).1 = g ∧
    (NewJob R g ctx cancel svc description).1.jobMap = g.jobMap := by
  cases ctx with
  | none => exact ⟨⟨_, _, rfl⟩, rfl, rfl⟩
  | some c =>
    cases cancel with
    | none => exact ⟨⟨_, _, rfl⟩, rfl, rfl⟩
    | some cf =>
      cases svc with
      | none => exact ⟨⟨_, _, rfl⟩, rfl, rfl⟩
      | some sv => simp at hnil

/-- Instance of C9: a nil service, with a context carrying a uuid header and a
cancel function. -/
theorem NewJob_rejects_nil_parameters_witness :
    (∃ what why, (NewJob (okRuntime "f") World.init (some ⟨some [("uuid", ["u-1"])]⟩) (some 0)
        none "list hosts").2 = .error (Error.InvalidParameterError what why)) ∧
    (NewJob (okRuntime "f") World.init (some ⟨some [("uuid", ["u-1"])]⟩) (some 0)
        none "list hosts").1 = World.init ∧
    (NewJob (okRuntime "f") World.init (some ⟨some [("uuid", ["u-1"])]⟩) (some 0)
        none "list hosts").1.jobMap = World.init.jobMap :=
  NewJob_rejects_nil_parameters (okRuntime "f") World.init (some ⟨some [("uuid", ["u-1"])]⟩)
    (some 0) none "list hosts" (Or.inr (Or.inr rfl))

/-- C10, as stated, fails: a context whose incoming metadata is present but has no
`uuid` header, with non-nil cancel and service and collaborators that all
succeed, makes `NewJob` fail with invalid-parameter; no uuid is minted and no job
is registered. -/
theorem metadata_without_uuid_header_is_rejected :
    MD.Get [("authorization", ["token"])] "uuid" = [] ∧
    NewJob (okRuntime "fresh") World.init (some ⟨some [("authorization", ["token"])]⟩) (some 0)
        (some ⟨"local"⟩) "list hosts"
      = (World.init, .error (Error.InvalidParameterError "ctx" "does not contain a grpc uuid")) := by
  constructor
  · decide
  · simp [NewJob, selectID, MD.Get, List.lookup]

/-- C10, amended. For non-nil `ctx`, `cancel` and `svc`, and when task creation
and `SetID` succeed: if the incoming metadata has a `uuid` header whose first
value is not empty, `NewJob` succeeds and the id of the job is that value; if the
context has no incoming metadata and the uuid generator succeeds, `NewJob`
succeeds and the id of the job is the minted uuid. In both cases the job is
registered under its id. If the metadata is present without a `uuid` header,
`NewJob` fails with invalid-parameter and the process state is unchanged. -/
theorem NewJob_id_selection (R : Runtime) (g : World) (c : Context) (cf : CancelFunc)
    (sv : Service) (description : String)
    (htask : ∀ id, ∃ task task1, R.NewTaskWithContext c = .ok task ∧
      R.SetID task ("job-task:" ++ id) = .ok task1) :
    (∀ md id rest, c.incoming = some md → md.Get "uuid" = id :: rest → id ≠ "" →
      ∃ j, (NewJob R g (some c) (some cf) (some sv) description).2 = .ok j ∧
        SafeGetID (NewJob R g (some c) (some cf) (some sv) description).1 j = id ∧
        (NewJob R g (some c) (some cf) (some sv) description).1.jobMap.lookup id = some j) ∧
    (∀ fresh, c.incoming = none → R.NewV4 = .ok fresh →
      ∃ j, (NewJob R g (some c) (some cf) (some sv) description).2 = .ok j ∧
        SafeGetID (NewJob R g (some c) (some cf) (some sv) description).1 j = fresh ∧
        (NewJob R g (some c) (some cf) (some sv) description).1.jobMap.lookup fresh = some j) ∧
    (∀ md, c.incoming = some md → md.Get "uuid" = [] →
      NewJob R g (some c) (some cf) (some sv) description
        = (g, .error (Error.InvalidParameterError "ctx" "does not contain a grpc uuid"))) := by
  refine ⟨?_, ?_, ?_⟩
  · intro md id rest hmd hget hne
    obtain ⟨task, task1, h1, h2⟩ := htask id
    have hsel : selectID R g c = (g, .ok id) := by
      simp [selectID, hmd, hget, hne]
    exact ⟨_, NewJob_of_selectID R g g c cf sv description id task task1 hsel h1 h2⟩
  · intro fresh hmd hv4
    obtain ⟨task, task1, h1, h2⟩ := htask fresh
    have hsel : selectID R g c
        = ({ g with warnings := g.warnings ++ ["context does not contain a grpc uuid, generating one"] },
            .ok fresh) := by
      simp [selectID, hmd, hv4]
    exact ⟨_, NewJob_of_selectID R g _ c cf sv description fresh task task1 hsel h1 h2⟩
  · intro md hmd hget
    simp [NewJob, selectID, hmd, hget]

/-- Instance of the amended C10: with no incoming metadata the job takes the
minted uuid. -/
theorem NewJob_id_selection_witness :
    ∃ j, (NewJob (okRuntime "fresh") World.init (some ⟨none⟩) (some 0) (some ⟨"local"⟩)
          "list hosts").2 = .ok j ∧
      SafeGetID (NewJob (okRuntime "fresh") World.init (some ⟨none⟩) (some 0) (some ⟨"local"⟩)
          "list hosts").1 j = "fresh" ∧
      (NewJob (okRuntime "fresh") World.init (some ⟨none⟩) (some 0) (some ⟨"local"⟩)
          "list hosts").1.jobMap.lookup "fresh" = some j :=
  (NewJob_id_selection (okRuntime "fresh") World.init ⟨none⟩ 0 ⟨"local"⟩ "list hosts"
    (fun id => ⟨concurrency.Task.live "", concurrency.Task.live ("job-task:" ++ id), rfl, rfl⟩)).2.1
    "fresh" rfl rfl

/-! ## Properties of `Abort`, `Close` and the job registry -/

theorem Abort_jobMap (g : World) (j : Option Nat) : (Abort g j).1.jobMap = g.jobMap := by
  cases j with
  | none => rfl
  | some p =>
    cases h : g.heap[p]? with
    | none => simp [Abort, h]
    | some o =>
      cases hc : o.cancel with
      | none => simp [Abort, h, hc]
      | some cf => simp [Abort, h, hc]

/-- C13. Abort fires cancel once and clears it. On a job `o` at pointer `p` whose
cancel function `cf` is armed, `Abort` returns success, adds exactly one call of
`cf` to the calls made so far, and changes nothing but the `cancel` field of that
job, which becomes nil: the registry and every other job are as before. A second
`Abort` on the same job changes nothing at all (no further call of `cf`); it
returns the invalid-instance-content error for the nil `cancel`. -/
theorem Abort_fires_cancel_once (g : World) (p : Nat) (o : job) (cf : CancelFunc)
    (hp : g.heap[p]? = some o) (harmed : o.cancel = some cf) :
    (Abort g (some p)).2 = none ∧
    (Abort g (some p)).1.cancelled = g.cancelled ++ [cf] ∧
    (Abort g (some p)).1.heap[p]? = some { o with cancel := none } ∧
    (∀ q, q ≠ p → (Abort g (some p)).1.heap[q]? = g.heap[q]?) ∧
    (Abort g (some p)).1.jobMap = g.jobMap ∧
    (Abort g (some p)).1.warnings = g.warnings ∧
    Abort (Abort g (some p)).1 (some p)
      = ((Abort g (some p)).1,
          some (Error.InvalidInstanceContentError "j.cancel" "cannot be nil")) := by
  have hlt : p < g.heap.length := by
    rcases Nat.lt_or_ge p g.heap.length with hlt | hge
    · exact hlt
    · rw [List.getElem?_eq_none hge] at hp
      exact absurd hp (by simp)
  have hA : Abort g (some p)
      = ({ g with
            cancelled := g.cancelled ++ [cf]
            heap := g.heap.set p { o with cancel := none } }, none) := by
    simp [Abort, hp, harmed]
  have hset : (g.heap.set p { o with cancel := none })[p]? = some { o with cancel := none } := by
    rw [List.getElem?_set_self hlt]
  rw [hA]
  refine ⟨rfl, rfl, hset, ?_, rfl, rfl, ?_⟩
  · intro q hq
    exact List.getElem?_set_ne (Ne.symm hq)
  · simp [Abort, hset]

/-- Instance of C13: the job registered by `NewJob` with cancel function 7 is
aborted twice; the function is called once. -/
theorem Abort_fires_cancel_once_witness :
    (Abort (NewJob (okRuntime "f") World.init (some (ctxWithUUID "u-1")) (some 7)
        (some ⟨"local"⟩) "list hosts").1 (some 0)).2 = none ∧
    (Abort (NewJob (okRuntime "f") World.init (some (ctxWithUUID "u-1")) (some 7)
        (some ⟨"local"⟩) "list hosts").1 (some 0)).1.cancelled = [7] ∧
    (Abort (Abort (NewJob (okRuntime "f") World.init (some (ctxWithUUID "u-1")) (some 7)
        (some ⟨"local"⟩) "list hosts").1 (some 0)).1 (some 0)).1.cancelled = [7] :=
  ⟨(Abort_fires_cancel_once (NewJob (okRuntime "f") World.init (some (ctxWithUUID "u-1"))
      (some 7) (some ⟨"local"⟩) "list hosts").1 0
      ⟨"list hosts", "u-1", "local", concurrency.Task.live "job-task:u-1", some 7, ⟨"local"⟩, 0⟩
      7 rfl rfl).1,
   (Abort_fires_cancel_once (NewJob (okRuntime "f") World.init (some (ctxWithUUID "u-1"))
      (some 7) (some ⟨"local"⟩) "list hosts").1 0
      ⟨"list hosts", "u-1", "local", concurrency.Task.live "job-task:u-1", some 7, ⟨"local"⟩, 0⟩
      7 rfl rfl).2.1,
   by
    rw [(Abort_fires_cancel_once (NewJob (okRuntime "f") World.init (some (ctxWithUUID "u-1"))
      (some 7) (some ⟨"local"⟩) "list hosts").1 0
      ⟨"list hosts", "u-1", "local", concurrency.Task.live "job-task:u-1", some 7, ⟨"local"⟩, 0⟩
      7 rfl rfl).2.2.2.2.2.2]
    exact (Abort_fires_cancel_once (NewJob (okRuntime "f") World.init (some (ctxWithUUID "u-1"))
      (some 7) (some ⟨"local"⟩) "list hosts").1 0
      ⟨"list hosts", "u-1", "local", concurrency.Task.live "job-task:u-1", some 7, ⟨"local"⟩, 0⟩
      7 rfl rfl).2.1⟩

/-- C15. `AbortJobByID`: an empty id gives invalid-parameter; a non-empty id with
no entry in the registry gives not-found; in both cases the process state is
untouched, so no job was aborted. For a registered id the state after the call
is the state after `Abort` on the job registered under that id, and the result is
success when that `Abort` succeeds and its error wrapped otherwise. The registry
is the same before and after, whatever the id. -/
theorem AbortJobByID_contract (g : World) (id : String) :
    (AbortJobByID g id).1.jobMap = g.jobMap ∧
    (id = "" → AbortJobByID g id
      = (g, some (Error.InvalidParameterError "id" "cannot be empty string"))) ∧
    (id ≠ "" → g.jobMap.lookup id = none → AbortJobByID g id
      = (g, some (Error.NotFoundError ("no job identified by '" ++ id ++ "' found")))) ∧
    (∀ job, id ≠ "" → g.jobMap.lookup id = some job →
      (AbortJobByID g id).1 = (Abort g (some job)).1 ∧
      ((Abort g (some job)).2 = none → (AbortJobByID g id).2 = none) ∧
      (∀ err, (Abort g (some job)).2 = some err →
        (AbortJobByID g id).2 = some (Error.Wrap err ("failed to stop job '" ++ id ++ "'")))) := by
  refine ⟨?_, ?_, ?_, ?_⟩
  · by_cases hid : id = ""
    · simp [AbortJobByID, hid]
    · cases hl : g.jobMap.lookup id with
      | none => simp [AbortJobByID, hid, hl]
      | some job =>
        cases ha : (Abort g (some job)).2 <;>
          simp [AbortJobByID, hid, hl, ha, Abort_jobMap]
  · intro hid
    simp [AbortJobByID, hid]
  · intro hid hl
    simp [AbortJobByID, hid, hl]
  · intro job hid hl
    refine ⟨?_, ?_, ?_⟩
    · cases ha : (Abort g (some job)).2 <;> simp [AbortJobByID, hid, hl, ha]
    · intro ha
      simp [AbortJobByID, hid, hl, ha]
    · intro err ha
      simp [AbortJobByID, hid, hl, ha]

/-- Instance of C15: aborting by id the job registered under `u-1` calls its
cancel function 7 and returns success. -/
theorem AbortJobByID_contract_witness :
    (AbortJobByID (NewJob (okRuntime "f") World.init (some (ctxWithUUID "u-1")) (some 7)
        (some ⟨"local"⟩) "list hosts").1 "u-1").1
      = (Abort (NewJob (okRuntime "f") World.init (some (ctxWithUUID "u-1")) (some 7)
        (some ⟨"local"⟩) "list hosts").1 (some 0)).1 ∧
    (AbortJobByID (NewJob (okRuntime "f") World.init (some (ctxWithUUID "u-1")) (some 7)
        (some ⟨"local"⟩) "list hosts").1 "u-1").2 = none :=
  ⟨((AbortJobByID_contract (NewJob (okRuntime "f") World.init (some (ctxWithUUID "u-1"))
      (some 7) (some ⟨"local"⟩) "list hosts").1 "u-1").2.2.2 0 (by decide) (by decide)).1,
   ((AbortJobByID_contract (NewJob (okRuntime "f") World.init (some (ctxWithUUID "u-1"))
      (some 7) (some ⟨"local"⟩) "list hosts").1 "u-1").2.2.2 0 (by decide) (by decide)).2.1
      (by decide)⟩

theorem lookup_filter_ne (m : List (String × Nat)) (u k : String) (hk : k ≠ u) :
    (m.filter (fun e => e.1 != u)).lookup k = m.lookup k := by
  induction m with
  | nil => rfl
  | cons e m ih =>
    obtain ⟨a, b⟩ := e
    by_cases hau : a = u
    · subst hau
      have hka : (k == a) = false := by
        simp only [beq_eq_false_iff_ne, ne_eq]
        exact hk
      have haa : (a != a) = false := by simp
      simp only [List.filter, haa, List.lookup, hka]
      exact ih
    · have h1 : (a != u) = true := by simp [hau]
      simp only [List.filter, h1, List.lookup]
      cases hka : (k == a) with
      | true => rfl
      | false => exact ih

theorem lookup_filter_self (m : List (String × Nat)) (u : String) :
    (m.filter (fun e => e.1 != u)).lookup u = none := by
  induction m with
  | nil => rfl
  | cons e m ih =>
    obtain ⟨a, b⟩ := e
    by_cases hau : a = u
    · subst hau
      have haa : (a != a) = false := by simp
      simp only [List.filter, haa]
      exact ih
    · have h1 : (a != u) = true := by simp [hau]
      have h2 : (u == a) = false := by
        simp only [beq_eq_false_iff_ne, ne_eq]
        exact fun h => hau h.symm
      simp only [List.filter, h1, List.lookup, h2]
      exact ih

theorem lookup_none_of_not_mem_keys (m : List (String × Nat)) (u : String)
    (h : m.lookup u = none) : ∀ e ∈ m, e.1 ≠ u := by
  induction m with
  | nil => intro e he; cases he
  | cons a m ih =>
    obtain ⟨k, v⟩ := a
    intro e he
    cases hk : (u == k) with
    | true => simp [List.lookup, hk] at h
    | false =>
      simp only [List.lookup, hk] at h
      rcases List.mem_cons.mp he with rfl | hmem
      · intro heq
        simp only at heq
        rw [heq] at hk
        simp at hk
      · exact ih h e hmem

theorem Close_heap (g : World) (j : Nat) : (Close g j).heap = g.heap := by
  have hd : (deregister g (some j)).1.heap = g.heap := by
    simp only [deregister, deregisterUUID]
    split
    · rfl
    · split <;> rfl
  simp only [Close]
  split
  · split <;> simp [hd]
  · exact hd

theorem Close_jobMap (g : World) (j : Nat) :
    (Close g j).jobMap
      = if SafeGetID g j = "" then g.jobMap else mapDelete g.jobMap (SafeGetID g j) := by
  have hd : (deregister g (some j)).1.jobMap
      = if SafeGetID g j = "" then g.jobMap else mapDelete g.jobMap (SafeGetID g j) := by
    simp only [deregister, deregisterUUID]
    by_cases hu : SafeGetID g j = ""
    · simp [hu]
    · simp only [hu, if_false]
      cases hl : g.jobMap.lookup (SafeGetID g j) with
      | some v => rfl
      | none =>
        simp only [mapDelete]
        symm
        apply List.filter_eq_self.mpr
        intro e he
        have := lookup_none_of_not_mem_keys g.jobMap _ hl e he
        simpa using this
  simp only [Close]
  split
  · split <;> simp [hd]
  · exact hd

/-- C12. Deregister-on-close: for a job `o` at pointer `j` with a non-empty uuid
(as every job made by `NewJob` from a uuid header or a minted uuid has), the
registry after `Close` has no entry for that uuid, `AbortJobByID` on it returns
not-found without changing anything, `ListJobs` has no pair for it, and the
entry of every other uuid is as before `Close`. -/
theorem Close_deregisters (g : World) (j : Nat) (o : job)
    (hj : g.heap[j]? = some o) (hne : o.uuid ≠ "") :
    (Close g j).jobMap.lookup o.uuid = none ∧
    AbortJobByID (Close g j) o.uuid
      = (Close g j,
          some (Error.NotFoundError ("no job identified by '" ++ o.uuid ++ "' found"))) ∧
    (∀ name, (o.uuid, name) ∉ ListJobs (Close g j)) ∧
    (∀ k, k ≠ o.uuid → (Close g j).jobMap.lookup k = g.jobMap.lookup k) := by
  have hid : SafeGetID g j = o.uuid := by simp [SafeGetID, hj]
  have hmap : (Close g j).jobMap = mapDelete g.jobMap o.uuid := by
    rw [Close_jobMap, hid]
    simp [hne]
  have hnone : (Close g j).jobMap.lookup o.uuid = none := by
    rw [hmap]
    exact lookup_filter_self g.jobMap o.uuid
  refine ⟨hnone, ?_, ?_, ?_⟩
  · simp [AbortJobByID, hne, hnone]
  · intro name hmem
    simp only [ListJobs, List.mem_map] at hmem
    obtain ⟨e, he, heq⟩ := hmem
    have h1 := lookup_none_of_not_mem_keys _ _ hnone e he
    exact h1 (congrArg Prod.fst heq)
  · intro k hk
    rw [hmap]
    exact lookup_filter_ne g.jobMap o.uuid k hk

/-- Instance of C12: the job made by `NewJob` from the header `uuid: u-1` is
closed; its uuid is then unknown to `AbortJobByID`. -/
theorem Close_deregisters_witness :
    (Close (NewJob (okRuntime "f") World.init (some (ctxWithUUID "u-1")) (some 7)
        (some ⟨"local"⟩) "list hosts").1 0).jobMap.lookup "u-1" = none ∧
    AbortJobByID (Close (NewJob (okRuntime "f") World.init (some (ctxWithUUID "u-1")) (some 7)
        (some ⟨"local"⟩) "list hosts").1 0) "u-1"
      = (Close (NewJob (okRuntime "f") World.init (some (ctxWithUUID "u-1")) (some 7)
          (some ⟨"local"⟩) "list hosts").1 0,
          some (Error.NotFoundError ("no job identified by '" ++ "u-1" ++ "' found"))) :=
  ⟨(Close_deregisters (NewJob (okRuntime "f") World.init (some (ctxWithUUID "u-1")) (some 7)
      (some ⟨"local"⟩) "list hosts").1 0
      ⟨"list hosts", "u-1", "local", concurrency.Task.live "job-task:u-1", some 7, ⟨"local"⟩, 0⟩
      rfl (by decide)).1,
   (Close_deregisters (NewJob (okRuntime "f") World.init (some (ctxWithUUID "u-1")) (some 7)
      (some ⟨"local"⟩) "list hosts").1 0
      ⟨"list hosts", "u-1", "local", concurrency.Task.live "job-task:u-1", some 7, ⟨"local"⟩, 0⟩
      rfl (by decide)).2.1⟩

/-- C14, evaluated on the code: a job is made with cancel function 7 and closed.
`Close` calls the function but leaves the field `cancel` armed, so a second
`Close`, or an `Abort` after the `Close`, calls it a second time. -/
theorem Close_leaves_cancel_armed :
    ((Close (NewJob (okRuntime "f") World.init (some (ctxWithUUID "u-1")) (some 7)
        (some ⟨"local"⟩) "list hosts").1 0).heap[0]?).map job.cancel = some (some 7) ∧
    (Close (NewJob (okRuntime "f") World.init (some (ctxWithUUID "u-1")) (some 7)
        (some ⟨"local"⟩) "list hosts").1 0).cancelled = [7] ∧
    (Close (Close (NewJob (okRuntime "f") World.init (some (ctxWithUUID "u-1")) (some 7)
        (some ⟨"local"⟩) "list hosts").1 0) 0).cancelled = [7, 7] ∧
    (Abort (Close (NewJob (okRuntime "f") World.init (some (ctxWithUUID "u-1")) (some 7)
        (some ⟨"local"⟩) "list hosts").1 0) (some 0)).1.cancelled = [7, 7] := by
  refine ⟨?_, ?_, ?_, ?_⟩ <;> decide

end server

/-! ## Properties of the BOH flavor -/

namespace boh

/-- C16. BOH minimum servers: for every task and foreman the number of masters
is 1 and the number of public nodes is 0, whatever the complexity of the cluster,
and the number of private nodes is 1 for Small, 3 for Normal and 7 for Large. -/
theorem minimumRequiredServers_by_complexity (task : concurrency.Task)
    (foreman : control.Foreman) :
    (minimumRequiredServers task foreman).1 = 1 ∧
    (minimumRequiredServers task foreman).2.2 = 0 ∧
    ((foreman.Cluster.GetIdentity task).Complexity = Complexity.Enum.Small →
      (minimumRequiredServers task foreman).2.1 = 1) ∧
    ((foreman.Cluster.GetIdentity task).Complexity = Complexity.Enum.Normal →
      (minimumRequiredServers task foreman).2.1 = 3) ∧
    ((foreman.Cluster.GetIdentity task).Complexity = Complexity.Enum.Large →
      (minimumRequiredServers task foreman).2.1 = 7) := by
  refine ⟨rfl, rfl, ?_, ?_, ?_⟩ <;> intro h <;> simp [minimumRequiredServers, h]

/-- Instance of C16 (scenario S2 of the spec): a cluster of complexity Normal
needs 1 master, 3 private nodes and no public node. -/
theorem minimumRequiredServers_by_complexity_witness :
    minimumRequiredServers (concurrency.Task.live "t")
        (sampleForeman Complexity.Enum.Normal "192.168.0.0/24" "pw" "pub" "priv") = (1, 3, 0) :=
  Prod.ext
    (minimumRequiredServers_by_complexity (concurrency.Task.live "t")
      (sampleForeman Complexity.Enum.Normal "192.168.0.0/24" "pw" "pub" "priv")).1
    (Prod.ext
      ((minimumRequiredServers_by_complexity (concurrency.Task.live "t")
        (sampleForeman Complexity.Enum.Normal "192.168.0.0/24" "pw" "pub" "priv")).2.2.2.1 rfl)
      (minimumRequiredServers_by_complexity (concurrency.Task.live "t")
        (sampleForeman Complexity.Enum.Normal "192.168.0.0/24" "pw" "pub" "priv")).2.1)

/-- C17. Template helper `errcode`: for every message, the result is the code the
table `StringMap` gives for it when the message is a key, and 1023 when it is
not; since 1023 is kept out of the codes of the table, the result is 1023 exactly
when the message is not a key. -/
theorem errcode_of_StringMap (StringMap : String → Option Int) (msg : String) :
    (∀ code, StringMap msg = some code → errcode StringMap msg = code) ∧
    (StringMap msg = none → errcode StringMap msg = 1023) ∧
    ((∀ k, StringMap k ≠ some 1023) →
      (errcode StringMap msg = 1023 ↔ StringMap msg = none)) := by
  refine ⟨?_, ?_, ?_⟩
  · intro code h
    simp [errcode, h]
  · intro h
    simp [errcode, h]
  · intro hfree
    cases h : StringMap msg with
    | none => simp [errcode, h]
    | some code =>
      simp only [errcode, h]
      constructor
      · intro hc
        exact absurd (hc ▸ h) (hfree msg)
      · intro hc
        cases hc

/-- Instance of C17: in a table with the single key `"sysfix failed"`, that key
gives its code and any other message gives 1023. -/
theorem errcode_of_StringMap_witness :
    errcode (fun k => if k = "sysfix failed" then some 2 else none) "sysfix failed" = 2 ∧
    (errcode (fun k => if k = "sysfix failed" then some 2 else none) "no such message" = 1023 ↔
      (fun k => if k = "sysfix failed" then some (2 : Int) else none) "no such message" = none) :=
  ⟨(errcode_of_StringMap (fun k => if k = "sysfix failed" then some 2 else none)
      "sysfix failed").1 2 (by decide),
   (errcode_of_StringMap (fun k => if k = "sysfix failed" then some 2 else none)
      "no such message").2.2 (fun k => by by_cases h : k = "sysfix failed" <;> simp [h])⟩

/-- C18. BOH `getNodeInstallationScript`: the script is `boh_install_master.sh`
for a master and `boh_install_node.sh` for a private and for a public node; for
these three node types the name is not empty; the data map is empty for every
node type; and neither the task nor the foreman has any influence on the
result. -/
theorem getNodeInstallationScript_contract (task task2 : concurrency.Task)
    (foreman foreman2 : control.Foreman) (nodeType : NodeType.Enum) :
    (getNodeInstallationScript task foreman NodeType.Enum.Master).1 = "boh_install_master.sh" ∧
    (getNodeInstallationScript task foreman NodeType.Enum.PrivateNode).1 = "boh_install_node.sh" ∧
    (getNodeInstallationScript task foreman NodeType.Enum.PublicNode).1 = "boh_install_node.sh" ∧
    ((nodeType = NodeType.Enum.Master ∨ nodeType = NodeType.Enum.PrivateNode ∨
        nodeType = NodeType.Enum.PublicNode) →
      (getNodeInstallationScript task foreman nodeType).1 ≠ "") ∧
    (getNodeInstallationScript task foreman nodeType).2 = [] ∧
    getNodeInstallationScript task foreman nodeType
      = getNodeInstallationScript task2 foreman2 nodeType := by
  refine ⟨rfl, rfl, rfl, ?_, rfl, rfl⟩
  intro h
  rcases h with h | h | h <;> subst h <;> simp [getNodeInstallationScript]

/-- Instance of C18 for a public node. -/
theorem getNodeInstallationScript_contract_witness :
    (getNodeInstallationScript (concurrency.Task.live "t")
        (sampleForeman Complexity.Enum.Small "192.168.0.0/24" "pw" "pub" "priv")
        NodeType.Enum.PublicNode).1 ≠ "" :=
  (getNodeInstallationScript_contract (concurrency.Task.live "t") concurrency.Task.null
    (sampleForeman Complexity.Enum.Small "192.168.0.0/24" "pw" "pub" "priv")
    (sampleForeman Complexity.Enum.Large "10.0.0.0/16" "pw2" "pub2" "priv2")
    NodeType.Enum.PublicNode).2.2.2.1 (Or.inr (Or.inr rfl))

theorem getGlobalSystemRequirements_stores {T : Type} (E : Templating T) (s : Globals)
    (task : concurrency.Task) (foreman : control.Foreman) (result : String)
    (h : (getGlobalSystemRequirements E s task foreman).2 = .ok result) :
    (getGlobalSystemRequirements E s task foreman).1.globalSystemRequirementsContent
      = some result := by
  unfold getGlobalSystemRequirements at h ⊢
  cases hc : s.globalSystemRequirementsContent with
  | some content =>
    simp only [hc] at h ⊢
    simp only [Except.ok.injEq] at h
    rw [← h]
  | none =>
    simp only [hc] at h ⊢
    cases hb : getTemplateBox E s with
    | mk s1 rb =>
      cases rb with
      | error err => simp [hb] at h
      | ok b =>
        simp only [hb] at h ⊢
        cases ht : b.Content "boh_install_requirements.sh" with
        | error err => simp [ht] at h
        | ok tmplString =>
          simp only [ht] at h ⊢
          cases hp : E.Parse tmplString with
          | error err => simp [hp] at h
          | ok tmplPrepared =>
            simp only [hp] at h ⊢
            cases he : E.Execute tmplPrepared
                [ ("CIDR", (foreman.Cluster.GetNetworkConfig task).CIDR),
                  ("CladmPassword", (foreman.Cluster.GetIdentity task).AdminPassword),
                  ("SSHPublicKey", (foreman.Cluster.GetIdentity task).Keypair.PublicKey),
                  ("SSHPrivateKey", (foreman.Cluster.GetIdentity task).Keypair.PrivateKey) ] with
            | error err => simp [he] at h
            | ok r =>
              simp only [he] at h ⊢
              simp only [Except.ok.injEq] at h
              rw [← h]

/-- C19, as stated, fails: two foremen whose clusters differ in CIDR, password and
key pair call `getGlobalSystemRequirements` one after the other, both with
success. The second call returns the script rendered for the cluster of the
first foreman, not the one a call for the second foreman alone produces. -/
theorem second_foreman_gets_first_rendering :
    (getGlobalSystemRequirements sampleTemplating ⟨none, none⟩ (concurrency.Task.live "t")
        (sampleForeman Complexity.Enum.Small "192.168.0.0/24" "pwA" "pubA" "privA")).2
      = .ok "requirements 192.168.0.0/24 pwA pubA privA" ∧
    (getGlobalSystemRequirements sampleTemplating
        (getGlobalSystemRequirements sampleTemplating ⟨none, none⟩ (concurrency.Task.live "t")
          (sampleForeman Complexity.Enum.Small "192.168.0.0/24" "pwA" "pubA" "privA")).1
        (concurrency.Task.live "t")
        (sampleForeman Complexity.Enum.Small "10.0.0.0/16" "pwB" "pubB" "privB")).2
      = .ok "requirements 192.168.0.0/24 pwA pubA privA" ∧
    (getGlobalSystemRequirements sampleTemplating ⟨none, none⟩ (concurrency.Task.live "t")
        (sampleForeman Complexity.Enum.Small "10.0.0.0/16" "pwB" "pubB" "privB")).2
      = .ok "requirements 10.0.0.0/16 pwB pubB privB" ∧
    "requirements 192.168.0.0/24 pwA pubA privA" ≠ "requirements 10.0.0.0/16 pwB pubB privB" := by
  refine ⟨?_, ?_, ?_, ?_⟩
  · rfl
  · rfl
  · rfl
  · decide

/-- C19, amended. `getGlobalSystemRequirements` renders once and memoizes. While
nothing is stored, a call whose collaborators succeed returns the bootstrap
script rendered with the CIDR, admin password and SSH key pair of the cluster of
the foreman it is passed, and stores it. Once a text is stored, every call
returns that text and changes nothing, whatever task and foreman it is passed;
so after one successful call any later call, for any foreman, returns the result
of that first call. -/
theorem getGlobalSystemRequirements_memoizes {T : Type} (E : Templating T) (s : Globals)
    (task : concurrency.Task) (foreman : control.Foreman) :
    (∀ content, s.globalSystemRequirementsContent = some content →
      getGlobalSystemRequirements E s task foreman = (s, .ok content)) ∧
    (∀ s1 b tmplString tmplPrepared result,
      s.globalSystemRequirementsContent = none →
      getTemplateBox E s = (s1, .ok b) →
      b.Content "boh_install_requirements.sh" = .ok tmplString →
      E.Parse tmplString = .ok tmplPrepared →
      E.Execute tmplPrepared (requirementsData task foreman) = .ok result →
      getGlobalSystemRequirements E s task foreman
        = ({ s1 with globalSystemRequirementsContent := some result }, .ok result)) ∧
    (∀ result task2 foreman2,
      (getGlobalSystemRequirements E s task foreman).2 = .ok result →
      getGlobalSystemRequirements E (getGlobalSystemRequirements E s task foreman).1
          task2 foreman2
        = ((getGlobalSystemRequirements E s task foreman).1, .ok result)) := by
  have hfirst : ∀ (s0 : Globals) (tk : concurrency.Task) (fm : control.Foreman) (content : String),
      s0.globalSystemRequirementsContent = some content →
      getGlobalSystemRequirements E s0 tk fm = (s0, .ok content) := by
    intro s0 tk fm content hc
    simp [getGlobalSystemRequirements, hc]
  refine ⟨hfirst s task foreman, ?_, ?_⟩
  · intro s1 b tmplString tmplPrepared result hc hb ht hp he
    simp only [requirementsData] at he
    simp [getGlobalSystemRequirements, hc, hb, ht, hp, he]
  · intro result task2 foreman2 h
    exact hfirst _ task2 foreman2 result
      (getGlobalSystemRequirements_stores E s task foreman result h)

/-- Instance of the amended C19: after the call for the first foreman, the call
for a foreman of another cluster returns the stored text. -/
theorem getGlobalSystemRequirements_memoizes_witness :
    getGlobalSystemRequirements sampleTemplating
        (getGlobalSystemRequirements sampleTemplating ⟨none, none⟩ (concurrency.Task.live "t")
          (sampleForeman Complexity.Enum.Small "192.168.0.0/24" "pwA" "pubA" "privA")).1
        (concurrency.Task.live "t")
        (sampleForeman Complexity.Enum.Small "10.0.0.0/16" "pwB" "pubB" "privB")
      = ((getGlobalSystemRequirements sampleTemplating ⟨none, none⟩ (concurrency.Task.live "t")
          (sampleForeman Complexity.Enum.Small "192.168.0.0/24" "pwA" "pubA" "privA")).1,
          .ok "requirements 192.168.0.0/24 pwA pubA privA") :=
  (getGlobalSystemRequirements_memoizes sampleTemplating ⟨none, none⟩ (concurrency.Task.live "t")
    (sampleForeman Complexity.Enum.Small "192.168.0.0/24" "pwA" "pubA" "privA")).2.2
    "requirements 192.168.0.0/24 pwA pubA privA" (concurrency.Task.live "t")
    (sampleForeman Complexity.Enum.Small "10.0.0.0/16" "pwB" "pubB" "privB") rfl

end boh

/-! ## Properties of the timeout getters -/

namespace utils

theorem GetVariableTimeout_overridden (key : String) (d0 : Duration) :
    OverriddenBy (fun S => GetVariableTimeout S key d0) key d0 := by
  intro S
  refine ⟨?_, ?_, ?_, ?_⟩
  · intro v d hv hne hp
    simp [GetVariableTimeout, Sys.Getenv, hv, hne, hp]
  · intro hv
    simp [GetVariableTimeout, Sys.Getenv, hv]
  · intro hv
    simp [GetVariableTimeout, Sys.Getenv, hv]
  · intro v e hv hp
    by_cases hne : v = ""
    · simp [GetVariableTimeout, Sys.Getenv, hv, hne]
    · simp [GetVariableTimeout, Sys.Getenv, hv, hne, hp]

/-- C20. Timeout env override: for every key and default `d0`,
`GetVariableTimeout key d0` returns `d` when the variable holds a non-empty
string that parses as the duration `d`, and `d0` when the variable is not set, is
empty, or does not parse; and each of the eight getters has this property for
its own variable and its own compiled default. -/
theorem timeouts_env_override (key : String) (d0 : Duration) :
    OverriddenBy (fun S => GetVariableTimeout S key d0) key d0 ∧
    OverriddenBy GetContextTimeout "SAFESCALE_CONTEXT_TIMEOUT" DefaultContextTimeout ∧
    OverriddenBy GetHostTimeout "SAFESCALE_HOST_TIMEOUT" HostTimeout ∧
    OverriddenBy GetHostCleanupTimeout "SAFESCALE_HOST_CLEANUP_TIMEOUT" HostCleanupTimeout ∧
    OverriddenBy GetConnectSSHTimeout "SAFESCALE_SSH_CONNECT_TIMEOUT" DefaultSSHConnectionTimeout ∧
    OverriddenBy GetLongOperationTimeout "SAFESCALE_HOST_LONG_OPERATION_TIMEOUT"
      LongHostOperationTimeout ∧
    OverriddenBy GetMinDelay "SAFESCALE_MIN_DELAY" SmallDelay ∧
    OverriddenBy GetDefaultDelay "SAFESCALE_DEFAULT_DELAY" DefaultDelay ∧
    OverriddenBy GetBigDelay "SAFESCALE_BIG_DELAY" BigDelay :=
  ⟨GetVariableTimeout_overridden key d0,
   GetVariableTimeout_overridden _ _, GetVariableTimeout_overridden _ _,
   GetVariableTimeout_overridden _ _, GetVariableTimeout_overridden _ _,
   GetVariableTimeout_overridden _ _, GetVariableTimeout_overridden _ _,
   GetVariableTimeout_overridden _ _, GetVariableTimeout_overridden _ _⟩

/-- Instance of C20 (scenario S6 of the spec): with `SAFESCALE_HOST_TIMEOUT=2s`
the host timeout is 2 seconds, with `SAFESCALE_HOST_TIMEOUT=garbage` it is 5
minutes. -/
theorem timeouts_env_override_witness :
    GetHostTimeout (sampleSys "SAFESCALE_HOST_TIMEOUT" "2s") = 2 * Second ∧
    GetHostTimeout (sampleSys "SAFESCALE_HOST_TIMEOUT" "garbage") = 5 * Minute :=
  ⟨((timeouts_env_override "SAFESCALE_HOST_TIMEOUT" HostTimeout).2.2.1
      (sampleSys "SAFESCALE_HOST_TIMEOUT" "2s")).1 "2s" (2 * Second)
      (by decide) (by decide) rfl,
   ((timeouts_env_override "SAFESCALE_HOST_TIMEOUT" HostTimeout).2.2.1
      (sampleSys "SAFESCALE_HOST_TIMEOUT" "garbage")).2.2.2 "garbage"
      ("time: invalid duration " ++ "garbage") (by decide) rfl⟩

end utils

/-! ## The registry over sequences of `NewJob` and `Close` -/

namespace server

theorem selectID_frame (R : Runtime) (g : World) (c : Context) :
    (selectID R g c).1.heap = g.heap ∧ (selectID R g c).1.jobMap = g.jobMap := by
  cases hi : c.incoming with
  | none =>
    cases hv : R.NewV4 with
    | error err => simp [selectID, hi, hv]
    | ok uuid => simp [selectID, hi, hv]
  | some md =>
    cases hg : md.Get "uuid" with
    | nil => simp [selectID, hi, hg]
    | cons id rest =>
      by_cases hid : id = ""
      · simp [selectID, hi, hg, hid]
      · simp [selectID, hi, hg, hid]

/-- The effect of `NewJob` on memory and registry: either both are as before (the
call failed), or one job was added at the end of memory and registered under its
uuid. -/
theorem NewJob_shape (R : Runtime) (g : World) (ctx : Option Context)
    (cancel : Option CancelFunc) (svc : Option Service) (description : String) :
    ((NewJob R g ctx cancel svc description).1.heap = g.heap ∧
      (NewJob R g ctx cancel svc description).1.jobMap = g.jobMap) ∨
    (∃ nj, (NewJob R g ctx cancel svc description).1.heap = g.heap ++ [nj] ∧
      (NewJob R g ctx cancel svc description).1.jobMap
        = mapSet g.jobMap nj.uuid g.heap.length) := by
  cases ctx with
  | none => exact Or.inl ⟨rfl, rfl⟩
  | some c =>
    cases cancel with
    | none => exact Or.inl ⟨rfl, rfl⟩
    | some cf =>
      cases svc with
      | none => exact Or.inl ⟨rfl, rfl⟩
      | some sv =>
        have hf := selectID_frame R g c
        cases hsel : selectID R g c with
        | mk g1 r =>
          rw [hsel] at hf
          simp only at hf
          cases r with
          | error err =>
            left
            simp [NewJob, hsel, hf.1, hf.2]
          | ok id =>
            cases ht : R.NewTaskWithContext c with
            | error err =>
              left
              simp [NewJob, hsel, ht, hf.1, hf.2]
            | ok task =>
              cases hs : R.SetID task ("job-task:" ++ id) with
              | error err =>
                left
                simp [NewJob, hsel, ht, hs, hf.1, hf.2]
              | ok task1 =>
                right
                refine ⟨⟨description, id, sv.GetName, task1, some cf, sv, R.Now⟩, ?_, ?_⟩
                · simp [NewJob, hsel, ht, hs, register, hf.1]
                · simp [NewJob, hsel, ht, hs, register, SafeGetID, hf.1, hf.2]

theorem RegInv_init : RegInv World.init [] where
  keys := List.nodup_nil
  entry := by
    intro e he
    cases he
  closedAlloc := by
    intro p hp
    cases hp
  entryLive := by
    intro _ e he
    cases he
  liveEntry := by
    intro _ p o hp
    simp [World.init] at hp

theorem RegInv_of_frame (g g1 : World) (cl : List Nat) (hh : g1.heap = g.heap)
    (hm : g1.jobMap = g.jobMap) (h : RegInv g cl) : RegInv g1 cl where
  keys := by
    rw [hm]
    exact h.keys
  entry := by
    rw [hm, hh]
    exact h.entry
  closedAlloc := by
    rw [hh]
    exact h.closedAlloc
  entryLive := by
    rw [hm, hh]
    exact h.entryLive
  liveEntry := by
    rw [hm, hh]
    exact h.liveEntry

theorem RegInv_of_added (g g1 : World) (cl : List Nat) (nj : job)
    (hh : g1.heap = g.heap ++ [nj])
    (hm : g1.jobMap = mapSet g.jobMap nj.uuid g.heap.length) (h : RegInv g cl) :
    RegInv g1 cl where
  keys := by
    rw [hm]
    simp only [mapSet, List.map_cons]
    apply List.nodup_cons.mpr
    constructor
    · intro hmem
      obtain ⟨e, he, hk⟩ := List.mem_map.mp hmem
      have hne := (List.mem_filter.mp he).2
      simp only [bne_iff_ne, ne_eq] at hne
      exact hne hk
    · exact List.Nodup.sublist ((List.filter_sublist _).map _) h.keys
  entry := by
    intro e he
    rw [hm] at he
    rw [hh]
    rcases List.mem_cons.mp he with heq | hmem
    · subst heq
      exact ⟨nj, List.getElem?_concat_length _ _, rfl⟩
    · obtain ⟨o, ho, hu⟩ := h.entry e (List.mem_filter.mp hmem).1
      have hlt : e.2 < g.heap.length := (List.getElem?_eq_some.mp ho).1
      exact ⟨o, by rw [List.getElem?_append_left hlt]; exact ho, hu⟩
  closedAlloc := by
    intro p hp
    have := h.closedAlloc p hp
    rw [hh, List.length_append]
    exact Nat.lt_add_right _ this
  entryLive := by
    intro hne e he
    rw [hm] at he
    have hne1 : ∀ o ∈ g.heap, o.uuid ≠ "" := fun o ho =>
      hne o (by rw [hh]; exact List.mem_append_left _ ho)
    rcases List.mem_cons.mp he with heq | hmem
    · subst heq
      intro hcl
      exact absurd (h.closedAlloc _ hcl) (Nat.lt_irrefl _)
    · exact h.entryLive hne1 e (List.mem_filter.mp hmem).1
  liveEntry := by
    intro hnd p o hp hncl
    rw [hh] at hnd hp
    rw [hm]
    have hnd1 : (g.heap.map job.uuid ++ [nj.uuid]).Nodup := by simpa using hnd
    rcases Nat.lt_trichotomy p g.heap.length with hlt | heq | hgt
    · rw [List.getElem?_append_left hlt] at hp
      have hin := h.liveEntry hnd1.of_append_left p o hp hncl
      have hmem : o.uuid ∈ g.heap.map job.uuid :=
        List.mem_map.mpr ⟨o, List.getElem?_mem hp, rfl⟩
      have hne : o.uuid ≠ nj.uuid := by
        intro heq
        exact (List.nodup_append.mp hnd1).2.2 hmem (by rw [heq]; exact List.mem_singleton_self _)
      apply List.mem_cons_of_mem
      exact List.mem_filter.mpr ⟨hin, by simpa using hne⟩
    · subst heq
      rw [List.getElem?_concat_length] at hp
      cases hp
      exact List.mem_cons_self _ _
    · have hge : (g.heap ++ [nj]).length ≤ p := by
        rw [List.length_append]
        exact hgt
      rw [List.getElem?_eq_none hge] at hp
      cases hp

theorem RegInv_close (g : World) (cl : List Nat) (j : Nat) (hj : j < g.heap.length)
    (h : RegInv g cl) : RegInv (Close g j) (j :: cl) := by
  have hget : g.heap[j]? = some g.heap[j] := List.getElem?_eq_getElem hj
  have hid : SafeGetID g j = (g.heap[j]).uuid := by simp [SafeGetID, hget]
  have hsub : List.Sublist (Close g j).jobMap g.jobMap := by
    rw [Close_jobMap]
    split
    · exact List.Sublist.refl _
    · exact List.filter_sublist _
  refine ⟨?_, ?_, ?_, ?_, ?_⟩
  · exact List.Nodup.sublist (hsub.map _) h.keys
  · intro e he
    rw [Close_heap]
    exact h.entry e (hsub.subset he)
  · intro p hp
    rw [Close_heap]
    rcases List.mem_cons.mp hp with heq | hmem
    · rw [heq]
      exact hj
    · exact h.closedAlloc p hmem
  · intro hne e he hcl
    rw [Close_heap] at hne
    have hu : SafeGetID g j ≠ "" := by
      rw [hid]
      exact hne _ (List.getElem_mem hj)
    have hm : (Close g j).jobMap = mapDelete g.jobMap (SafeGetID g j) := by
      rw [Close_jobMap]
      simp [hu]
    rw [hm] at he
    have hin := (List.mem_filter.mp he).1
    have hk := (List.mem_filter.mp he).2
    simp only [bne_iff_ne, ne_eq] at hk
    rcases List.mem_cons.mp hcl with heq | hcl1
    · obtain ⟨o, ho, hou⟩ := h.entry e hin
      rw [heq, hget] at ho
      cases ho
      exact hk (by rw [← hou, hid])
    · exact h.entryLive hne e hin hcl1
  · intro hnd p o hp hncl
    rw [Close_heap] at hnd hp
    have hpj : p ≠ j := fun heq => hncl (by rw [heq]; exact List.mem_cons_self _ _)
    have hpcl : p ∉ cl := fun hmem => hncl (List.mem_cons_of_mem _ hmem)
    have hin := h.liveEntry hnd p o hp hpcl
    rw [Close_jobMap]
    split
    · exact hin
    · apply List.mem_filter.mpr
      refine ⟨hin, ?_⟩
      simp only [bne_iff_ne, ne_eq]
      intro heq
      apply hpj
      have hplt : p < (g.heap.map job.uuid).length := by
        rw [List.length_map]
        exact (List.getElem?_eq_some.mp hp).1
      apply List.getElem?_inj hplt hnd
      rw [List.getElem?_map, List.getElem?_map, hp, hget]
      simp only [Option.map_some']
      rw [heq, hid]

theorem RegInv_exec (st : World × List Nat) (op : JobOp) (h : RegInv st.1 st.2) :
    RegInv (exec st op).1 (exec st op).2 := by
  cases op with
  | newJob R ctx cancel svc description =>
    simp only [exec]
    rcases NewJob_shape R st.1 ctx cancel svc description with ⟨hh, hm⟩ | ⟨nj, hh, hm⟩
    · exact RegInv_of_frame st.1 _ st.2 hh hm h
    · exact RegInv_of_added st.1 _ st.2 nj hh hm h
  | close j =>
    simp only [exec]
    by_cases hj : j < st.1.heap.length
    · simp only [hj, if_true]
      exact RegInv_close st.1 st.2 j hj h
    · simp only [hj, if_false]
      exact h

theorem RegInv_foldl (ops : List JobOp) (st : World × List Nat) (h : RegInv st.1 st.2) :
    RegInv (ops.foldl exec st).1 (ops.foldl exec st).2 := by
  induction ops generalizing st with
  | nil => exact h
  | cons op ops ih => exact ih (exec st op) (RegInv_exec st op h)

theorem RegInv_run (ops : List JobOp) : RegInv (run ops).1 (run ops).2 :=
  RegInv_foldl ops (World.init, []) RegInv_init

theorem mem_liveJobs (g : World) (cl : List Nat) (p : Nat) :
    p ∈ liveJobs g cl ↔ p < g.heap.length ∧ p ∉ cl := by
  simp [liveJobs, List.mem_filter, List.mem_range]

theorem liveJobs_nodup (g : World) (cl : List Nat) : (liveJobs g cl).Nodup :=
  List.Nodup.filter _ (List.nodup_range _)

theorem RegInv_values_nodup (g : World) (cl : List Nat) (h : RegInv g cl) :
    (g.jobMap.map Prod.snd).Nodup := by
  apply List.Nodup.of_map (SafeGetID g)
  have hk : (g.jobMap.map Prod.snd).map (SafeGetID g) = g.jobMap.map Prod.fst := by
    rw [List.map_map]
    apply List.map_congr_left
    intro e he
    obtain ⟨o, ho, hu⟩ := h.entry e he
    simp [SafeGetID, ho, hu]
  rw [hk]
  exact h.keys

/-- C11, as stated, fails: two `NewJob` calls whose contexts carry the same uuid
header both succeed, none of the two jobs is closed, and yet the registry has one
entry for these two jobs, which share their uuid. -/
theorem same_uuid_header_registers_once :
    (NewJob (okRuntime "f") World.init (some (ctxWithUUID "u-1")) (some 1) (some ⟨"local"⟩)
        "first").2 = .ok 0 ∧
    (NewJob (okRuntime "f")
        (NewJob (okRuntime "f") World.init (some (ctxWithUUID "u-1")) (some 1) (some ⟨"local"⟩)
          "first").1
        (some (ctxWithUUID "u-1")) (some 2) (some ⟨"local"⟩) "second").2 = .ok 1 ∧
    (run sameUUIDTwice).1.jobMap.length = 1 ∧
    (liveJobs (run sameUUIDTwice).1 (run sameUUIDTwice).2).length = 2 ∧
    SafeGetID (run sameUUIDTwice).1 0 = "u-1" ∧
    SafeGetID (run sameUUIDTwice).1 1 = "u-1" := by
  refine ⟨rfl, rfl, ?_, ?_, ?_, ?_⟩ <;> decide

/-- C11, amended. In every state reached by a sequence of `NewJob` and `Close`
calls, no uuid is the key of two entries of the registry and every entry points
to a job that exists and has the key as its uuid. When no job has an empty uuid,
every entry is a job created and not yet closed, so the number of entries is at
most the number of such jobs; when moreover the uuids of the jobs created are
pairwise distinct, the two numbers are equal. -/
theorem registry_invariant (ops : List JobOp) :
    ((run ops).1.jobMap.map Prod.fst).Nodup ∧
    (∀ e ∈ (run ops).1.jobMap, ∃ o, (run ops).1.heap[e.2]? = some o ∧ o.uuid = e.1) ∧
    ((∀ o ∈ (run ops).1.heap, o.uuid ≠ "") →
      (∀ e ∈ (run ops).1.jobMap, e.2 ∈ liveJobs (run ops).1 (run ops).2) ∧
      (run ops).1.jobMap.length ≤ (liveJobs (run ops).1 (run ops).2).length) ∧
    ((∀ o ∈ (run ops).1.heap, o.uuid ≠ "") → ((run ops).1.heap.map job.uuid).Nodup →
      (run ops).1.jobMap.length = (liveJobs (run ops).1 (run ops).2).length) := by
  have h := RegInv_run ops
  have hvals := RegInv_values_nodup _ _ h
  have hlive : (∀ o ∈ (run ops).1.heap, o.uuid ≠ "") →
      ∀ e ∈ (run ops).1.jobMap, e.2 ∈ liveJobs (run ops).1 (run ops).2 := by
    intro hne e he
    rw [mem_liveJobs]
    obtain ⟨o, ho, _⟩ := h.entry e he
    exact ⟨(List.getElem?_eq_some.mp ho).1, h.entryLive hne e he⟩
  have hsubset : (∀ o ∈ (run ops).1.heap, o.uuid ≠ "") →
      (run ops).1.jobMap.map Prod.snd ⊆ liveJobs (run ops).1 (run ops).2 := by
    intro hne p hp
    obtain ⟨e, he, rfl⟩ := List.mem_map.mp hp
    exact hlive hne e he
  refine ⟨h.keys, h.entry, ?_, ?_⟩
  · intro hne
    refine ⟨hlive hne, ?_⟩
    have := (List.subperm_of_subset hvals (hsubset hne)).length_le
    simpa using this
  · intro hne hnd
    have hperm : List.Perm ((run ops).1.jobMap.map Prod.snd)
        (liveJobs (run ops).1 (run ops).2) := by
      apply (List.perm_ext_iff_of_nodup hvals (liveJobs_nodup _ _)).mpr
      intro p
      constructor
      · intro hp
        exact hsubset hne hp
      · intro hp
        rw [mem_liveJobs] at hp
        have hin := h.liveEntry hnd p _ (List.getElem?_eq_getElem hp.1) hp.2
        exact List.mem_map.mpr ⟨_, hin, rfl⟩
    have := hperm.length_eq
    simpa using this

/-- Instance of the amended C11: two jobs with the uuids `u-1` and `u-2` are
created and the first is closed; the registry then has one entry, as many as
there are jobs created and not closed. -/
theorem registry_invariant_witness :
    (run [JobOp.newJob (okRuntime "f") (some (ctxWithUUID "u-1")) (some 1) (some ⟨"local"⟩) "first",
          JobOp.newJob (okRuntime "f") (some (ctxWithUUID "u-2")) (some 2) (some ⟨"local"⟩) "second",
          JobOp.close 0]).1.jobMap.length
      = (liveJobs
          (run [JobOp.newJob (okRuntime "f") (some (ctxWithUUID "u-1")) (some 1) (some ⟨"local"⟩) "first",
            JobOp.newJob (okRuntime "f") (some (ctxWithUUID "u-2")) (some 2) (some ⟨"local"⟩) "second",
            JobOp.close 0]).1
          (run [JobOp.newJob (okRuntime "f") (some (ctxWithUUID "u-1")) (some 1) (some ⟨"local"⟩) "first",
            JobOp.newJob (okRuntime "f") (some (ctxWithUUID "u-2")) (some 2) (some ⟨"local"⟩) "second",
            JobOp.close 0]).2).length :=
  (registry_invariant
    [JobOp.newJob (okRuntime "f") (some (ctxWithUUID "u-1")) (some 1) (some ⟨"local"⟩) "first",
     JobOp.newJob (okRuntime "f") (some (ctxWithUUID "u-2")) (some 2) (some ⟨"local"⟩) "second",
     JobOp.close 0]).2.2.2 (by decide) (by decide)

end server

/-! ## Compiled values of the timeouts -/

namespace utils

theorem GetVariableTimeout_unset (S : Sys) (key : String) (d0 : Duration)
    (h : S.env key = none) : GetVariableTimeout S key d0 = d0 := by
  simp [GetVariableTimeout, Sys.Getenv, h]

theorem GetVariableTimeout_reads_key (S S1 : Sys) (key : String) (d0 : Duration)
    (hp : S.ParseDuration = S1.ParseDuration) (hk : S.env key = S1.env key) :
    GetVariableTimeout S key d0 = GetVariableTimeout S1 key d0 := by
  simp [GetVariableTimeout, Sys.Getenv, hp, hk]

theorem GetVariableTimeout_reads_exactly (key : String) (d0 : Duration) :
    ReadsExactly (fun S => GetVariableTimeout S key d0) key d0 := by
  refine ⟨?_, ?_, ?_⟩
  · intro S h
    rcases h with h | ⟨v, e, hv, he⟩
    · exact GetVariableTimeout_unset S key d0 h
    · by_cases hne : v = ""
      · simp [GetVariableTimeout, Sys.Getenv, hv, hne]
      · simp [GetVariableTimeout, Sys.Getenv, hv, hne, he]
  · intro S v d hv hne hp
    simp [GetVariableTimeout, Sys.Getenv, hv, hne, hp]
  · intro S S1 hp hk
    exact GetVariableTimeout_reads_key S S1 key d0 hp hk

/-- C21. Timeout defaults and variable names. In a process where each of the
eight variables is either not set or set to a value that does not parse as a
duration (in particular when no variable is set at all), the getters of
`SAFESCALE_CONTEXT_TIMEOUT`, `SAFESCALE_HOST_TIMEOUT`,
`SAFESCALE_HOST_CLEANUP_TIMEOUT`, `SAFESCALE_SSH_CONNECT_TIMEOUT`,
`SAFESCALE_HOST_LONG_OPERATION_TIMEOUT`, `SAFESCALE_MIN_DELAY`,
`SAFESCALE_DEFAULT_DELAY` and `SAFESCALE_BIG_DELAY` return 1m, 5m, 3m, 2m, 10m,
1s, 5s and 30s (in nanoseconds). Each getter reads exactly the variable of that
name: it returns its default as soon as that one variable is not set or does
not parse, it returns the duration a non-empty value of that variable parses
to, and no other variable has any influence on it. -/
theorem timeouts_defaults_and_names :
    (∀ S : Sys, (∀ key ∈ timeoutVariables, S.UnsetOrUnparseable key) →
      GetContextTimeout S = 60000000000 ∧
      GetHostTimeout S = 300000000000 ∧
      GetHostCleanupTimeout S = 180000000000 ∧
      GetConnectSSHTimeout S = 120000000000 ∧
      GetLongOperationTimeout S = 600000000000 ∧
      GetMinDelay S = 1000000000 ∧
      GetDefaultDelay S = 5000000000 ∧
      GetBigDelay S = 30000000000) ∧
    (∀ S : Sys, (∀ k, S.env k = none) → ∀ key ∈ timeoutVariables, S.UnsetOrUnparseable key) ∧
    ReadsExactly GetContextTimeout "SAFESCALE_CONTEXT_TIMEOUT" 60000000000 ∧
    ReadsExactly GetHostTimeout "SAFESCALE_HOST_TIMEOUT" 300000000000 ∧
    ReadsExactly GetHostCleanupTimeout "SAFESCALE_HOST_CLEANUP_TIMEOUT" 180000000000 ∧
    ReadsExactly GetConnectSSHTimeout "SAFESCALE_SSH_CONNECT_TIMEOUT" 120000000000 ∧
    ReadsExactly GetLongOperationTimeout "SAFESCALE_HOST_LONG_OPERATION_TIMEOUT" 600000000000 ∧
    ReadsExactly GetMinDelay "SAFESCALE_MIN_DELAY" 1000000000 ∧
    ReadsExactly GetDefaultDelay "SAFESCALE_DEFAULT_DELAY" 5000000000 ∧
    ReadsExactly GetBigDelay "SAFESCALE_BIG_DELAY" 30000000000 := by
  have h1 : ReadsExactly GetContextTimeout "SAFESCALE_CONTEXT_TIMEOUT" 60000000000 :=
    GetVariableTimeout_reads_exactly "SAFESCALE_CONTEXT_TIMEOUT" DefaultContextTimeout
  have h2 : ReadsExactly GetHostTimeout "SAFESCALE_HOST_TIMEOUT" 300000000000 :=
    GetVariableTimeout_reads_exactly "SAFESCALE_HOST_TIMEOUT" HostTimeout
  have h3 : ReadsExactly GetHostCleanupTimeout "SAFESCALE_HOST_CLEANUP_TIMEOUT" 180000000000 :=
    GetVariableTimeout_reads_exactly "SAFESCALE_HOST_CLEANUP_TIMEOUT" HostCleanupTimeout
  have h4 : ReadsExactly GetConnectSSHTimeout "SAFESCALE_SSH_CONNECT_TIMEOUT" 120000000000 :=
    GetVariableTimeout_reads_exactly "SAFESCALE_SSH_CONNECT_TIMEOUT" DefaultSSHConnectionTimeout
  have h5 : ReadsExactly GetLongOperationTimeout "SAFESCALE_HOST_LONG_OPERATION_TIMEOUT"
      600000000000 :=
    GetVariableTimeout_reads_exactly "SAFESCALE_HOST_LONG_OPERATION_TIMEOUT"
      LongHostOperationTimeout
  have h6 : ReadsExactly GetMinDelay "SAFESCALE_MIN_DELAY" 1000000000 :=
    GetVariableTimeout_reads_exactly "SAFESCALE_MIN_DELAY" SmallDelay
  have h7 : ReadsExactly GetDefaultDelay "SAFESCALE_DEFAULT_DELAY" 5000000000 :=
    GetVariableTimeout_reads_exactly "SAFESCALE_DEFAULT_DELAY" DefaultDelay
  have h8 : ReadsExactly GetBigDelay "SAFESCALE_BIG_DELAY" 30000000000 :=
    GetVariableTimeout_reads_exactly "SAFESCALE_BIG_DELAY" BigDelay
  refine ⟨?_, ?_, h1, h2, h3, h4, h5, h6, h7, h8⟩
  · intro S h
    exact ⟨h1.1 S (h _ (by simp [timeoutVariables])), h2.1 S (h _ (by simp [timeoutVariables])),
      h3.1 S (h _ (by simp [timeoutVariables])), h4.1 S (h _ (by simp [timeoutVariables])),
      h5.1 S (h _ (by simp [timeoutVariables])), h6.1 S (h _ (by simp [timeoutVariables])),
      h7.1 S (h _ (by simp [timeoutVariables])), h8.1 S (h _ (by simp [timeoutVariables]))⟩
  · intro S h key _
    exact Or.inl (h key)

/-- Instance of C21: in a process with no environment variable at all the host
timeout is 5 minutes and the small delay 1 second; with
`SAFESCALE_HOST_TIMEOUT=2s` the host timeout is 2 seconds, while the small delay,
which reads another variable, is still 1 second; with
`SAFESCALE_HOST_TIMEOUT=garbage` the host timeout is 5 minutes. -/
theorem timeouts_defaults_and_names_witness :
    GetHostTimeout emptySys = 300000000000 ∧
    GetMinDelay emptySys = 1000000000 ∧
    GetHostTimeout (sampleSys "SAFESCALE_HOST_TIMEOUT" "2s") = 2000000000 ∧
    GetMinDelay (sampleSys "SAFESCALE_HOST_TIMEOUT" "2s") = 1000000000 ∧
    GetHostTimeout (sampleSys "SAFESCALE_HOST_TIMEOUT" "garbage") = 300000000000 :=
  ⟨(timeouts_defaults_and_names.1 emptySys (fun _ _ => Or.inl rfl)).2.1,
   (timeouts_defaults_and_names.1 emptySys (fun _ _ => Or.inl rfl)).2.2.2.2.2.1,
   timeouts_defaults_and_names.2.2.2.1.2.1 (sampleSys "SAFESCALE_HOST_TIMEOUT" "2s") "2s"
     2000000000 (by decide) (by decide) rfl,
   timeouts_defaults_and_names.2.2.2.2.2.2.2.1.1 (sampleSys "SAFESCALE_HOST_TIMEOUT" "2s")
     (Or.inl (by decide)),
   timeouts_defaults_and_names.2.2.2.1.1 (sampleSys "SAFESCALE_HOST_TIMEOUT" "garbage")
     (Or.inr ⟨"garbage", "time: invalid duration " ++ "garbage", by decide, rfl⟩)⟩

end utils

/-! ## Properties of the tenant listener -/

namespace listeners

/-- C22. Tenant auto-selection. When a current tenant is set, `getCurrentTenant`
returns it and leaves the state as it is, so without any call to the tenant
registry. When none is set, exactly one tenant is registered and `UseService`
succeeds on its name, the current tenant becomes that name with that service and
is returned. When none is set and listing fails, or the number of registered
tenants is not one, or `UseService` fails on the single name, the result is nil
and the current tenant stays unset. -/
theorem getCurrentTenant_auto_selects (I : Iaas) (st : State) :
    (∀ t, st.currentTenant = some t → getCurrentTenant I st = (st, some t)) ∧
    (∀ name prov service, st.currentTenant = none →
      I.GetTenantNames = .ok [(name, prov)] → I.UseService name = .ok service →
      (getCurrentTenant I st).2 = some ⟨name, service⟩ ∧
      (getCurrentTenant I st).1.currentTenant = some ⟨name, service⟩) ∧
    (st.currentTenant = none →
      ((∃ e, I.GetTenantNames = .error e) ∨
        (∃ ts, I.GetTenantNames = .ok ts ∧ ts.length ≠ 1) ∨
        (∃ name prov e, I.GetTenantNames = .ok [(name, prov)] ∧ I.UseService name = .error e)) →
      (getCurrentTenant I st).2 = none ∧ (getCurrentTenant I st).1.currentTenant = none) := by
  refine ⟨?_, ?_, ?_⟩
  · intro t ht
    simp [getCurrentTenant, ht]
  · intro name prov service hc hn hu
    simp [getCurrentTenant, hc, hn, rangeTenants, hu, State.emit]
  · intro hc h
    rcases h with ⟨e, he⟩ | ⟨ts, hts, hlen⟩ | ⟨name, prov, e, hn, hu⟩
    · simp [getCurrentTenant, hc, he, State.emit]
    · simp [getCurrentTenant, hc, hts, hlen, State.emit]
    · simp [getCurrentTenant, hc, hn, rangeTenants, hu, State.emit]

/-- Instance of C22 (scenario S1 of the spec): with the single tenant `local`
registered and no current tenant, `getCurrentTenant` returns a tenant named
`local`. -/
theorem getCurrentTenant_auto_selects_witness :
    (getCurrentTenant sampleIaas ⟨none, []⟩).2 = some ⟨"local", sampleService "local"⟩ ∧
    (getCurrentTenant sampleIaas ⟨none, []⟩).1.currentTenant
      = some ⟨"local", sampleService "local"⟩ :=
  (getCurrentTenant_auto_selects sampleIaas ⟨none, []⟩).2.1 "local" "local"
    (sampleService "local") rfl rfl rfl

/-- C23. `TenantListener.Set`, for a request that passes validation. When the
request names the currently selected tenant, `Set` returns success and the state
is the one before the call: the current tenant and its service are unchanged and
no call to `UseService` was made. For any other name, when `UseService` succeeds
the current tenant becomes that name with the service obtained; when
`UseService` fails, `Set` returns that error (wrapped at exit) and the current
tenant is unchanged. -/
theorem Set_contract (I : Iaas) (st : State) (r : TenantName)
    (hvalid : I.ValidateName r = (true, none)) :
    (isCurrent st r.Name = true →
      Set I st (some ()) (some ()) (some r) = (st, ⟨true, none⟩)) ∧
    (∀ service, isCurrent st r.Name = false → I.UseService r.Name = .ok service →
      Set I st (some ()) (some ()) (some r)
        = ({ (st.emit (Event.UseService r.Name)) with
              currentTenant := some ⟨r.Name, service⟩ }, ⟨true, none⟩)) ∧
    (∀ xerr, isCurrent st r.Name = false → I.UseService r.Name = .error xerr →
      (Set I st (some ()) (some ()) (some r)).2
        = ⟨true, some (I.toGRPC (Error.Wrap xerr "cannot set tenant"))⟩ ∧
      (Set I st (some ()) (some ()) (some r)).1.currentTenant = st.currentTenant) := by
  refine ⟨?_, ?_, ?_⟩
  · intro hcur
    simp [Set, hvalid, hcur]
  · intro service hcur hu
    simp [Set, hvalid, hcur, hu]
  · intro xerr hcur hu
    simp [Set, hvalid, hcur, hu, onExit, State.emit]

/-- Instance of C23: with `local` selected, setting `local` again leaves the
state untouched. -/
theorem Set_contract_witness :
    Set sampleIaas ⟨some ⟨"local", sampleService "local"⟩, []⟩ (some ()) (some ())
        (some ⟨"local"⟩)
      = (⟨some ⟨"local", sampleService "local"⟩, []⟩, ⟨true, none⟩) :=
  (Set_contract sampleIaas ⟨some ⟨"local", sampleService "local"⟩, []⟩ ⟨"local"⟩ rfl).1
    (by decide)

/-- C24, evaluated on the code. With the tenant `local` selected, a valid
`Cleanup` request for `local` with `force` returns success after preparing and
closing its job: no `UseService` and no `TenantCleanup` call is made, although
`UseService` would resolve the name. For the tenant `other`, which is not the
selected one, `TenantCleanup` is called once. -/
theorem Cleanup_skips_current_tenant :
    (sampleIaas.UseService "local").toOption.isSome = true ∧
    (Cleanup sampleIaas ⟨some ⟨"local", sampleService "local"⟩, []⟩ (some ()) (some ())
        (some ⟨"local", true⟩)).2 = ⟨true, none⟩ ∧
    (Cleanup sampleIaas ⟨some ⟨"local", sampleService "local"⟩, []⟩ (some ()) (some ())
        (some ⟨"local", true⟩)).1.events
      = [Event.PrepareJob "tenant cleanup", Event.JobClose] ∧
    (Cleanup sampleIaas ⟨some ⟨"local", sampleService "local"⟩, []⟩ (some ()) (some ())
        (some ⟨"other", true⟩)).1.events
      = [Event.PrepareJob "tenant cleanup", Event.UseService "other",
          Event.TenantCleanup "other" true, Event.JobClose] := by
  refine ⟨rfl, ?_, ?_, ?_⟩ <;> decide

end listeners

/-! ## Properties of the openstack and cloudferro providers -/

namespace providers

/-- C25, as stated, fails: on an openstack provider without `Stack`, which is a
null provider, `GetCapabilities` and `GetTenantParameters` return their usual
values; their results carry no error, so none of them is invalid-instance. -/
theorem null_provider_still_has_capabilities :
    openstack.IsNull (some ⟨none, none, "", [("name", Value.str "t")]⟩) = true ∧
    openstack.GetCapabilities (some ⟨none, none, "", [("name", Value.str "t")]⟩)
      = Run.ret ⟨true⟩ ∧
    openstack.GetTenantParameters (some ⟨none, none, "", [("name", Value.str "t")]⟩)
      = Run.ret [("name", Value.str "t")] :=
  ⟨rfl, rfl, rfl⟩

/-- C25, amended. For the openstack provider `IsNull` is true exactly when the
provider is nil or has no `Stack`, and on such a provider `ListTemplates` and
`ListImages` return invalid-instance with an empty list, without touching the
`Stack`. For the cloudferro provider, whatever `IsNull` is: on a non-nil
provider `q` for which the call `IsNull()` returns true,
`GetAuthenticationOptions`, `GetConfigurationOptions`, `ListTemplates` and
`ListImages` return invalid-instance with an empty result and
`GetTenantParameters`, which has no error result, returns the empty map, in all
five cases whether `q` has a `Stack` or not; and `GetCapabilities`, which has no
error result either, returns the empty capabilities on every receiver `r`, nil
or not, for which `IsNull()` returns true. -/
theorem null_provider_sentinel (p : Option openstack.provider)
    (IsNull : cloudferro.IsNullCall) (q : cloudferro.provider)
    (r : Option cloudferro.provider) (all : Bool) :
    (openstack.IsNull p = true ↔ (p = none ∨ ∃ o, p = some o ∧ o.Stack = none)) ∧
    (openstack.IsNull p = true →
      openstack.ListTemplates p all = Run.ret ([], some Error.InvalidInstanceError) ∧
      openstack.ListImages p all = Run.ret ([], some Error.InvalidInstanceError)) ∧
    (IsNull (some q) = Run.ret true →
      cloudferro.GetAuthenticationOptions IsNull (some q)
        = Run.ret ([], some Error.InvalidInstanceError) ∧
      cloudferro.GetConfigurationOptions IsNull (some q)
        = Run.ret ([], some Error.InvalidInstanceError) ∧
      cloudferro.ListTemplates IsNull (some q) all
        = Run.ret ([], some Error.InvalidInstanceError) ∧
      cloudferro.ListImages IsNull (some q) all
        = Run.ret ([], some Error.InvalidInstanceError) ∧
      cloudferro.GetTenantParameters IsNull (some q) = Run.ret []) ∧
    (IsNull r = Run.ret true → cloudferro.GetCapabilities IsNull r = Run.ret ⟨false⟩) := by
  refine ⟨?_, ?_, ?_, ?_⟩
  · cases p with
    | none => simp [openstack.IsNull]
    | some o => simp [openstack.IsNull, Option.isNone_iff_eq_none]
  · intro h
    simp [openstack.ListTemplates, openstack.ListImages, h]
  · intro h
    simp [cloudferro.GetAuthenticationOptions, cloudferro.GetConfigurationOptions,
      cloudferro.ListTemplates, cloudferro.ListImages, cloudferro.GetTenantParameters, h]
  · intro h
    simp [cloudferro.GetCapabilities, h]

/-- Instance of the amended C25: the openstack provider registered at start-up,
which has no `Stack`, answers `ListTemplates` and `ListImages` with
invalid-instance; so does a cloudferro provider without `Stack` when `IsNull` is
the test the openstack provider makes. -/
theorem null_provider_sentinel_witness :
    (openstack.ListTemplates (some ⟨none, none, "", []⟩) true
      = Run.ret ([], some Error.InvalidInstanceError) ∧
     openstack.ListImages (some ⟨none, none, "", []⟩) true
      = Run.ret ([], some Error.InvalidInstanceError)) ∧
    cloudferro.ListTemplates cloudferro.sampleIsNull (some ⟨none, []⟩) true
      = Run.ret ([], some Error.InvalidInstanceError) ∧
    cloudferro.GetCapabilities cloudferro.sampleIsNull none = Run.ret ⟨false⟩ :=
  ⟨(null_provider_sentinel (some ⟨none, none, "", []⟩) cloudferro.sampleIsNull ⟨none, []⟩
      none true).2.1 rfl,
   ((null_provider_sentinel (some ⟨none, none, "", []⟩) cloudferro.sampleIsNull ⟨none, []⟩
      none true).2.2.1 rfl).2.2.1,
   (null_provider_sentinel (some ⟨none, none, "", []⟩) cloudferro.sampleIsNull ⟨none, []⟩
      none true).2.2.2 rfl⟩

/-- C27, as stated, fails: on a cloudferro provider whose stack fails with `boom`
after listing one template, `ListTemplates` is not what the stack returns,
whatever the call `IsNull()` does: when it answers false the result is the
error with an empty list, the template the stack returned being dropped; when
it answers true the result is invalid-instance; when it panics there is no
result. -/
theorem cloudferro_drops_list_of_failed_stack :
    failingStack.ListTemplates = ([⟨"s1-2"⟩], some (Error.Other "boom")) ∧
    cloudferro.ListTemplates (fun _ => Run.ret false) (some ⟨some failingStack, []⟩) true
      = Run.ret ([], some (Error.Other "boom")) ∧
    cloudferro.ListTemplates (fun _ => Run.ret false) (some ⟨some failingStack, []⟩) true
      ≠ Run.ret failingStack.ListTemplates ∧
    cloudferro.ListTemplates (fun _ => Run.ret true) (some ⟨some failingStack, []⟩) true
      ≠ Run.ret failingStack.ListTemplates ∧
    cloudferro.ListTemplates (fun _ => Run.panic "nil") (some ⟨some failingStack, []⟩) true
      ≠ Run.ret failingStack.ListTemplates := by
  refine ⟨rfl, rfl, ?_, ?_, ?_⟩ <;>
    simp [cloudferro.ListTemplates, failingStack]

/-- C27, amended. The flag `all` of `ListTemplates` and `ListImages` has no
impact: for every state of an openstack or cloudferro provider (null ones
included, and whatever `IsNull` is for cloudferro) the result is the same for
both values of the flag. For an openstack provider with a `Stack` the result is
what the stack's method returns. For a non-nil cloudferro provider with a
`Stack` on which `IsNull()` returns false, the result is what the stack's
method returns when the stack succeeds, and the stack's error with an empty
list when the stack fails. -/
theorem all_flag_has_no_impact (p : Option openstack.provider)
    (IsNull : cloudferro.IsNullCall) (q : Option cloudferro.provider) (all1 all2 : Bool) :
    (openstack.ListTemplates p all1 = openstack.ListTemplates p all2 ∧
     openstack.ListImages p all1 = openstack.ListImages p all2 ∧
     cloudferro.ListTemplates IsNull q all1 = cloudferro.ListTemplates IsNull q all2 ∧
     cloudferro.ListImages IsNull q all1 = cloudferro.ListImages IsNull q all2) ∧
    (∀ o stack, p = some o → o.Stack = some stack →
      openstack.ListTemplates p all1 = Run.ret stack.ListTemplates ∧
      openstack.ListImages p all1 = Run.ret stack.ListImages) ∧
    (∀ o stack, q = some o → o.Stack = some stack → IsNull (some o) = Run.ret false →
      (stack.ListTemplates.2 = none →
        cloudferro.ListTemplates IsNull q all1 = Run.ret stack.ListTemplates) ∧
      (∀ xerr, stack.ListTemplates.2 = some xerr →
        cloudferro.ListTemplates IsNull q all1 = Run.ret ([], some xerr)) ∧
      (stack.ListImages.2 = none →
        cloudferro.ListImages IsNull q all1 = Run.ret stack.ListImages) ∧
      (∀ xerr, stack.ListImages.2 = some xerr →
        cloudferro.ListImages IsNull q all1 = Run.ret ([], some xerr))) := by
  refine ⟨⟨rfl, rfl, rfl, rfl⟩, ?_, ?_⟩
  · intro o stack hp hs
    subst hp
    simp [openstack.ListTemplates, openstack.ListImages, openstack.IsNull, hs]
  · intro o stack hq hs hn
    subst hq
    refine ⟨?_, ?_, ?_, ?_⟩
    · intro h
      simp only [cloudferro.ListTemplates, hn, hs, h]
      simp [← h]
    · intro xerr h
      simp only [cloudferro.ListTemplates, hn, hs, h]
    · intro h
      simp only [cloudferro.ListImages, hn, hs, h]
      simp [← h]
    · intro xerr h
      simp only [cloudferro.ListImages, hn, hs, h]

/-- Instance of the amended C27, with `IsNull` the test the openstack provider
makes: over the sample stack cloudferro lists what the stack lists; over the
failing stack it returns the stack's error and no template. -/
theorem all_flag_has_no_impact_witness :
    cloudferro.ListTemplates cloudferro.sampleIsNull (some ⟨some sampleStack, []⟩) true
      = Run.ret sampleStack.ListTemplates ∧
    cloudferro.ListTemplates cloudferro.sampleIsNull (some ⟨some failingStack, []⟩) true
      = Run.ret ([], some (Error.Other "boom")) :=
  ⟨((all_flag_has_no_impact none cloudferro.sampleIsNull (some ⟨some sampleStack, []⟩) true
      false).2.2 ⟨some sampleStack, []⟩ sampleStack rfl rfl rfl).1 rfl,
   ((all_flag_has_no_impact none cloudferro.sampleIsNull (some ⟨some failingStack, []⟩) true
      false).2.2 ⟨some failingStack, []⟩ failingStack rfl rfl rfl).2.1 (Error.Other "boom") rfl⟩

end providers

namespace providers

theorem operatorUsernameOf_cases (DefaultUser : String) (compute : Params) (name : String)
    (warnings : List String)
    (h : operatorUsernameOf DefaultUser compute = Run.ret (name, warnings)) :
    ((compute.lookup "OperatorUsername" = none ∨
        compute.lookup "OperatorUsername" = some (Value.str "")) → name = DefaultUser) ∧
    (∀ s, compute.lookup "OperatorUsername" = some (Value.str s) → s ≠ "" → name = s) := by
  unfold operatorUsernameOf at h
  constructor
  · intro hl
    rcases hl with hl | hl
    · rw [hl] at h
      simp only [Run.ret.injEq, Prod.mk.injEq] at h
      exact h.1.symm
    · rw [hl] at h
      simp only [if_true, Run.ret.injEq, Prod.mk.injEq] at h
      exact h.1.symm
  · intro s hl hs
    rw [hl] at h
    simp only [hs, if_false, Run.ret.injEq, Prod.mk.injEq] at h
    exact h.1.symm

/-- C26. Defaults applied by the openstack `Build`, `v` being the values it
passes on. The zone is `nova` when `compute.AvailabilityZone` is missing or
empty; the DNS list is `8.8.8.8, 1.1.1.1` when `network.DNSServers` is missing
or empty; the operator username is the default user when
`compute.OperatorUsername` is missing or the empty string; the provider network
is `public` when `network.ExternalNetwork` is missing or empty; the floating IP
pool is the provider network when `network.FloatingIPPool` is missing or empty.
A value that is present and not empty is used as supplied. These values are
the ones in the authentication and configuration options that `Build` hands to
the constructor of the stack. -/
theorem openstack_Build_defaults (D : Deps) (params compute network : Params)
    (v : openstack.Locals)
    (hc : compute = asTable (params.lookup "compute"))
    (hn : network = asTable (params.lookup "network"))
    (hv : openstack.locals D.DefaultUser params = Run.ret v) :
    (((compute.lookup "AvailabilityZone" = none ∨
          compute.lookup "AvailabilityZone" = some (Value.str "")) → v.zone = "nova") ∧
      (∀ s, compute.lookup "AvailabilityZone" = some (Value.str s) → s ≠ "" → v.zone = s)) ∧
    (((network.lookup "DNSServers" = none ∨
          network.lookup "DNSServers" = some (Value.strs [])) →
        v.dnsServers = ["8.8.8.8", "1.1.1.1"]) ∧
      (∀ l, network.lookup "DNSServers" = some (Value.strs l) → l ≠ [] → v.dnsServers = l)) ∧
    (((compute.lookup "OperatorUsername" = none ∨
          compute.lookup "OperatorUsername" = some (Value.str "")) →
        v.operatorUsername = D.DefaultUser) ∧
      (∀ s, compute.lookup "OperatorUsername" = some (Value.str s) → s ≠ "" →
        v.operatorUsername = s)) ∧
    (((network.lookup "ExternalNetwork" = none ∨
          network.lookup "ExternalNetwork" = some (Value.str "")) →
        v.providerNetwork = "public") ∧
      (∀ s, network.lookup "ExternalNetwork" = some (Value.str s) → s ≠ "" →
        v.providerNetwork = s)) ∧
    (((network.lookup "FloatingIPPool" = none ∨
          network.lookup "FloatingIPPool" = some (Value.str "")) →
        v.floatingIPPool = v.providerNetwork) ∧
      (∀ s, network.lookup "FloatingIPPool" = some (Value.str s) → s ≠ "" →
        v.floatingIPPool = s)) ∧
    (∀ bucket stack,
      D.BuildMetadataBucketName "openstack" v.region v.tenantID "0" = .ok bucket →
      D.New (openstack.authOptions v) (openstack.cfgOptions v bucket) = .ok stack →
      (openstack.authOptions v).AvailabilityZone = v.zone ∧
      (openstack.authOptions v).FloatingIPPool = v.floatingIPPool ∧
      (openstack.cfgOptions v bucket).DNSList = v.dnsServers ∧
      (openstack.cfgOptions v bucket).OperatorUsername = v.operatorUsername ∧
      (openstack.cfgOptions v bucket).ProviderNetwork = v.providerNetwork ∧
      openstack.Build D params
        = Run.ret ⟨v.warnings,
            .ok { Stack := some stack, SecurityGroup := none, ExternalNetworkID := "",
                  tenantParameters := params }⟩) := by
  subst hc hn
  have hv0 := hv
  simp only [openstack.locals] at hv
  cases ho : operatorUsernameOf D.DefaultUser (asTable (params.lookup "compute")) with
  | panic why => simp [ho] at hv
  | ret r =>
    obtain ⟨name, warnings⟩ := r
    simp only [ho, Run.ret.injEq] at hv
    have hop := operatorUsernameOf_cases _ _ _ _ ho
    subst hv
    refine ⟨⟨?_, ?_⟩, ⟨?_, ?_⟩, hop, ⟨?_, ?_⟩, ⟨?_, ?_⟩, ?_⟩
    · intro h
      rcases h with h | h <;> simp [h, asString]
    · intro s h hs
      simp [h, asString, hs]
    · intro h
      rcases h with h | h <;> simp [h, asStrings]
    · intro l h hl
      simp [h, asStrings, hl]
    · intro h
      rcases h with h | h <;> simp [h, asString]
    · intro s h hs
      simp [h, asString, hs]
    · intro h
      rcases h with h | h <;> simp [h, asString]
    · intro s h hs
      simp [h, asString, hs]
    · intro bucket stack hb hnew
      refine ⟨rfl, rfl, rfl, rfl, rfl, ?_⟩
      simp only [openstack.Build, hv0]
      simp only [hb, hnew]

end providers

namespace providers

/-- Instance of C26: from parameters that give only a region and an external
network, `Build` takes the zone `nova`, the default DNS servers, the default
user, the supplied network and, as floating IP pool, that network. -/
theorem openstack_Build_defaults_witness :
    (sampleLocals.zone = "nova" ∧ sampleLocals.dnsServers = ["8.8.8.8", "1.1.1.1"] ∧
      sampleLocals.operatorUsername = sampleDeps.DefaultUser) ∧
    sampleLocals.providerNetwork = "Ext-Net" ∧
    sampleLocals.floatingIPPool = sampleLocals.providerNetwork :=
  ⟨⟨(openstack_Build_defaults sampleDeps sampleParams _ _ sampleLocals rfl rfl rfl).1.1
      (Or.inl rfl),
    (openstack_Build_defaults sampleDeps sampleParams _ _ sampleLocals rfl rfl rfl).2.1.1
      (Or.inl rfl),
    (openstack_Build_defaults sampleDeps sampleParams _ _ sampleLocals rfl rfl rfl).2.2.1.1
      (Or.inl rfl)⟩,
   (openstack_Build_defaults sampleDeps sampleParams _ _ sampleLocals rfl rfl rfl).2.2.2.1.2
      "Ext-Net" rfl (by decide),
   (openstack_Build_defaults sampleDeps sampleParams _ _ sampleLocals rfl rfl rfl).2.2.2.2.1.1
      (Or.inl rfl)⟩

/-- C30, evaluated on the code: with `compute.OperatorUsername` present and not
a string, both `Build` functions panic on the assertion
`operatorUsernameIf.(string)`, whatever the collaborators; no default is
applied. -/
theorem Build_panics_on_non_string_operator (D : Deps) :
    openstack.Build D numericOperatorParams
      = Run.panic "interface conversion: interface \x7b\x7d is not string" ∧
    cloudferro.Build D numericOperatorParams
      = Run.panic "interface conversion: interface \x7b\x7d is not string" :=
  ⟨rfl, rfl⟩

end providers

/-! ## Properties of the `cluster` commands -/

namespace cmd

open providers (Run)

/-- C28, evaluated on the code. When `cluster.Get` fails, `cluster start` returns
nil, that is success, where `stop` and `state` return the error. When
`cluster.Get` finds no cluster and returns nil without error, `stop`, `start`
and `state` call `Stop`, `Start` and `GetState` on the nil instance, which
panics, where `inspect` and the `node` commands test the instance first. -/
theorem clusterStart_hides_Get_error :
    (clusterStart (tracingPkg 0 (.error "metadata unreadable")) (countContext 1)).ret
      = Run.ret none ∧
    (clusterStop (tracingPkg 0 (.error "metadata unreadable")) (countContext 1)).ret
      = Run.ret (some "metadata unreadable") ∧
    (clusterState (tracingPkg 0 (.error "metadata unreadable")) (countContext 1)).ret
      = Run.ret (some "metadata unreadable") ∧
    (clusterStop (tracingPkg 0 (.ok none)) (countContext 1)).ret = nilInstance ∧
    (clusterStart (tracingPkg 0 (.ok none)) (countContext 1)).ret = nilInstance ∧
    (clusterState (tracingPkg 0 (.ok none)) (countContext 1)).ret = nilInstance ∧
    (clusterNodeList (tracingPkg 0 (.ok none)) (countContext 1)).ret
      = Run.ret (some "Cluster 'c1' not found.") :=
  ⟨rfl, rfl, rfl, rfl, rfl, rfl, rfl⟩

theorem addLoop_tracing (present : Nat) (b : Bool) (n i : Nat) (l : List String) :
    addLoop (tracingAPI present) b () n i l = (l ++ List.replicate n "AddNode", none) := by
  induction n generalizing i l with
  | zero => simp [addLoop]
  | succ n ih =>
    simp only [addLoop, tracingAPI]
    have := ih (i + 1) (l ++ ["AddNode"])
    simp only [tracingAPI] at this
    rw [this]
    simp [List.replicate_succ]

theorem clusterNodeAdd_tracing (n : Int) :
    clusterNodeAdd (tracingPkg 0 (.ok (some []))) (countContext n)
      = ⟨some (List.replicate n.toNat "AddNode"),
          [ Out.Printf "Adding %d %s node%s to Cluster '%s' (this may take a while)...\n"
              [Arg.num (toUint16 n), Arg.str "private", Arg.str (countS (toUint16 n)),
                Arg.str "c1"],
            Out.Printf "Added %d %s node%s to cluster '%s'.\n"
              [Arg.num (toUint16 n), Arg.str "private", Arg.str (countS (toUint16 n)),
                Arg.str "c1"] ],
          Run.ret none⟩ := by
  simp only [clusterNodeAdd, tracingPkg, countContext, Context.NArg, Context.First,
    addLoop_tracing, nodeTypeString]
  simp

/-- C29, evaluated on the code, every `AddNode` succeeding. With `--count -1`
the two messages of `cluster node add` report 65535 nodes and no `AddNode` call
is made; with `--count 65537` they report 1 node and 65537 calls are made. -/
theorem nodeAdd_reports_uint16_of_count :
    (clusterNodeAdd (tracingPkg 0 (.ok (some []))) (countContext (-1))).out
      = [ Out.Printf "Adding %d %s node%s to Cluster '%s' (this may take a while)...\n"
            [Arg.num 65535, Arg.str "private", Arg.str "s", Arg.str "c1"],
          Out.Printf "Added %d %s node%s to cluster '%s'.\n"
            [Arg.num 65535, Arg.str "private", Arg.str "s", Arg.str "c1"] ] ∧
    (clusterNodeAdd (tracingPkg 0 (.ok (some []))) (countContext (-1))).inst = some [] ∧
    (clusterNodeAdd (tracingPkg 0 (.ok (some []))) (countContext 65537)).out
      = [ Out.Printf "Adding %d %s node%s to Cluster '%s' (this may take a while)...\n"
            [Arg.num 1, Arg.str "private", Arg.str "", Arg.str "c1"],
          Out.Printf "Added %d %s node%s to cluster '%s'.\n"
            [Arg.num 1, Arg.str "private", Arg.str "", Arg.str "c1"] ] ∧
    (clusterNodeAdd (tracingPkg 0 (.ok (some []))) (countContext 65537)).inst
      = some (List.replicate 65537 "AddNode") := by
  have h1 : toUint16 65537 = 1 := by decide
  have h2 : (65537 : Int).toNat = 65537 := by decide
  have h3 : countS 1 = "" := by decide
  refine ⟨by decide, by decide, ?_, ?_⟩
  · rw [clusterNodeAdd_tracing, h1, h3]
    rfl
  · rw [clusterNodeAdd_tracing, h2]

end cmd

namespace cmd

open providers (Run)

/-- The guard of `cluster node delete` without `--id`: when the count asked for
exceeds the number of nodes present, nothing is deleted and an error is
returned; otherwise the instance is the one the loop of `DeleteLastNode` calls
leaves. -/
theorem clusterNodeDelete_guard {I V : Type} (P : Pkg I V) (c : Context V) (inst : I)
    (hn : c.NArg = 1) (hg : P.Get c.First = .ok (some inst)) (hid : c.id = "") :
    (toUint c.count > P.api.CountNodes inst c.publicFlag →
      (clusterNodeDelete P c).inst = some inst ∧ (clusterNodeDelete P c).out = [] ∧
      ∃ msg, (clusterNodeDelete P c).ret = Run.ret (some msg)) ∧
    (toUint c.count ≤ P.api.CountNodes inst c.publicFlag →
      (clusterNodeDelete P c).inst
        = some (deleteLoop P.api c.publicFlag (toInt (toUint c.count)).toNat 0 inst).1) := by
  constructor
  · intro h
    simp [clusterNodeDelete, hn, hg, hid, h]
  · intro h
    have h1 : ¬ (toUint c.count > P.api.CountNodes inst c.publicFlag) := Nat.not_lt.mpr h
    simp only [clusterNodeDelete, hn, hg, hid, h1]
    simp only [ne_eq, not_true_eq_false, if_false]
    cases hl : deleteLoop P.api c.publicFlag (toInt (toUint c.count)).toNat 0 inst with
    | mk inst1 r =>
      cases r with
      | none => rfl
      | some e => rfl

end cmd

end SafeScale
